import Mathlib

/-!
# Dialogs::Widget search coordination (Telegram/SourceFiles/dialogs/dialogs_widget.cpp)

A shallow embedding of the search bookkeeping of `Dialogs::Widget`: the
message-search lanes (primary and migrated), the contact-search lane, the two
result caches, the pending-request maps and the operations that drive them.

Conventions of the embedding.

* The widget is a record `Widget`; every member function is a function from
  `Widget` to `Widget` (with a result where the C++ function returns one).
* What the widget asks of its collaborators (the list view `_inner`, the
  session settings, the peer data, the layout mode) is collected in `Env` and
  passed to every operation.
* What the widget does to its collaborators (requests sent and cancelled, pages
  handed to the list view, timers) is appended to `Widget.log`.
* Purely presentational calls (`update()`, `onListScroll()`, focus, button
  visibility, geometry) have no influence on the search state and are left out.
-/

namespace Dialogs

/-! ## Basic types -/

/-- A `QString`, as its sequence of characters. -/
abbrev QString := List Char

/-- An `mtpRequestId` (an `int32` in the source); `0` means "no request". -/
abbrev mtpRequestId := Nat

/-- Identity of a `PeerData` / of the `History` of that peer. -/
abbrev PeerId := Nat

/-- Identity of a `UserData`. -/
abbrev UserId := Nat

/-- The `enum class SearchRequestType` of the widget. -/
inductive SearchRequestType where
  | FromStart
  | FromOffset
  | PeerFromStart
  | PeerFromOffset
  | MigratedFromStart
  | MigratedFromOffset
  deriving DecidableEq, Repr

/-- The `WidgetState` reported by the list view (`_inner->state()`). -/
inductive WidgetState where
  | Default
  | Filtered
  deriving DecidableEq, Repr

/-- The four shapes of `MTPmessages_Messages`. The `chats` / `users` vectors are
only handed to the session data (`processUsers`, `processChats`) and are not
kept; messages are represented by their ids. -/
inductive MTPmessages_Messages where
  | messages (vmessages : List Int)
  | messagesSlice (vcount : Int) (vnext_rate : Option Int) (vmessages : List Int)
  | channelMessages (vpts : Int) (vcount : Int) (vmessages : List Int)
  | messagesNotModified (vcount : Int)
  deriving DecidableEq, Repr

/-- The single shape `contacts.found` of `MTPcontacts_Found`. -/
structure MTPcontacts_Found where
  vmy_results : List PeerId
  vresults : List PeerId
  deriving DecidableEq, Repr

/-- An `RPCError` as far as the widget looks at it. -/
structure RPCError where
  code : Int
  type : String
  deriving DecidableEq, Repr

/-- A `Dialogs::Key`: empty, the history of a peer, or a folder. -/
inductive Key where
  | empty
  | ofHistory (peer : PeerId)
  | ofFolder (id : Nat)
  deriving DecidableEq, Repr

/-- The `Key::peer()` accessor: the peer of a history key, null otherwise. -/
def Key.peer : Key → Option PeerId
  | Key.ofHistory p => some p
  | _ => none

/-- The `Key::folder()` accessor. -/
def Key.folder : Key → Option Nat
  | Key.ofFolder f => some f
  | _ => none

/-- The `explicit operator bool` of `Key`: true for a non-empty key. -/
def Key.toBool : Key → Bool
  | Key.empty => false
  | _ => true

/-- The requests the widget builds. Every argument of the constructor call in
the source is kept, in the order of the source. -/
inductive Request where
  | messages_Search (f_from_id : Bool) (peer : PeerId) (q : QString)
      (from_id : Option UserId) (min_date max_date offset_id add_offset limit
        max_id min_id hash : Int)
  | messages_SearchGlobal (f_folder_id : Bool) (folder_id : Int) (q : QString)
      (offset_rate : Int) (offset_peer : Option PeerId) (offset_id : Int) (limit : Int)
  | contacts_Search (q : QString) (limit : Int)
  deriving DecidableEq, Repr

/-- The pair of callbacks bound to a request by `rpcDone` / `rpcFail`:
`searchReceived` / `searchFailed` with their bound `SearchRequestType`, or
`peerSearchReceived` / `peopleFailed`. -/
inductive RpcHandler where
  | search (type : SearchRequestType)
  | peerSearch
  deriving DecidableEq, Repr

/-- What the widget does to its collaborators. -/
inductive Effect where
  | send (requestId : mtpRequestId) (request : Request) (handler : RpcHandler)
  | cancel (requestId : mtpRequestId)
  | processUsersChats
  | channelPtsReceived (peer : PeerId) (pts : Int)
  | logApiError
  | innerSearchReceived (messages : List Int) (type : SearchRequestType) (fullCount : Int)
  | innerPeerSearchReceived (query : QString) (my result : List PeerId)
  | innerApplyFilterUpdate (filterText : QString) (force : Bool)
  | innerSearchInChat (key : Key) (fromUser : Option UserId)
  | innerClearFilter
  | innerHashtagFilterUpdate (r : QString)
  | searchTimerStart (timeout : Int)
  | searchTimerStop
  | requestDialogs
  | showSearchFrom
  | showPeerHistory (peer : PeerId)
  | saveRecentSearchHashtags (query : QString)
  | emitCancelled
  deriving DecidableEq, Repr

/-! ## QMap -/

/-- A `QMap`: at most one value per key. -/
structure QMap (K V : Type) where
  entries : List (K × V)
  deriving DecidableEq, Repr

namespace QMap

variable {K V : Type} [DecidableEq K]

/-- The empty map (also the result of `clear()`). -/
def clear : QMap K V := ⟨[]⟩

/-- Lookup, as `find` / `constFind` followed by `value()`; `none` is `cend()`. -/
def find (m : QMap K V) (k : K) : Option V :=
  (m.entries.find? (fun p => decide (p.1 = k))).map Prod.snd

/-- Insert or replace, as `insert(k, v)` and `m[k] = v`. -/
def insert (m : QMap K V) (k : K) (v : V) : QMap K V :=
  ⟨(k, v) :: m.entries.filter (fun p => decide (p.1 ≠ k))⟩

/-- Removal of a key, as `erase(find(k))`. -/
def erase (m : QMap K V) (k : K) : QMap K V :=
  ⟨m.entries.filter (fun p => decide (p.1 ≠ k))⟩

/-- Whether the map holds the key. -/
def contains (m : QMap K V) (k : K) : Bool :=
  (m.find k).isSome

end QMap

/-! ## The RPC layer -/

/-- Modelled from the spec: the RPC layer behind `MTP::send` and `MTP::cancel`,
which is not among the source files. It hands out request identifiers that were
never handed out before (a counter, never `0`) and keeps the requests that were
sent and have neither completed nor been cancelled, each with the callbacks
bound to it. -/
structure MTP where
  lastRequestId : mtpRequestId
  inFlight : List (mtpRequestId × RpcHandler)
  deriving DecidableEq, Repr

/-! ## The widget -/

/-- The members of `Dialogs::Widget` that take part in search, the text and
cursor of the `_filter` input field, the RPC layer and the log of effects. -/
structure Widget where
  filterText : QString
  cursorPosition : Int
  _lastFilterText : QString
  _searchInChat : Key
  _searchInMigrated : Option PeerId
  _searchFromUser : Option UserId
  _searchQuery : QString
  _searchQueryFrom : Option UserId
  _searchNextRate : Int
  _searchFull : Bool
  _searchFullMigrated : Bool
  _searchRequest : mtpRequestId
  _searchCache : QMap QString MTPmessages_Messages
  _searchQueries : QMap mtpRequestId QString
  _peerSearchQuery : QString
  _peerSearchFull : Bool
  _peerSearchRequest : mtpRequestId
  _peerSearchCache : QMap QString MTPcontacts_Found
  _peerSearchQueries : QMap mtpRequestId QString
  mtp : MTP
  log : List Effect
  deriving DecidableEq, Repr

/-- What the list view `_inner` answers when asked during one operation. -/
structure InnerWidget where
  state : WidgetState
  waitingForSearch : Bool
  lastSearchPeer : Option PeerId
  lastSearchId : Int
  lastSearchMigratedId : Int
  /-- The result of `_inner->searchReceived(...)`: whether a message was added. -/
  searchReceived : Bool
  /-- Whether the shown folder is null or its chats list is not loaded. -/
  needRequestDialogs : Bool

/-- The collaborators and constants an operation reads. -/
structure Env where
  inner : InnerWidget
  SearchPerPage : Int
  SearchPeopleLimit : Int
  AutoSearchTimeout : Int
  /-- The session setting `skipArchiveInSearch()`. -/
  skipArchiveInSearch : Bool
  /-- Whether `peer->asChannel()` is non-null. -/
  asChannel : PeerId → Bool
  migrateTo : PeerId → Option PeerId
  migrateFrom : PeerId → Option PeerId
  /-- The predicate `MTP::isDefaultHandledError`. -/
  isDefaultHandledError : RPCError → Bool
  /-- The layout predicate `Adaptive::OneColumn()`. -/
  oneColumn : Bool
  /-- The main widget's `selectingPeer()`. -/
  selectingPeer : Bool
  /-- Whether the show animation `_a_show` is running. -/
  showAnimating : Bool
  /-- Whether the from-user button is toggled on. -/
  chooseFromUserToggled : Bool

/-- The widget right after construction. -/
def Widget.init : Widget where
  filterText := []
  cursorPosition := 0
  _lastFilterText := []
  _searchInChat := Key.empty
  _searchInMigrated := none
  _searchFromUser := none
  _searchQuery := []
  _searchQueryFrom := none
  _searchNextRate := 0
  _searchFull := false
  _searchFullMigrated := false
  _searchRequest := 0
  _searchCache := QMap.clear
  _searchQueries := QMap.clear
  _peerSearchQuery := []
  _peerSearchFull := false
  _peerSearchRequest := 0
  _peerSearchCache := QMap.clear
  _peerSearchQueries := QMap.clear
  mtp := ⟨0, []⟩
  log := []

/-- Append an effect to the log. -/
def Widget.emit (s : Widget) (e : Effect) : Widget :=
  { s with log := s.log ++ [e] }

/-- Modelled from the spec: `MTP::send`, which is not among the source files.
The request gets the next identifier, is in flight from now on, and the
identifier is returned. -/
def MTP_send (request : Request) (handler : RpcHandler) (s : Widget) :
    Widget × mtpRequestId :=
  let requestId := s.mtp.lastRequestId + 1
  ({ s with
      mtp := ⟨requestId, (requestId, handler) :: s.mtp.inFlight⟩
      log := s.log ++ [Effect.send requestId request handler] },
    requestId)

/-- Modelled from the spec: `MTP::cancel`, which is not among the source files.
Cancelling `0` does nothing; otherwise the request is no longer in flight. -/
def MTP_cancel (requestId : mtpRequestId) (s : Widget) : Widget :=
  if requestId = 0 then s
  else
    { s with
        mtp := ⟨s.mtp.lastRequestId,
          s.mtp.inFlight.filter (fun p => decide (p.1 ≠ requestId))⟩
        log := s.log ++ [Effect.cancel requestId] }

/-- Whether the type is one of the two migrated-lane types. -/
def SearchRequestType.isMigrated : SearchRequestType → Bool
  | SearchRequestType.MigratedFromStart => true
  | SearchRequestType.MigratedFromOffset => true
  | _ => false

/-- The recurring block
`if (type == MigratedFromStart || type == MigratedFromOffset) _searchFullMigrated = true; else _searchFull = true;`. -/
def markFull (type : SearchRequestType) (s : Widget) : Widget :=
  if type.isMigrated then { s with _searchFullMigrated := true }
  else { s with _searchFull := true }

/-- The recurring block `if (_searchRequest != 0) processUsers, processChats`. -/
def processUnlessCached (s : Widget) : Widget :=
  if s._searchRequest ≠ 0 then s.emit Effect.processUsersChats else s

/-- The first part of `Widget::searchReceived` (lines 985-994): in the Filtered
state a from-start response whose id is in `_searchQueries` is cached under the
query recorded for that id, and the id is erased. -/
def searchReceivedCache (e : Env) (type : SearchRequestType)
    (result : MTPmessages_Messages) (requestId : mtpRequestId) (s : Widget) : Widget :=
  if e.inner.state = WidgetState.Filtered then
    if type = SearchRequestType.FromStart ∨ type = SearchRequestType.PeerFromStart then
      match s._searchQueries.find requestId with
      | some q =>
        { s with
            _searchCache := s._searchCache.insert q result
            _searchQueries := s._searchQueries.erase requestId }
      | none => s
    else s
  else s

/-- The `switch (result.type())` of `Widget::searchReceived` (lines 997-1077). -/
def searchReceivedApply (e : Env) (type : SearchRequestType)
    (result : MTPmessages_Messages) (s : Widget) : Widget :=
  match result with
  | MTPmessages_Messages.messages msgs =>
    let s := processUnlessCached s
    let s := s.emit (Effect.innerSearchReceived msgs type msgs.length)
    markFull type s
  | MTPmessages_Messages.messagesSlice vcount vnext_rate msgs =>
    let s := processUnlessCached s
    let s := s.emit (Effect.innerSearchReceived msgs type vcount)
    let someAdded := e.inner.searchReceived
    let rateUpdated : Bool :=
      match vnext_rate with
      | some r => decide (r ≠ s._searchNextRate)
      | none => false
    let finished : Bool :=
      if type = SearchRequestType.FromStart ∨ type = SearchRequestType.FromOffset
      then !rateUpdated else !someAdded
    let s :=
      match vnext_rate with
      | some r => if rateUpdated then { s with _searchNextRate := r } else s
      | none => s
    if finished then markFull type s else s
  | MTPmessages_Messages.channelMessages vpts vcount msgs =>
    let s :=
      match s._searchInChat.peer with
      | some peer =>
        if e.asChannel peer then s.emit (Effect.channelPtsReceived peer vpts)
        else s.emit Effect.logApiError
      | none => s.emit Effect.logApiError
    let s := processUnlessCached s
    let s := s.emit (Effect.innerSearchReceived msgs type vcount)
    if !e.inner.searchReceived then markFull type s else s
  | MTPmessages_Messages.messagesNotModified _ =>
    let s := s.emit Effect.logApiError
    markFull type s

/-- The member `Widget::searchReceived` (lines 981-1083). -/
def searchReceived (e : Env) (type : SearchRequestType)
    (result : MTPmessages_Messages) (requestId : mtpRequestId) (s : Widget) : Widget :=
  let s := searchReceivedCache e type result requestId s
  if s._searchRequest = requestId then
    let s := searchReceivedApply e type result s
    { s with _searchRequest := 0 }
  else s

/-- The member `Widget::peerSearchReceived` (lines 1085-1111). -/
def peerSearchReceived (e : Env) (result : MTPcontacts_Found)
    (requestId : mtpRequestId) (s : Widget) : Widget :=
  let q := s._peerSearchQuery
  let sq : Widget × QString :=
    if e.inner.state = WidgetState.Filtered then
      match s._peerSearchQueries.find requestId with
      | some q1 =>
        ({ s with
            _peerSearchCache := s._peerSearchCache.insert q1 result
            _peerSearchQueries := s._peerSearchQueries.erase requestId }, q1)
      | none => (s, q)
    else (s, q)
  let s := sq.1
  let q := sq.2
  if s._peerSearchRequest = requestId then
    let s := s.emit Effect.processUsersChats
    let s := s.emit (Effect.innerPeerSearchReceived q result.vmy_results result.vresults)
    { s with _peerSearchRequest := 0 }
  else s

/-- The member `Widget::searchFailed` (lines 1113-1128). -/
def searchFailed (e : Env) (type : SearchRequestType) (error : RPCError)
    (requestId : mtpRequestId) (s : Widget) : Widget × Bool :=
  if e.isDefaultHandledError error then (s, false)
  else if s._searchRequest = requestId then
    (markFull type { s with _searchRequest := 0 }, true)
  else (s, true)

/-- The member `Widget::peopleFailed` (lines 1130-1138). -/
def peopleFailed (e : Env) (error : RPCError) (req : mtpRequestId)
    (s : Widget) : Widget × Bool :=
  if e.isDefaultHandledError error then (s, false)
  else if s._peerSearchRequest = req then
    ({ s with _peerSearchRequest := 0, _peerSearchFull := true }, true)
  else (s, true)

/-! ## Query text -/

/-- The `QChar::isSpace` test of Qt: the ASCII white space, U+0085, U+00A0 and
the Unicode separator characters. -/
def isSpace (c : Char) : Bool :=
  let u := c.toNat
  u = 0x20 || (0x09 ≤ u && u ≤ 0x0D) || u = 0x85 || u = 0xA0 || u = 0x1680
    || (0x2000 ≤ u && u ≤ 0x200A) || u = 0x2028 || u = 0x2029 || u = 0x202F
    || u = 0x205F || u = 0x3000

/-- The `QString::trimmed` of Qt: white space removed from both ends. -/
def trimmed (t : QString) : QString :=
  ((t.dropWhile isSpace).reverse.dropWhile isSpace).reverse

/-- The helper `SwitchToChooseFromQuery()` of the anonymous namespace. -/
def SwitchToChooseFromQuery : QString := "from:".toList

/-- The member `Widget::searchForPeersRequired` (lines 841-846). -/
def searchForPeersRequired (s : Widget) (query : QString) : Bool :=
  if s._searchInChat.toBool || query.isEmpty then false
  else
    match query with
    | c :: _ => decide (c ≠ '#')
    | [] => false

/-! ## Sending, paging and cancelling -/

/-- The statement `MTP::cancel(base::take(_searchRequest))`: the tracked id is
reset to `0` and the request it named is cancelled. -/
def cancelTakeSearchRequest (s : Widget) : Widget :=
  MTP_cancel s._searchRequest { s with _searchRequest := 0 }

/-- The statement `MTP::cancel(base::take(_peerSearchRequest))`. -/
def cancelTakePeerSearchRequest (s : Widget) : Widget :=
  MTP_cancel s._peerSearchRequest { s with _peerSearchRequest := 0 }

/-- The four assignments that open both branches of `onSearchMessages`
(lines 735-738 and 749-752). -/
def startQuery (q : QString) (s : Widget) : Widget :=
  { s with
      _searchQuery := q
      _searchQueryFrom := s._searchFromUser
      _searchNextRate := 0
      _searchFull := false
      _searchFullMigrated := false }

/-- The first-page request of `onSearchMessages` (lines 754-804): a search in
the scope peer when `_searchInChat.peer()` is set, a global search otherwise.
The id handed out is stored in `_searchRequest`. -/
def sendFirstPage (e : Env) (s : Widget) : Widget :=
  let sent :=
    match s._searchInChat.peer with
    | some peer =>
      MTP_send
        (Request.messages_Search s._searchQueryFrom.isSome peer s._searchQuery
          s._searchQueryFrom 0 0 0 0 e.SearchPerPage 0 0 0)
        (RpcHandler.search SearchRequestType.PeerFromStart) s
    | none =>
      MTP_send
        (Request.messages_SearchGlobal e.skipArchiveInSearch 0 s._searchQuery 0 none 0
          e.SearchPerPage)
        (RpcHandler.search SearchRequestType.FromStart) s
  { sent.1 with _searchRequest := sent.2 }

/-- The message-search part of `onSearchMessages` (lines 732-806), with the
value of `result` it leaves. -/
def onSearchMessagesMessages (e : Env) (searchCache : Bool) (q : QString)
    (s : Widget) : Widget × Bool :=
  if searchCache then
    match s._searchCache.find q with
    | some page =>
      let s := startQuery q s
      let s := cancelTakeSearchRequest s
      let s := searchReceived e
        (if s._searchInChat.toBool then SearchRequestType.PeerFromStart
          else SearchRequestType.FromStart)
        page 0 s
      (s, true)
    | none => (s, false)
  else if s._searchQuery ≠ q ∨ s._searchQueryFrom ≠ s._searchFromUser then
    let s := startQuery q s
    let s := cancelTakeSearchRequest s
    let s := sendFirstPage e s
    ({ s with _searchQueries := s._searchQueries.insert s._searchRequest s._searchQuery },
      false)
  else (s, false)

/-- The contact-search part of `onSearchMessages` (lines 807-838); `result` is
the value left by the message-search part. -/
def onSearchMessagesPeers (e : Env) (searchCache : Bool) (q : QString)
    (result : Bool) (s : Widget) : Widget × Bool :=
  if searchForPeersRequired s q then
    if searchCache then
      match s._peerSearchCache.find q with
      | some found =>
        let s := { s with _peerSearchQuery := q, _peerSearchRequest := 0 }
        (peerSearchReceived e found 0 s, true)
      | none => (s, result)
    else if s._peerSearchQuery ≠ q then
      let s := { s with _peerSearchQuery := q, _peerSearchFull := false }
      let sent :=
        MTP_send (Request.contacts_Search s._peerSearchQuery e.SearchPeopleLimit)
          RpcHandler.peerSearch s
      let s := { sent.1 with _peerSearchRequest := sent.2 }
      ({ s with
          _peerSearchQueries :=
            s._peerSearchQueries.insert s._peerSearchRequest s._peerSearchQuery },
        result)
    else (s, result)
  else
    let s := { s with _peerSearchQuery := q, _peerSearchFull := true }
    (peerSearchReceived e ⟨[], []⟩ 0 s, result)

/-- The member `Widget::onSearchMessages(bool searchCache)` (lines 724-839). -/
def onSearchMessages (e : Env) (searchCache : Bool) (s : Widget) : Widget × Bool :=
  let q := trimmed s.filterText
  if q.isEmpty ∧ s._searchFromUser = none then
    let s := cancelTakeSearchRequest s
    let s := cancelTakePeerSearchRequest s
    (s, true)
  else
    let r := onSearchMessagesMessages e searchCache q s
    onSearchMessagesPeers e searchCache q r.2 r.1

/-- The member `Widget::onNeedSearchMessages` (lines 848-852). -/
def onNeedSearchMessages (e : Env) (s : Widget) : Widget :=
  let r := onSearchMessages e true s
  if !r.2 then r.1.emit (Effect.searchTimerStart e.AutoSearchTimeout) else r.1

/-- The member `Widget::onSearchMore` (lines 890-979). -/
def onSearchMore (e : Env) (s : Widget) : Widget :=
  if s._searchRequest = 0 then
    if !s._searchFull then
      let offsetPeer := e.inner.lastSearchPeer
      let offsetId := e.inner.lastSearchId
      let sent :=
        match s._searchInChat.peer with
        | some peer =>
          MTP_send
            (Request.messages_Search s._searchQueryFrom.isSome peer s._searchQuery
              s._searchQueryFrom 0 0 offsetId 0 e.SearchPerPage 0 0 0)
            (RpcHandler.search
              (if offsetId ≠ 0 then SearchRequestType.PeerFromOffset
                else SearchRequestType.PeerFromStart)) s
        | none =>
          MTP_send
            (Request.messages_SearchGlobal e.skipArchiveInSearch 0 s._searchQuery
              s._searchNextRate offsetPeer offsetId e.SearchPerPage)
            (RpcHandler.search
              (if offsetId ≠ 0 then SearchRequestType.FromOffset
                else SearchRequestType.FromStart)) s
      let s := { sent.1 with _searchRequest := sent.2 }
      if offsetId = 0 then
        { s with _searchQueries := s._searchQueries.insert s._searchRequest s._searchQuery }
      else s
    else
      match s._searchInMigrated with
      | some migrated =>
        if !s._searchFullMigrated then
          let offsetMigratedId := e.inner.lastSearchMigratedId
          let sent :=
            MTP_send
              (Request.messages_Search s._searchQueryFrom.isSome migrated s._searchQuery
                s._searchQueryFrom 0 0 offsetMigratedId 0 e.SearchPerPage 0 0 0)
              (RpcHandler.search
                (if offsetMigratedId ≠ 0 then SearchRequestType.MigratedFromOffset
                  else SearchRequestType.MigratedFromStart)) s
          { sent.1 with _searchRequest := sent.2 }
        else s
      | none => s
  else s

/-- The condition under which the load-more callback installed in the
constructor (lines 266-280) calls `onSearchMore()`. -/
def loadMoreCallsSearchMore (e : Env) (s : Widget) : Bool :=
  decide (e.inner.state = WidgetState.Filtered)
    && (!e.inner.waitingForSearch
      || (s._searchInMigrated.isSome && s._searchFull && !s._searchFullMigrated))

/-- The load-more callback installed in the constructor (lines 266-280). -/
def loadMoreCallback (e : Env) (s : Widget) : Widget :=
  if loadMoreCallsSearchMore e s then onSearchMore e s
  else if e.inner.needRequestDialogs then s.emit Effect.requestDialogs
  else s

/-- The member `Widget::clearSearchCache` (lines 1292-1298). -/
def clearSearchCache (s : Widget) : Widget :=
  let s := { s with
    _searchCache := QMap.clear
    _searchQueries := QMap.clear
    _searchQuery := []
    _searchQueryFrom := none }
  cancelTakeSearchRequest s

/-- The member `Widget::showSearchFrom` (lines 1306-1319): the box is opened
when the scope has a peer; its callbacks are separate later events. -/
def showSearchFrom (s : Widget) : Widget :=
  match s._searchInChat.peer with
  | some _ => s.emit Effect.showSearchFrom
  | none => s

/-- The member `Widget::applyFilterUpdate(bool force)` (lines 1222-1251). -/
def applyFilterUpdate (e : Env) (force : Bool) (s : Widget) : Widget :=
  if e.showAnimating ∧ force = false then s
  else
    let filterText := s.filterText
    let s := s.emit (Effect.innerApplyFilterUpdate filterText force)
    let s :=
      if filterText.isEmpty ∧ s._searchFromUser = none then clearSearchCache s else s
    let s :=
      if filterText.isEmpty then
        { s with
            _peerSearchCache := QMap.clear
            _peerSearchQueries := QMap.clear
            _peerSearchQuery := [] }
      else s
    let s :=
      if e.chooseFromUserToggled ∨ s._searchFromUser.isSome then
        let switchToChooseFrom := SwitchToChooseFromQuery
        if s._lastFilterText ≠ switchToChooseFrom
            ∧ s._lastFilterText.isPrefixOf switchToChooseFrom
            ∧ filterText = switchToChooseFrom then
          showSearchFrom s
        else s
      else s
    { s with _lastFilterText := filterText }

/-! ## Scope changes and cancelling -/

/-- How an operation can fail to return: the recursion budget of the model ran
out, or the source reached `Unexpected(...)`. -/
inductive Failure where
  | outOfFuel
  | unexpected (message : String)
  deriving DecidableEq, Repr

/-- Lines 1271-1285 of `Widget::setSearchInChat`, once the scope key is resolved:
the scope and the sender filter are stored, the search cache is cleared when
either changed, and the list view is told. -/
def setSearchInChatStore (chat : Key) (fromUser : Option UserId) (s : Widget) : Widget :=
  let searchInPeerUpdated : Bool := decide (s._searchInChat ≠ chat)
  let sf : Widget × Option UserId :=
    if searchInPeerUpdated then ({ s with _searchInChat := chat }, none)
    else if !s._searchInChat.toBool then (s, none)
    else (s, fromUser)
  let s := sf.1
  let fromUser := sf.2
  let s :=
    if s._searchFromUser ≠ fromUser ∨ searchInPeerUpdated = true then
      clearSearchCache { s with _searchFromUser := fromUser }
    else s
  s.emit (Effect.innerSearchInChat s._searchInChat s._searchFromUser)

/-- Lines 1267-1269 of `Widget::setSearchInChat`, for a peer without
`migrateTo`: when the peer has a `migrateFrom`, its history becomes
`_searchInMigrated`. -/
def setSearchInMigrated (e : Env) (chat : Key) (s : Widget) : Widget :=
  match chat.peer.bind e.migrateFrom with
  | some migrateFrom => { s with _searchInMigrated := some migrateFrom }
  | none => s

/-- The statement `if (_searchRequest) { MTP::cancel(_searchRequest); _searchRequest = 0; }`
that opens `onCancelSearch` and `onCancelSearchInChat`. -/
def cancelSearchRequest (s : Widget) : Widget :=
  if s._searchRequest ≠ 0 then { MTP_cancel s._searchRequest s with _searchRequest := 0 }
  else s

/-- The statements that close `onCancelSearch` and `onCancelSearchInChat`
(lines 1613-1616 and 1637-1640): the list view and the filter field are
cleared and `applyFilterUpdate()` runs. -/
def clearFilterAndUpdate (e : Env) (s : Widget) : Widget :=
  let s := s.emit Effect.innerClearFilter
  let s := { s with filterText := [], cursorPosition := 0 }
  applyFilterUpdate e false s

/-- The call `Ui::showPeerHistory(peer, ShowAtUnreadMsgId)` of lines 1601-1603
and 1626-1628, made when the layout condition `oneColumn` holds and the scope
has a peer. -/
def showScopeHistory (oneColumn : Bool) (s : Widget) : Widget :=
  match oneColumn, s._searchInChat.peer with
  | true, some peer => s.emit (Effect.showPeerHistory peer)
  | _, _ => s

mutual

/-- The member `Widget::setSearchInChat(Key chat, UserData *from)`
(lines 1259-1290). The first argument bounds the depth of the calls. -/
def setSearchInChat (e : Env) :
    Nat → Key → Option UserId → Widget → Except Failure Widget
  | 0, _, _, _ => Except.error Failure.outOfFuel
  | fuel + 1, chat, fromUser, s =>
    let chat := if chat.folder.isSome then Key.empty else chat
    let s := { s with _searchInMigrated := none }
    match chat.peer.bind e.migrateTo with
    | some migrateTo => setSearchInChat e fuel (Key.ofHistory migrateTo) fromUser s
    | none =>
      let s := setSearchInChatStore chat fromUser (setSearchInMigrated e chat s)
      if s._searchFromUser.isSome ∧ s._lastFilterText = SwitchToChooseFromQuery then
        match onCancelSearch e fuel s with
        | Except.ok r => Except.ok r.1
        | Except.error f => Except.error f
      else Except.ok s

/-- The member `Widget::onCancelSearch` (lines 1594-1618). The first argument
bounds the depth of the calls. -/
def onCancelSearch (e : Env) : Nat → Widget → Except Failure (Widget × Bool)
  | 0, _ => Except.error Failure.outOfFuel
  | fuel + 1, s =>
    let clearing : Bool := !s.filterText.isEmpty
    let s := cancelSearchRequest s
    if s._searchInChat.toBool ∧ clearing = false then
      if e.oneColumn ∧ s._searchInChat.peer = none then
        Except.error (Failure.unexpected "Empty key in onCancelSearch().")
      else
        let s := showScopeHistory e.oneColumn s
        match setSearchInChat e fuel Key.empty none s with
        | Except.ok s => Except.ok (clearFilterAndUpdate e s, true)
        | Except.error f => Except.error f
    else Except.ok (clearFilterAndUpdate e s, clearing)

end

/-- Lines 1637-1643 of `Widget::onCancelSearchInChat`: the filter is cleared
and, outside the one-column layout and peer selection, `cancelled()` is
emitted. -/
def onCancelSearchInChatFinish (e : Env) (s : Widget) : Widget :=
  let s := clearFilterAndUpdate e s
  if !e.oneColumn ∧ !e.selectingPeer then s.emit Effect.emitCancelled else s

/-- The member `Widget::onCancelSearchInChat` (lines 1620-1644). -/
def onCancelSearchInChat (e : Env) (fuel : Nat) (s : Widget) : Except Failure Widget :=
  let s := cancelSearchRequest s
  if s._searchInChat.toBool then
    if (e.oneColumn ∧ !e.selectingPeer) ∧ s._searchInChat.peer = none then
      Except.error (Failure.unexpected "Empty key in onCancelSearchInPeer().")
    else
      let s := showScopeHistory (e.oneColumn && !e.selectingPeer) s
      match setSearchInChat e fuel Key.empty none s with
      | Except.ok s => Except.ok (onCancelSearchInChatFinish e s)
      | Except.error f => Except.error f
  else Except.ok (onCancelSearchInChatFinish e s)

/-- The handler installed by `Widget::fullSearchRefreshOn` (lines 375-388),
filter included. -/
def fullSearchRefresh (e : Env) (s : Widget) : Widget :=
  if !s._searchQuery.isEmpty then
    let s := s.emit Effect.searchTimerStop
    let s := { s with
      _searchCache := QMap.clear
      _searchQueries := QMap.clear
      _searchQuery := [] }
    (onSearchMessages e false s).1
  else s

/-- The member `Widget::searchInChat(Key chat)` (lines 1253-1257). -/
def searchInChat (e : Env) (fuel : Nat) (chat : Key) (s : Widget) : Except Failure Widget :=
  match onCancelSearch e fuel s with
  | Except.error f => Except.error f
  | Except.ok r =>
    match setSearchInChat e fuel chat none r.1 with
    | Except.error f => Except.error f
    | Except.ok s => Except.ok (applyFilterUpdate e true s)

/-- Lines 880-886 of `Widget::searchMessages`: the text is set, the filter is
applied, the timer is stopped and the search starts. -/
def searchMessagesStart (e : Env) (query : QString) (s : Widget) : Widget :=
  let s := { s with filterText := query, cursorPosition := query.length }
  let s := applyFilterUpdate e true s
  let s := s.emit Effect.searchTimerStop
  let s := (onSearchMessages e false s).1
  s.emit (Effect.saveRecentSearchHashtags query)

/-- The local `inChatChanged` of `Widget::searchMessages` (lines 865-874). -/
def inChatChanged (e : Env) (inChat : Key) (s : Widget) : Bool :=
  if inChat = s._searchInChat then false
  else
    match inChat.peer with
    | some inPeer => if e.migrateTo inPeer = s._searchInChat.peer then false else true
    | none => true

/-- The member `Widget::searchMessages(query, inChat)` (lines 862-888). -/
def searchMessages (e : Env) (fuel : Nat) (query : QString) (inChat : Key)
    (s : Widget) : Except Failure Widget :=
  if s.filterText ≠ query ∨ inChatChanged e inChat s = true then
    if inChat.toBool then
      match onCancelSearch e fuel s with
      | Except.error f => Except.error f
      | Except.ok r =>
        match setSearchInChat e fuel inChat none r.1 with
        | Except.error f => Except.error f
        | Except.ok s => Except.ok (searchMessagesStart e query s)
    else Except.ok (searchMessagesStart e query s)
  else Except.ok s

/-- The two callbacks that choose a sender (lines 189-192 and 1312-1316):
`setSearchInChat(chat, user); applyFilterUpdate(true);`. -/
def searchFromUserChosen (e : Env) (fuel : Nat) (chat : Key) (user : Option UserId)
    (s : Widget) : Except Failure Widget :=
  match setSearchInChat e fuel chat user s with
  | Except.error f => Except.error f
  | Except.ok s => Except.ok (applyFilterUpdate e true s)

/-- The `changed` handler of the filter field (lines 224-226) after the user
edited the text: the field holds the new text and cursor, then
`applyFilterUpdate()` runs. -/
def filterChanged (e : Env) (text : QString) (cursor : Int) (s : Widget) : Widget :=
  applyFilterUpdate e false { s with filterText := text, cursorPosition := cursor }

/-! ## Events -/

/-- Modelled from the spec: the RPC layer finishing a request, which is not
among the source files. The request is no longer in flight. -/
def MTP_finish (requestId : mtpRequestId) (s : Widget) : Widget :=
  { s with
      mtp := ⟨s.mtp.lastRequestId,
        s.mtp.inFlight.filter (fun p => decide (p.1 ≠ requestId))⟩ }

/-- The callbacks bound to an in-flight request, if the id is in flight. -/
def handlerOf (s : Widget) (requestId : mtpRequestId) : Option RpcHandler :=
  (s.mtp.inFlight.find? (fun p => decide (p.1 = requestId))).map Prod.snd

/-- The ids of the message-search requests (primary or migrated lane) that were
sent and have neither completed nor been cancelled. -/
def inFlightSearches (s : Widget) : List mtpRequestId :=
  (s.mtp.inFlight.filter (fun p => decide (p.2 ≠ RpcHandler.peerSearch))).map Prod.fst

/-- The ids of the contacts-search requests that were sent and have neither
completed nor been cancelled. -/
def inFlightPeerSearches (s : Widget) : List mtpRequestId :=
  (s.mtp.inFlight.filter (fun p => decide (p.2 = RpcHandler.peerSearch))).map Prod.fst

/-- Everything that can happen to the widget between two of its operations. -/
inductive Event where
  /-- The user edits the filter field. -/
  | filterChanged (text : QString) (cursor : Int)
  /-- The search timer fires or Return is pressed: `onSearchMessages()`. -/
  | onSearchMessages (searchCache : Bool)
  /-- The list view asks for a search: `onNeedSearchMessages()`. -/
  | onNeedSearchMessages
  | onSearchMore
  | loadMoreCallback
  /-- The response of an in-flight message-search request arrives. -/
  | searchDone (requestId : mtpRequestId) (result : MTPmessages_Messages)
  /-- The response of an in-flight contacts-search request arrives. -/
  | peerSearchDone (requestId : mtpRequestId) (result : MTPcontacts_Found)
  /-- An in-flight request fails. When the fail handler returns false (the
  default handler takes the error) the request stays in flight. -/
  | requestFailed (requestId : mtpRequestId) (error : RPCError)
  /-- A response for a request that is no longer in flight is delivered all the
  same (cancellation is advisory). -/
  | lateSearchDone (type : SearchRequestType) (requestId : mtpRequestId)
      (result : MTPmessages_Messages)
  | latePeerSearchDone (requestId : mtpRequestId) (result : MTPcontacts_Found)
  | onCancelSearch
  | onCancelSearchInChat
  | clearSearchCache
  | fullSearchRefresh
  | applyFilterUpdate (force : Bool)
  | setSearchInChat (chat : Key) (fromUser : Option UserId)
  | searchInChat (chat : Key)
  | searchMessages (query : QString) (inChat : Key)
  | searchFromUserChosen (chat : Key) (user : Option UserId)

/-- The widget after an event, `none` when the event cannot happen in this
state or the operation does not return. -/
def fire (e : Env) (fuel : Nat) (ev : Event) (s : Widget) : Option Widget :=
  match ev with
  | Event.filterChanged text cursor => some (filterChanged e text cursor s)
  | Event.onSearchMessages searchCache => some (onSearchMessages e searchCache s).1
  | Event.onNeedSearchMessages => some (onNeedSearchMessages e s)
  | Event.onSearchMore => some (onSearchMore e s)
  | Event.loadMoreCallback => some (loadMoreCallback e s)
  | Event.searchDone requestId result =>
    match handlerOf s requestId with
    | some (RpcHandler.search type) =>
      some (searchReceived e type result requestId (MTP_finish requestId s))
    | _ => none
  | Event.peerSearchDone requestId result =>
    match handlerOf s requestId with
    | some RpcHandler.peerSearch =>
      some (peerSearchReceived e result requestId (MTP_finish requestId s))
    | _ => none
  | Event.requestFailed requestId error =>
    match handlerOf s requestId with
    | some (RpcHandler.search type) =>
      let r := searchFailed e type error requestId s
      some (if r.2 then MTP_finish requestId r.1 else r.1)
    | some RpcHandler.peerSearch =>
      let r := peopleFailed e error requestId s
      some (if r.2 then MTP_finish requestId r.1 else r.1)
    | none => none
  | Event.lateSearchDone type requestId result =>
    if requestId ≠ 0 ∧ handlerOf s requestId = none then
      some (searchReceived e type result requestId s)
    else none
  | Event.latePeerSearchDone requestId result =>
    if requestId ≠ 0 ∧ handlerOf s requestId = none then
      some (peerSearchReceived e result requestId s)
    else none
  | Event.onCancelSearch => ((onCancelSearch e fuel s).toOption).map Prod.fst
  | Event.onCancelSearchInChat => (onCancelSearchInChat e fuel s).toOption
  | Event.clearSearchCache => some (clearSearchCache s)
  | Event.fullSearchRefresh => some (fullSearchRefresh e s)
  | Event.applyFilterUpdate force => some (applyFilterUpdate e force s)
  | Event.setSearchInChat chat fromUser => (setSearchInChat e fuel chat fromUser s).toOption
  | Event.searchInChat chat => (searchInChat e fuel chat s).toOption
  | Event.searchMessages query inChat => (searchMessages e fuel query inChat s).toOption
  | Event.searchFromUserChosen chat user =>
    (searchFromUserChosen e fuel chat user s).toOption

/-- The states the widget can be in: the constructed widget and whatever a
sequence of events, each in an environment of its own, makes of it. -/
inductive Reachable : Widget → Prop where
  | init : Reachable Widget.init
  | step {s s1 : Widget} (e : Env) (fuel : Nat) (ev : Event) :
      Reachable s → fire e fuel ev s = some s1 → Reachable s1

/-! ## Reading the log -/

/-- The pages handed to the list view (`_inner->searchReceived`), each with the
request type and the full count passed along. -/
def pagesShown (log : List Effect) : List (List Int × SearchRequestType × Int) :=
  log.filterMap fun ef =>
    match ef with
    | Effect.innerSearchReceived m t c => some (m, t, c)
    | _ => none

/-- The contact results handed to the list view (`_inner->peerSearchReceived`). -/
def peerResultsShown (log : List Effect) : List (QString × List PeerId × List PeerId) :=
  log.filterMap fun ef =>
    match ef with
    | Effect.innerPeerSearchReceived q my r => some (q, my, r)
    | _ => none

/-- The requests sent (`MTP::send`). -/
def sends (log : List Effect) : List (mtpRequestId × Request × RpcHandler) :=
  log.filterMap fun ef =>
    match ef with
    | Effect.send requestId request handler => some (requestId, request, handler)
    | _ => none

/-- The message-search requests sent: those bound to `searchReceived`. -/
def searchSends (log : List Effect) : List (mtpRequestId × Request × SearchRequestType) :=
  log.filterMap fun ef =>
    match ef with
    | Effect.send requestId request (RpcHandler.search type) =>
      some (requestId, request, type)
    | _ => none

/-- The contacts-search requests sent: those bound to `peerSearchReceived`. -/
def peerSearchSends (log : List Effect) : List (mtpRequestId × Request) :=
  log.filterMap fun ef =>
    match ef with
    | Effect.send requestId request RpcHandler.peerSearch => some (requestId, request)
    | _ => none

/-- The request ids cancelled (`MTP::cancel` of a non-zero id). -/
def cancels (log : List Effect) : List mtpRequestId :=
  log.filterMap fun ef =>
    match ef with
    | Effect.cancel requestId => some requestId
    | _ => none

/-- The members of the message-search lanes. -/
structure SearchLane where
  _searchRequest : mtpRequestId
  _searchQuery : QString
  _searchQueryFrom : Option UserId
  _searchNextRate : Int
  _searchFull : Bool
  _searchFullMigrated : Bool
  _searchCache : QMap QString MTPmessages_Messages
  _searchQueries : QMap mtpRequestId QString
  deriving DecidableEq, Repr

/-- The members of the contact-search lane. -/
structure PeerLane where
  _peerSearchRequest : mtpRequestId
  _peerSearchQuery : QString
  _peerSearchFull : Bool
  _peerSearchCache : QMap QString MTPcontacts_Found
  _peerSearchQueries : QMap mtpRequestId QString
  deriving DecidableEq, Repr

/-- The message-search members of a widget. -/
def Widget.searchLane (s : Widget) : SearchLane :=
  ⟨s._searchRequest, s._searchQuery, s._searchQueryFrom, s._searchNextRate, s._searchFull,
    s._searchFullMigrated, s._searchCache, s._searchQueries⟩

/-- The contact-search members of a widget. -/
def Widget.peerLane (s : Widget) : PeerLane :=
  ⟨s._peerSearchRequest, s._peerSearchQuery, s._peerSearchFull, s._peerSearchCache,
    s._peerSearchQueries⟩

/-- An environment for concrete runs: a list view in the Filtered state that
added messages, pages of 50, no migrated peers, every error final. -/
def sampleEnv : Env where
  inner := ⟨WidgetState.Filtered, false, none, 0, 0, true, false⟩
  SearchPerPage := 50
  SearchPeopleLimit := 5
  AutoSearchTimeout := 900
  skipArchiveInSearch := false
  asChannel := fun _ => false
  migrateTo := fun _ => none
  migrateFrom := fun _ => none
  isDefaultHandledError := fun _ => false
  oneColumn := false
  selectingPeer := false
  showAnimating := false
  chooseFromUserToggled := false

/-- A widget that tracks the message-search request `5`, which is in flight. -/
def trackingFive : Widget :=
  { Widget.init with
      _searchRequest := 5
      mtp := ⟨5, [(5, RpcHandler.search SearchRequestType.FromStart)]⟩ }

/-- The first-page request claim C8 describes for query `q` in scope `scope` with
sender filter `sender`: all offsets 0 and limit `SearchPerPage`; a search in the
conversation when the scope has a peer (restricted to the sender when one is
chosen), a global search otherwise. -/
def expectedFirstPage (e : Env) (scope : Key) (sender : Option UserId) (q : QString) :
    Request × SearchRequestType :=
  match scope.peer with
  | some peer =>
    (Request.messages_Search sender.isSome peer q sender 0 0 0 0 e.SearchPerPage 0 0 0,
      SearchRequestType.PeerFromStart)
  | none =>
    (Request.messages_SearchGlobal e.skipArchiveInSearch 0 q 0 none 0 e.SearchPerPage,
      SearchRequestType.FromStart)

/-- The scenario of claim C2, first step: the constructed widget, the text "abc"
typed, `onSearchMessages(false)`. -/
def afterAbc : Widget :=
  (onSearchMessages sampleEnv false { Widget.init with filterText := "abc".toList }).1

/-- The scenario of claim C2, second step: the text changed to "abcd",
`onSearchMessages(false)` again. -/
def afterAbcd : Widget :=
  (onSearchMessages sampleEnv false { afterAbc with filterText := "abcd".toList }).1

/-- The scenario of claim C2, third step: the response for "abc" (request 1)
arrives late. -/
def afterLateAbc : Widget :=
  searchReceived sampleEnv SearchRequestType.FromStart (MTPmessages_Messages.messages [7]) 1
    afterAbcd

/-- The message-search requests sent between the state `s` and the later
state `s1`. -/
def newSearchSends (s s1 : Widget) : List (mtpRequestId × Request × SearchRequestType) :=
  (searchSends s1.log).drop (searchSends s.log).length

/-- What a response has for the list view: the page of messages, the request
type and the full count for the three shapes that carry a page, nothing for
`messagesNotModified`. -/
def pageOf (type : SearchRequestType) (result : MTPmessages_Messages) :
    List (List Int × SearchRequestType × Int) :=
  match result with
  | MTPmessages_Messages.messages msgs => [(msgs, type, (msgs.length : Int))]
  | MTPmessages_Messages.messagesSlice vcount _ msgs => [(msgs, type, vcount)]
  | MTPmessages_Messages.channelMessages _ vcount msgs => [(msgs, type, vcount)]
  | MTPmessages_Messages.messagesNotModified _ => []

/-- A widget searching "abc" in the conversation 8, which was migrated from the
conversation 9: the primary lane is complete, the migrated lane is not, and no
request is pending. -/
def primaryComplete : Widget :=
  { Widget.init with
      filterText := "abc".toList
      _searchInChat := Key.ofHistory 8
      _searchInMigrated := some 9
      _searchQuery := "abc".toList
      _searchFull := true }

/-- The message-search request ids among in-flight requests. -/
def searchesOf (l : List (mtpRequestId × RpcHandler)) : List mtpRequestId :=
  (l.filter (fun p => decide (p.2 ≠ RpcHandler.peerSearch))).map Prod.fst

/-- The invariant behind claims C9 and C10, on the in-flight requests `l`, the
tracked message-search id `r` and the last id handed out `n`: every request in
flight has an id that was handed out (not 0, at most `n`), the message-search
requests in flight are none or just the tracked one, and the tracked id was
handed out and is not the id of a contacts-search request in flight. -/
def OneSearchOn (l : List (mtpRequestId × RpcHandler)) (r n : mtpRequestId) : Prop :=
  (∀ p ∈ l, p.1 ≠ 0 ∧ p.1 ≤ n)
  ∧ (searchesOf l = [] ∨ searchesOf l = [r])
  ∧ r ≤ n
  ∧ (r, RpcHandler.peerSearch) ∉ l

/-- The invariant behind claims C9 and C10, on a widget. -/
def OneSearchInFlight (s : Widget) : Prop :=
  OneSearchOn s.mtp.inFlight s._searchRequest s.mtp.lastRequestId

/-- The constructed widget after the user typed "abc". -/
def typedAbc : Widget := filterChanged sampleEnv "abc".toList 3 Widget.init

/-- The widget after the search timer fired for "abc": request 1 searches
messages, request 2 searches contacts. -/
def searchedAbc : Widget := (onSearchMessages sampleEnv false typedAbc).1

/-- The widget after the user went on to type "abcd", both requests still
unanswered. -/
def typedAbcd : Widget := filterChanged sampleEnv "abcd".toList 4 searchedAbc

/-- The widget after the search timer fired for "abcd". -/
def searchedAbcd : Widget := (onSearchMessages sampleEnv false typedAbcd).1

/-- The next-rate cursor a response leaves: the `next_rate` of a
`messagesSlice` that carries one, the stored cursor `old` otherwise. -/
def nextRateAfter (result : MTPmessages_Messages) (old : Int) : Int :=
  match result with
  | MTPmessages_Messages.messagesSlice _ (some r) _ => r
  | _ => old

/-- The constructed widget with the hashtag "#tag" in the filter field. -/
def hashtagTyped : Widget := { Widget.init with filterText := "#tag".toList }

/-- The widget after the first page for "abc" (request 1) arrived as a slice
with next rate 7. -/
def slicedAbc : Widget :=
  searchReceived sampleEnv SearchRequestType.FromStart
    (MTPmessages_Messages.messagesSlice 100 (some 7) [10, 11]) 1 (MTP_finish 1 searchedAbc)

/-- The widget after the list view then asked for more (request 3) and the
server answered with a full batch: the primary lane is complete. -/
def completedAbc : Widget :=
  searchReceived sampleEnv SearchRequestType.FromStart
    (MTPmessages_Messages.messages [12]) 3 (MTP_finish 3 (onSearchMore sampleEnv slicedAbc))

/-- The widget after the user then cleared the filter field. -/
def clearedAbc : Widget := filterChanged sampleEnv [] 0 completedAbc

/-- The message lanes as `clearSearchCache` leaves them: no cached page, no
pending entry, no active query, no tracked request. -/
def SearchCleared (s : Widget) : Prop :=
  s._searchCache = QMap.clear ∧ s._searchQueries = QMap.clear ∧ s._searchQuery = []
    ∧ s._searchQueryFrom = none ∧ s._searchRequest = 0

/-- Every request in flight in `s1` was in flight in `s`: nothing was sent in
between. -/
def NothingSent (s s1 : Widget) : Prop :=
  ∀ p ∈ s1.mtp.inFlight, p ∈ s.mtp.inFlight

/-- The request `s` tracked on the message lanes, if any, is not in flight in
`s1`. -/
def TrackedCancelled (s s1 : Widget) : Prop :=
  ∀ p ∈ s1.mtp.inFlight, p.1 ≠ s._searchRequest ∨ s._searchRequest = 0

/-- The sender `setSearchInChat` stores for the resolved scope `chat` (lines
1271-1279): none when the scope changes or is empty, the argument otherwise. -/
def storedFromUser (chat : Key) (fromUser : Option UserId) (s : Widget) : Option UserId :=
  if s._searchInChat ≠ chat then none
  else if !s._searchInChat.toBool then none
  else fromUser

/-- The widget after "abc" was searched and the scope is then set to the
conversation 8 (`setSearchInChat`, no migration, no sender). -/
def scopedAfterAbc : Widget :=
  setSearchInChatStore (Key.ofHistory 8) none { searchedAbc with _searchInMigrated := none }

/-- The widget after the message search for "abc" (request 1) failed with an
error that is not handled by default. -/
def failedAbc : Widget :=
  MTP_finish 1
    (searchFailed sampleEnv SearchRequestType.FromStart ⟨400, "QUERY_INVALID"⟩ 1 searchedAbc).1

/-- The local `finished` of the `messagesSlice` case of `searchReceived` (lines
1021-1025), from the request type, the `next_rate` of the slice, the stored
`_searchNextRate` and the answer `someAdded` of the list view. -/
def sliceFinished (type : SearchRequestType) (vnext_rate : Option Int) (rate : Int)
    (someAdded : Bool) : Bool :=
  let rateUpdated : Bool :=
    match vnext_rate with
    | some r => decide (r ≠ rate)
    | none => false
  if type = SearchRequestType.FromStart ∨ type = SearchRequestType.FromOffset
  then !rateUpdated else !someAdded

/-- The starts of the search timer (`_searchTimer.start`), each with its
timeout. -/
def timerStarts (log : List Effect) : List Int :=
  log.filterMap fun ef =>
    match ef with
    | Effect.searchTimerStart t => some t
    | _ => none

/-- A widget with "abc" in the filter field and nothing cached. -/
def abcUncached : Widget := { Widget.init with filterText := "abc".toList }

/-- The scope members of the widget. -/
structure Scope where
  _searchInChat : Key
  _searchInMigrated : Option PeerId
  _searchFromUser : Option UserId
  deriving DecidableEq, Repr

/-- The scope members of a widget. -/
def Widget.scope (s : Widget) : Scope :=
  ⟨s._searchInChat, s._searchInMigrated, s._searchFromUser⟩

/-- The invariant behind claims C22 and C23: the scope key is not a folder, and
a sender filter is set only inside a conversation scope. -/
def ScopeOk (s : Widget) : Prop :=
  s._searchInChat.folder = none ∧ (s._searchFromUser ≠ none → s._searchInChat ≠ Key.empty)

/-- The scope key `setSearchInChat` arrives at for the key `chat` (lines
1260-1266): the empty key for a folder, and for a conversation the history of
the last peer of its `migrateTo` chain. The first argument bounds the length of
the chain; `none` when the chain is longer. -/
def resolvedScope (e : Env) : Nat → Key → Option Key
  | 0, _ => none
  | fuel + 1, chat =>
    let chat := if chat.folder.isSome then Key.empty else chat
    match chat.peer.bind e.migrateTo with
    | some migrateTo => resolvedScope e fuel (Key.ofHistory migrateTo)
    | none => some chat

/-- An environment in which the legacy group 9 was migrated to the conversation
8. -/
def migratedEnv : Env :=
  { sampleEnv with
      migrateTo := fun p => if p = 9 then some 8 else none
      migrateFrom := fun p => if p = 8 then some 9 else none }

/-- The constructed widget after `setSearchInChat` with the conversation 8. -/
def scopedEight : Widget :=
  setSearchInChatStore (Key.ofHistory 8) none { Widget.init with _searchInMigrated := none }

/-- The constructed widget after `setSearchInChat` with the legacy group 9 in
`migratedEnv`: the scope is the conversation 8. -/
def scopedFromNine : Widget :=
  setSearchInChatStore (Key.ofHistory 8) none
    (setSearchInMigrated migratedEnv (Key.ofHistory 8)
      { Widget.init with _searchInMigrated := none })

/-- The widget in the scope of the conversation 8 after the sender 3 was
chosen. -/
def senderChosen : Widget :=
  applyFilterUpdate sampleEnv true
    (setSearchInChatStore (Key.ofHistory 8) (some 3)
      { scopedEight with _searchInMigrated := none })

/-! ## Hashtags in the filter field -/

/-- The `QChar::isLetterOrNumber` test of Qt: the ASCII letters and digits, and
above U+007F whatever the Unicode category table of Qt says, which is the
argument `helper` (`QChar::isLetterOrNumber_helper`). -/
def isLetterOrNumber (helper : Char → Bool) (c : Char) : Bool :=
  let u := c.toNat
  (0x41 ≤ u && u ≤ 0x7A && (0x61 ≤ u || u ≤ 0x5A)) || (0x30 ≤ u && u ≤ 0x39)
    || (127 < u && helper c)

/-- The test that lets the loops of `onFilterCursorMoved` and `onCompleteHashtag`
go on: `t.at(start).isLetterOrNumber() || t.at(start) == '_'`. -/
def isWordChar (helper : Char → Bool) (c : Char) : Bool :=
  isLetterOrNumber helper c || c == '_'

/-- The `QString::mid(position, n)` / `midRef(position, n)` of Qt for a position
inside the string: at most `n` characters from `position` on. -/
def mid (t : QString) (position n : Nat) : QString :=
  (t.drop position).take n

/-- The loop of `Widget::onFilterCursorMoved` (lines 1325-1333), entered with
`start` as its last argument: `start` is decremented; the loop ends with the
empty `r` when `start` is not inside `t` or `t.at(start)` is neither `#` nor a
letter, a digit or `_`, and with `r = t.midRef(start, to - start)` when
`t.at(start)` is `#`. -/
def hashtagScan (helper : Char → Bool) (t : QString) (toPos : Nat) : Nat → QString
  | 0 => []
  | start + 1 =>
    match t[start]? with
    | none => []
    | some c =>
      if c = '#' then mid t start (toPos - start)
      else if !isWordChar helper c then []
      else hashtagScan helper t toPos start

/-- The member `Widget::onFilterCursorMoved(int from, int to)` (lines 1321-1335);
`fromPos` and `toPos` are its arguments. The cursor position of the field is
never negative. -/
def onFilterCursorMoved (helper : Char → Bool) (_fromPos toPos : Int) (s : Widget) : Widget :=
  let toPos := if toPos < 0 then s.cursorPosition else toPos
  let r := hashtagScan helper s.filterText toPos.toNat toPos.toNat
  s.emit (Effect.innerHashtagFilterUpdate r)

/-- The outer loop of `Widget::onCompleteHashtag` (lines 1340-1358), entered with
`start` as its last argument: the index of the `#` the tag attaches to, when
the loop reaches a `#` and what stands between it and the cursor begins the
tag; `none` when the loop ends by `break` or runs out. -/
def completeScan (helper : Char → Bool) (t tag : QString) (cur : Nat) : Nat → Option Nat
  | 0 => none
  | start + 1 =>
    match t[start]? with
    | none => none
    | some c =>
      if c = '#' then
        if cur = start + 1 ∨ mid t (start + 1) (cur - start - 1) = mid tag 0 (cur - start - 1)
        then some start else none
      else if !isWordChar helper c then none
      else completeScan helper t tag cur start

/-- The inner loop of `Widget::onCompleteHashtag` (lines 1345-1347):
`for (; cur < t.size() && cur - start - 1 < tag.size(); ++cur) if (t.at(cur) != tag.at(cur - start - 1)) break;`.
The first argument bounds the number of iterations; `t.size()` is enough. -/
def advanceCursor (t tag : QString) (start : Nat) : Nat → Nat → Nat
  | 0, cur => cur
  | fuel + 1, cur =>
    match t[cur]?, tag[cur - start - 1]? with
    | some a, some b => if a ≠ b then cur else advanceCursor t tag start fuel (cur + 1)
    | _, _ => cur

/-- The member `Widget::onCompleteHashtag(QString tag)` (lines 1337-1362). The
cursor position of the field is never negative. -/
def onCompleteHashtag (helper : Char → Bool) (e : Env) (tag : QString) (s : Widget) : Widget :=
  let t := s.filterText
  let cur := s.cursorPosition.toNat
  match completeScan helper t tag cur cur with
  | some start =>
    let cur := advanceCursor t tag start t.length cur
    let cur :=
      if cur - start - 1 = tag.length ∧ t[cur]? = some ' ' then cur + 1 else cur
    let r := mid t 0 (start + 1) ++ tag ++ [' '] ++ t.drop cur
    applyFilterUpdate e true
      { s with filterText := r, cursorPosition := ((start + 1 + tag.length + 1 : Nat) : Int) }
  | none =>
    applyFilterUpdate e true
      { s with
          filterText := mid t 0 cur ++ ['#'] ++ tag ++ [' '] ++ t.drop cur
          cursorPosition := ((cur + 1 + tag.length + 1 : Nat) : Int) }

/-! ## Scenarios of the cache hit and of the empty-query guard -/

/-- The widget after the search for "abc" (request 1) was answered by
`messagesNotModified`: the answer is cached under "abc". -/
def notModifiedAbc : Widget :=
  searchReceived sampleEnv SearchRequestType.FromStart
    (MTPmessages_Messages.messagesNotModified 0) 1 (MTP_finish 1 searchedAbc)

/-- The widget after two blanks were typed over "abc" while both requests for
"abc" were unanswered: the trimmed text is empty, the requests 1 and 2 are
tracked and in flight. -/
def blankTyped : Widget := filterChanged sampleEnv "  ".toList 2 searchedAbc

/-! # Theorems -/

/-! ## Log readers -/

section logReaders

variable (a b : List Effect)

@[simp] theorem pagesShown_append : pagesShown (a ++ b) = pagesShown a ++ pagesShown b := by
  simp [pagesShown, List.filterMap_append]

@[simp] theorem peerResultsShown_append :
    peerResultsShown (a ++ b) = peerResultsShown a ++ peerResultsShown b := by
  simp [peerResultsShown, List.filterMap_append]

@[simp] theorem sends_append : sends (a ++ b) = sends a ++ sends b := by
  simp [sends, List.filterMap_append]

@[simp] theorem searchSends_append :
    searchSends (a ++ b) = searchSends a ++ searchSends b := by
  simp [searchSends, List.filterMap_append]

@[simp] theorem peerSearchSends_append :
    peerSearchSends (a ++ b) = peerSearchSends a ++ peerSearchSends b := by
  simp [peerSearchSends, List.filterMap_append]

@[simp] theorem cancels_append : cancels (a ++ b) = cancels a ++ cancels b := by
  simp [cancels, List.filterMap_append]

end logReaders

/-! ## Responses (C1) -/

section searchReceivedFrame

variable (e : Env) (type : SearchRequestType) (result : MTPmessages_Messages)
  (requestId : mtpRequestId) (s : Widget)

theorem searchReceivedCache_frame :
    (searchReceivedCache e type result requestId s)._searchRequest = s._searchRequest
    ∧ (searchReceivedCache e type result requestId s).log = s.log
    ∧ (searchReceivedCache e type result requestId s).mtp = s.mtp
    ∧ (searchReceivedCache e type result requestId s)._searchFull = s._searchFull
    ∧ (searchReceivedCache e type result requestId s)._searchFullMigrated
        = s._searchFullMigrated
    ∧ (searchReceivedCache e type result requestId s)._searchNextRate = s._searchNextRate
    ∧ (searchReceivedCache e type result requestId s)._searchQuery = s._searchQuery
    ∧ (searchReceivedCache e type result requestId s)._searchQueryFrom = s._searchQueryFrom
    ∧ (searchReceivedCache e type result requestId s)._searchInChat = s._searchInChat
    ∧ (searchReceivedCache e type result requestId s).peerLane = s.peerLane := by
  unfold searchReceivedCache
  split_ifs
  · split <;> simp [Widget.peerLane]
  · simp
  · simp

@[simp] theorem searchReceivedCache_searchRequest :
    (searchReceivedCache e type result requestId s)._searchRequest = s._searchRequest :=
  (searchReceivedCache_frame e type result requestId s).1

@[simp] theorem searchReceivedCache_log :
    (searchReceivedCache e type result requestId s).log = s.log :=
  (searchReceivedCache_frame e type result requestId s).2.1

@[simp] theorem searchReceivedCache_mtp :
    (searchReceivedCache e type result requestId s).mtp = s.mtp :=
  (searchReceivedCache_frame e type result requestId s).2.2.1

@[simp] theorem searchReceivedCache_searchFull :
    (searchReceivedCache e type result requestId s)._searchFull = s._searchFull :=
  (searchReceivedCache_frame e type result requestId s).2.2.2.1

@[simp] theorem searchReceivedCache_searchFullMigrated :
    (searchReceivedCache e type result requestId s)._searchFullMigrated
      = s._searchFullMigrated :=
  (searchReceivedCache_frame e type result requestId s).2.2.2.2.1

@[simp] theorem searchReceivedCache_searchNextRate :
    (searchReceivedCache e type result requestId s)._searchNextRate = s._searchNextRate :=
  (searchReceivedCache_frame e type result requestId s).2.2.2.2.2.1

@[simp] theorem searchReceivedCache_searchQuery :
    (searchReceivedCache e type result requestId s)._searchQuery = s._searchQuery :=
  (searchReceivedCache_frame e type result requestId s).2.2.2.2.2.2.1

@[simp] theorem searchReceivedCache_searchQueryFrom :
    (searchReceivedCache e type result requestId s)._searchQueryFrom = s._searchQueryFrom :=
  (searchReceivedCache_frame e type result requestId s).2.2.2.2.2.2.2.1

@[simp] theorem searchReceivedCache_searchInChat :
    (searchReceivedCache e type result requestId s)._searchInChat = s._searchInChat :=
  (searchReceivedCache_frame e type result requestId s).2.2.2.2.2.2.2.2.1

@[simp] theorem searchReceivedCache_peerLane :
    (searchReceivedCache e type result requestId s).peerLane = s.peerLane :=
  (searchReceivedCache_frame e type result requestId s).2.2.2.2.2.2.2.2.2

end searchReceivedFrame

/-- What `searchReceivedApply` hands to the list view for a response: the page
of the three shapes that carry one, nothing for `messagesNotModified`. -/
theorem searchReceivedApply_pagesShown (e : Env) (type : SearchRequestType)
    (result : MTPmessages_Messages) (s : Widget) :
    pagesShown (searchReceivedApply e type result s).log
      = pagesShown s.log ++ pageOf type result := by
  cases result <;>
    simp only [searchReceivedApply, markFull, processUnlessCached, Widget.emit, pageOf] <;>
    (repeat' split) <;> simp [pagesShown]

section searchReceivedApplyFrame

variable (e : Env) (type : SearchRequestType) (result : MTPmessages_Messages) (s : Widget)

theorem searchReceivedApply_frame :
    (searchReceivedApply e type result s)._searchRequest = s._searchRequest
    ∧ (searchReceivedApply e type result s).mtp = s.mtp
    ∧ (searchReceivedApply e type result s)._searchQuery = s._searchQuery
    ∧ (searchReceivedApply e type result s)._searchQueryFrom = s._searchQueryFrom
    ∧ (searchReceivedApply e type result s)._searchCache = s._searchCache
    ∧ (searchReceivedApply e type result s)._searchQueries = s._searchQueries
    ∧ (searchReceivedApply e type result s)._searchInChat = s._searchInChat
    ∧ (searchReceivedApply e type result s).peerLane = s.peerLane
    ∧ sends (searchReceivedApply e type result s).log = sends s.log
    ∧ cancels (searchReceivedApply e type result s).log = cancels s.log
    ∧ peerResultsShown (searchReceivedApply e type result s).log = peerResultsShown s.log := by
  cases result <;>
    simp only [searchReceivedApply, markFull, processUnlessCached, Widget.emit] <;>
    (repeat' split) <;> simp [Widget.peerLane, sends, cancels, peerResultsShown]

@[simp] theorem searchReceivedApply_searchRequest :
    (searchReceivedApply e type result s)._searchRequest = s._searchRequest :=
  (searchReceivedApply_frame e type result s).1

@[simp] theorem searchReceivedApply_mtp :
    (searchReceivedApply e type result s).mtp = s.mtp :=
  (searchReceivedApply_frame e type result s).2.1

@[simp] theorem searchReceivedApply_searchQuery :
    (searchReceivedApply e type result s)._searchQuery = s._searchQuery :=
  (searchReceivedApply_frame e type result s).2.2.1

@[simp] theorem searchReceivedApply_searchQueryFrom :
    (searchReceivedApply e type result s)._searchQueryFrom = s._searchQueryFrom :=
  (searchReceivedApply_frame e type result s).2.2.2.1

@[simp] theorem searchReceivedApply_searchCache :
    (searchReceivedApply e type result s)._searchCache = s._searchCache :=
  (searchReceivedApply_frame e type result s).2.2.2.2.1

@[simp] theorem searchReceivedApply_searchQueries :
    (searchReceivedApply e type result s)._searchQueries = s._searchQueries :=
  (searchReceivedApply_frame e type result s).2.2.2.2.2.1

@[simp] theorem searchReceivedApply_searchInChat :
    (searchReceivedApply e type result s)._searchInChat = s._searchInChat :=
  (searchReceivedApply_frame e type result s).2.2.2.2.2.2.1

@[simp] theorem searchReceivedApply_peerLane :
    (searchReceivedApply e type result s).peerLane = s.peerLane :=
  (searchReceivedApply_frame e type result s).2.2.2.2.2.2.2.1

@[simp] theorem searchReceivedApply_sends :
    sends (searchReceivedApply e type result s).log = sends s.log :=
  (searchReceivedApply_frame e type result s).2.2.2.2.2.2.2.2.1

@[simp] theorem searchReceivedApply_cancels :
    cancels (searchReceivedApply e type result s).log = cancels s.log :=
  (searchReceivedApply_frame e type result s).2.2.2.2.2.2.2.2.2.1

@[simp] theorem searchReceivedApply_peerResultsShown :
    peerResultsShown (searchReceivedApply e type result s).log = peerResultsShown s.log :=
  (searchReceivedApply_frame e type result s).2.2.2.2.2.2.2.2.2.2

/-- A full batch and a not-modified response mark the lane of the request
complete. -/
theorem searchReceivedApply_marks (h : (∃ msgs, result = MTPmessages_Messages.messages msgs)
      ∨ ∃ c, result = MTPmessages_Messages.messagesNotModified c) :
    (type.isMigrated = true → (searchReceivedApply e type result s)._searchFullMigrated = true)
    ∧ (type.isMigrated = false → (searchReceivedApply e type result s)._searchFull = true) := by
  rcases h with ⟨msgs, rfl⟩ | ⟨c, rfl⟩ <;>
    simp only [searchReceivedApply, markFull, processUnlessCached, Widget.emit] <;>
    (repeat' split) <;> simp_all

end searchReceivedApplyFrame

/-- The query under which `peerSearchReceived` reports a contacts result: the
one recorded for the request id when the list is Filtered and the id is
pending, the active contact query otherwise. -/
theorem peerSearchReceived_spec (e : Env) (result : MTPcontacts_Found)
    (requestId : mtpRequestId) (s : Widget) :
    (requestId = s._peerSearchRequest →
      (peerSearchReceived e result requestId s)._peerSearchRequest = 0
      ∧ peerResultsShown (peerSearchReceived e result requestId s).log
          = peerResultsShown s.log ++
            [(if e.inner.state = WidgetState.Filtered then
                (s._peerSearchQueries.find requestId).getD s._peerSearchQuery
              else s._peerSearchQuery, result.vmy_results, result.vresults)])
    ∧ (requestId ≠ s._peerSearchRequest →
      (peerSearchReceived e result requestId s)._peerSearchRequest = s._peerSearchRequest
      ∧ (peerSearchReceived e result requestId s)._peerSearchFull = s._peerSearchFull
      ∧ (peerSearchReceived e result requestId s).log = s.log) := by
  constructor
  · intro h
    unfold peerSearchReceived
    by_cases hf : e.inner.state = WidgetState.Filtered
    · cases hq : s._peerSearchQueries.find requestId <;>
        simp [hf, hq, h, Widget.emit, peerResultsShown]
    · simp [hf, h, Widget.emit, peerResultsShown]
  · intro h
    unfold peerSearchReceived
    by_cases hf : e.inner.state = WidgetState.Filtered
    · cases hq : s._peerSearchQueries.find requestId <;>
        simp [hf, hq, Ne.symm h]
    · simp [hf, Ne.symm h]

/-- What `markFull` does to the completion flags and the cursor. -/
theorem markFull_flags (type : SearchRequestType) (s : Widget) :
    (markFull type s)._searchFull = (s._searchFull || !type.isMigrated)
    ∧ (markFull type s)._searchFullMigrated = (s._searchFullMigrated || type.isMigrated)
    ∧ (markFull type s)._searchNextRate = s._searchNextRate := by
  unfold markFull
  cases hm : type.isMigrated <;> simp

/-- Completion flags only grow, and only the flag of the lane of `type` moves. -/
theorem flags_step (type : SearchRequestType) (s w : Widget)
    (h1 : w._searchFull = s._searchFull) (h2 : w._searchFullMigrated = s._searchFullMigrated)
    (done : Bool) :
    (s._searchFull = true → (if done then markFull type w else w)._searchFull = true)
    ∧ (s._searchFullMigrated = true →
        (if done then markFull type w else w)._searchFullMigrated = true)
    ∧ (type.isMigrated = true → (if done then markFull type w else w)._searchFull = s._searchFull)
    ∧ (type.isMigrated = false →
        (if done then markFull type w else w)._searchFullMigrated = s._searchFullMigrated) := by
  obtain ⟨m1, m2, -⟩ := markFull_flags type w
  cases done
  · simp only [Bool.false_eq_true, if_false, h1, h2]
    exact ⟨id, id, fun _ => trivial, fun _ => trivial⟩
  · simp only [if_true, m1, m2, h1, h2]
    refine ⟨?_, ?_, ?_, ?_⟩
    · intro h; simp [h]
    · intro h; simp [h]
    · intro h; simp [h]
    · intro h; simp [h]

/-- Applying a response keeps set flags set, leaves the other lane's flag, and moves
the cursor to `nextRateAfter`. -/
theorem searchReceivedApply_flags (e : Env) (type : SearchRequestType)
    (result : MTPmessages_Messages) (s : Widget) :
    (s._searchFull = true → (searchReceivedApply e type result s)._searchFull = true)
    ∧ (s._searchFullMigrated = true →
        (searchReceivedApply e type result s)._searchFullMigrated = true)
    ∧ (type.isMigrated = true →
        (searchReceivedApply e type result s)._searchFull = s._searchFull)
    ∧ (type.isMigrated = false →
        (searchReceivedApply e type result s)._searchFullMigrated = s._searchFullMigrated)
    ∧ (searchReceivedApply e type result s)._searchNextRate
        = nextRateAfter result s._searchNextRate := by
  have hp1 : (processUnlessCached s)._searchFull = s._searchFull := by
    unfold processUnlessCached; split_ifs <;> rfl
  have hp2 : (processUnlessCached s)._searchFullMigrated = s._searchFullMigrated := by
    unfold processUnlessCached; split_ifs <;> rfl
  have hp3 : (processUnlessCached s)._searchNextRate = s._searchNextRate := by
    unfold processUnlessCached; split_ifs <;> rfl
  cases result with
  | messages msgs =>
    obtain ⟨a1, a2, a3, a4⟩ := flags_step type s
      ((processUnlessCached s).emit (Effect.innerSearchReceived msgs type msgs.length))
      hp1 hp2 true
    refine ⟨a1, a2, a3, a4, ?_⟩
    show (markFull type _)._searchNextRate = _
    rw [(markFull_flags type _).2.2]
    exact hp3
  | messagesSlice vcount vnext msgs =>
    cases vnext with
    | none =>
      simp only [searchReceivedApply]
      obtain ⟨a1, a2, a3, a4⟩ := flags_step type s
        ((processUnlessCached s).emit (Effect.innerSearchReceived msgs type vcount))
        hp1 hp2
        (if type = SearchRequestType.FromStart ∨ type = SearchRequestType.FromOffset
          then !false else !e.inner.searchReceived)
      refine ⟨a1, a2, a3, a4, ?_⟩
      simp only [nextRateAfter]
      split_ifs <;> first
        | exact hp3
        | (rw [(markFull_flags type _).2.2]; exact hp3)
    | some r =>
      by_cases hr : r = s._searchNextRate
      · have hru : decide (r ≠ ((processUnlessCached s).emit
            (Effect.innerSearchReceived msgs type vcount))._searchNextRate) = false := by
          simp [Widget.emit, hp3, hr]
        simp only [searchReceivedApply, hru, Bool.false_eq_true, if_false]
        obtain ⟨a1, a2, a3, a4⟩ := flags_step type s
          ((processUnlessCached s).emit (Effect.innerSearchReceived msgs type vcount))
          hp1 hp2
          (if type = SearchRequestType.FromStart ∨ type = SearchRequestType.FromOffset
            then !false else !e.inner.searchReceived)
        refine ⟨a1, a2, a3, a4, ?_⟩
        simp only [nextRateAfter]
        split_ifs <;> first
          | exact hp3.trans hr.symm
          | (rw [(markFull_flags type _).2.2]; exact hp3.trans hr.symm)
      · have hru : decide (r ≠ ((processUnlessCached s).emit
            (Effect.innerSearchReceived msgs type vcount))._searchNextRate) = true := by
          simp [Widget.emit, hp3, hr]
        simp only [searchReceivedApply, hru, if_true]
        obtain ⟨a1, a2, a3, a4⟩ := flags_step type s
          ({ (processUnlessCached s).emit (Effect.innerSearchReceived msgs type vcount) with
            _searchNextRate := r })
          hp1 hp2
          (if type = SearchRequestType.FromStart ∨ type = SearchRequestType.FromOffset
            then !true else !e.inner.searchReceived)
        refine ⟨a1, a2, a3, a4, ?_⟩
        simp only [nextRateAfter]
        split_ifs <;> first
          | rfl
          | (rw [(markFull_flags type _).2.2])
  | channelMessages vpts vcount msgs =>
    have hw : ∀ w : Widget, w._searchFull = s._searchFull →
        w._searchFullMigrated = s._searchFullMigrated → w._searchNextRate = s._searchNextRate →
        (s._searchFull = true → (if (!e.inner.searchReceived) = true then markFull type
            ((processUnlessCached w).emit (Effect.innerSearchReceived msgs type vcount))
          else (processUnlessCached w).emit
            (Effect.innerSearchReceived msgs type vcount))._searchFull = true)
        ∧ (s._searchFullMigrated = true → (if (!e.inner.searchReceived) = true then markFull type
            ((processUnlessCached w).emit (Effect.innerSearchReceived msgs type vcount))
          else (processUnlessCached w).emit
            (Effect.innerSearchReceived msgs type vcount))._searchFullMigrated = true)
        ∧ (type.isMigrated = true → (if (!e.inner.searchReceived) = true then markFull type
            ((processUnlessCached w).emit (Effect.innerSearchReceived msgs type vcount))
          else (processUnlessCached w).emit
            (Effect.innerSearchReceived msgs type vcount))._searchFull = s._searchFull)
        ∧ (type.isMigrated = false → (if (!e.inner.searchReceived) = true then markFull type
            ((processUnlessCached w).emit (Effect.innerSearchReceived msgs type vcount))
          else (processUnlessCached w).emit
            (Effect.innerSearchReceived msgs type vcount))._searchFullMigrated
              = s._searchFullMigrated)
        ∧ (if (!e.inner.searchReceived) = true then markFull type
            ((processUnlessCached w).emit (Effect.innerSearchReceived msgs type vcount))
          else (processUnlessCached w).emit
            (Effect.innerSearchReceived msgs type vcount))._searchNextRate
              = s._searchNextRate := by
      intro w w1 w2 w3
      have q1 : ((processUnlessCached w).emit
          (Effect.innerSearchReceived msgs type vcount))._searchFull = s._searchFull := by
        rw [← w1]; unfold processUnlessCached; split_ifs <;> rfl
      have q2 : ((processUnlessCached w).emit
          (Effect.innerSearchReceived msgs type vcount))._searchFullMigrated
            = s._searchFullMigrated := by
        rw [← w2]; unfold processUnlessCached; split_ifs <;> rfl
      have q3 : ((processUnlessCached w).emit
          (Effect.innerSearchReceived msgs type vcount))._searchNextRate
            = s._searchNextRate := by
        rw [← w3]; unfold processUnlessCached; split_ifs <;> rfl
      obtain ⟨a1, a2, a3, a4⟩ := flags_step type s _ q1 q2 (!e.inner.searchReceived)
      refine ⟨a1, a2, a3, a4, ?_⟩
      split_ifs
      · rw [(markFull_flags type _).2.2]; exact q3
      · exact q3
    have hm : ∀ o : Option PeerId,
        (match o with
          | some peer =>
            if e.asChannel peer then s.emit (Effect.channelPtsReceived peer vpts)
            else s.emit Effect.logApiError
          | none => s.emit Effect.logApiError)._searchFull = s._searchFull
        ∧ (match o with
          | some peer =>
            if e.asChannel peer then s.emit (Effect.channelPtsReceived peer vpts)
            else s.emit Effect.logApiError
          | none => s.emit Effect.logApiError)._searchFullMigrated = s._searchFullMigrated
        ∧ (match o with
          | some peer =>
            if e.asChannel peer then s.emit (Effect.channelPtsReceived peer vpts)
            else s.emit Effect.logApiError
          | none => s.emit Effect.logApiError)._searchNextRate = s._searchNextRate := by
      intro o
      cases o with
      | none => exact ⟨rfl, rfl, rfl⟩
      | some peer =>
        dsimp only
        split_ifs <;> exact ⟨rfl, rfl, rfl⟩
    unfold searchReceivedApply
    dsimp only [nextRateAfter]
    exact hw _ (hm _).1 (hm _).2.1 (hm _).2.2
  | messagesNotModified vcount =>
    obtain ⟨a1, a2, a3, a4⟩ := flags_step type s (s.emit Effect.logApiError) rfl rfl true
    refine ⟨a1, a2, a3, a4, ?_⟩
    show (markFull type _)._searchNextRate = _
    rw [(markFull_flags type _).2.2]
    rfl

/-- A response whose id is the tracked one is applied and the id is reset. -/
theorem searchReceived_of_eq (e : Env) (type : SearchRequestType)
    (result : MTPmessages_Messages) (requestId : mtpRequestId) (s : Widget)
    (h : s._searchRequest = requestId) :
    searchReceived e type result requestId s =
      { searchReceivedApply e type result (searchReceivedCache e type result requestId s)
        with _searchRequest := 0 } := by
  unfold searchReceived
  simp only [searchReceivedCache_searchRequest, h, if_true]

/-- A response whose id is not the tracked one is at most cached. -/
theorem searchReceived_of_ne (e : Env) (type : SearchRequestType)
    (result : MTPmessages_Messages) (requestId : mtpRequestId) (s : Widget)
    (h : s._searchRequest ≠ requestId) :
    searchReceived e type result requestId s
      = searchReceivedCache e type result requestId s := by
  unfold searchReceived
  simp only [searchReceivedCache_searchRequest, h, if_false]

/-- C1 (amended): a response is applied exactly when its request id is the
tracked one. When `requestId` equals `_searchRequest`, `searchReceived` resets
`_searchRequest` to 0 and hands the page to the list view for the three shapes
that carry one (`messages`, `messagesSlice`, `channelMessages`), marking the
lane complete for a full batch; for `messagesNotModified` it marks the lane
complete and hands nothing to the list view. It never clears a completion
flag, leaves the flag of the other lane alone and moves the cursor to the next
rate of a slice that carries one. When the ids differ,
`_searchRequest`, `_searchFull`, `_searchFullMigrated`, `_searchNextRate` are
unchanged and nothing is done to any collaborator. `peerSearchReceived` does
the same with respect to `_peerSearchRequest`, always handing the result to the
list view when the ids are equal. -/
theorem C1_response_applied_iff_tracked (e : Env) (type : SearchRequestType)
    (result : MTPmessages_Messages) (found : MTPcontacts_Found)
    (requestId : mtpRequestId) (s : Widget) :
    (requestId = s._searchRequest →
      (searchReceived e type result requestId s)._searchRequest = 0
      ∧ pagesShown (searchReceived e type result requestId s).log
          = pagesShown s.log ++ pageOf type result
      ∧ (((∃ msgs, result = MTPmessages_Messages.messages msgs)
            ∨ ∃ c, result = MTPmessages_Messages.messagesNotModified c) →
          (type.isMigrated = true →
            (searchReceived e type result requestId s)._searchFullMigrated = true)
          ∧ (type.isMigrated = false →
            (searchReceived e type result requestId s)._searchFull = true))
      ∧ (s._searchFull = true →
          (searchReceived e type result requestId s)._searchFull = true)
      ∧ (s._searchFullMigrated = true →
          (searchReceived e type result requestId s)._searchFullMigrated = true)
      ∧ (type.isMigrated = true →
          (searchReceived e type result requestId s)._searchFull = s._searchFull)
      ∧ (type.isMigrated = false →
          (searchReceived e type result requestId s)._searchFullMigrated
            = s._searchFullMigrated)
      ∧ (searchReceived e type result requestId s)._searchNextRate
          = nextRateAfter result s._searchNextRate)
    ∧ (requestId ≠ s._searchRequest →
      (searchReceived e type result requestId s)._searchRequest = s._searchRequest
      ∧ (searchReceived e type result requestId s)._searchFull = s._searchFull
      ∧ (searchReceived e type result requestId s)._searchFullMigrated
          = s._searchFullMigrated
      ∧ (searchReceived e type result requestId s)._searchNextRate = s._searchNextRate
      ∧ (searchReceived e type result requestId s).log = s.log)
    ∧ (requestId = s._peerSearchRequest →
      (peerSearchReceived e found requestId s)._peerSearchRequest = 0
      ∧ peerResultsShown (peerSearchReceived e found requestId s).log
          = peerResultsShown s.log ++
            [(if e.inner.state = WidgetState.Filtered then
                (s._peerSearchQueries.find requestId).getD s._peerSearchQuery
              else s._peerSearchQuery, found.vmy_results, found.vresults)])
    ∧ (requestId ≠ s._peerSearchRequest →
      (peerSearchReceived e found requestId s)._peerSearchRequest = s._peerSearchRequest
      ∧ (peerSearchReceived e found requestId s)._peerSearchFull = s._peerSearchFull
      ∧ (peerSearchReceived e found requestId s).log = s.log) := by
  refine ⟨?_, ?_, (peerSearchReceived_spec e found requestId s).1,
    (peerSearchReceived_spec e found requestId s).2⟩
  · intro h
    rw [searchReceived_of_eq e type result requestId s h.symm]
    obtain ⟨f1, f2, f3, f4, f5⟩ :=
      searchReceivedApply_flags e type result (searchReceivedCache e type result requestId s)
    simp only [searchReceivedCache_searchFull, searchReceivedCache_searchFullMigrated,
      searchReceivedCache_searchNextRate] at f1 f2 f3 f4 f5
    refine ⟨rfl, ?_, ?_, f1, f2, f3, f4, f5⟩
    · show pagesShown (searchReceivedApply e type result _).log = _
      rw [searchReceivedApply_pagesShown]
      simp
    · intro hr
      exact searchReceivedApply_marks e type result _ hr
  · intro h
    rw [searchReceived_of_ne e type result requestId s (Ne.symm h)]
    simp

/-- C1 (witness): the tracked request 5 answered by a full batch. -/
theorem C1_response_applied_iff_tracked_witness :
    (searchReceived sampleEnv SearchRequestType.FromStart
        (MTPmessages_Messages.messages [10, 11]) 5 trackingFive)._searchRequest = 0
    ∧ pagesShown (searchReceived sampleEnv SearchRequestType.FromStart
        (MTPmessages_Messages.messages [10, 11]) 5 trackingFive).log
      = [([10, 11], SearchRequestType.FromStart, 2)] := by
  have h := (C1_response_applied_iff_tracked sampleEnv SearchRequestType.FromStart
    (MTPmessages_Messages.messages [10, 11]) ⟨[], []⟩ 5 trackingFive).1 rfl
  exact ⟨h.1, h.2.1⟩

/-- C1 (counterexample): the tracked request 5 is answered by
`messagesNotModified`; the ids are equal and `_searchRequest` is reset, yet no
page reaches the list view. -/
theorem C1_counterexample :
    trackingFive._searchRequest = 5
    ∧ (searchReceived sampleEnv SearchRequestType.FromStart
        (MTPmessages_Messages.messagesNotModified 0) 5 trackingFive)._searchRequest = 0
    ∧ pagesShown (searchReceived sampleEnv SearchRequestType.FromStart
        (MTPmessages_Messages.messagesNotModified 0) 5 trackingFive).log = [] := by
  decide

/-! ## QMap -/

namespace QMap

variable {K V : Type} [DecidableEq K]

@[simp] theorem find_clear (k : K) : (QMap.clear : QMap K V).find k = none := rfl

@[simp] theorem find_insert_self (m : QMap K V) (k : K) (v : V) :
    (m.insert k v).find k = some v := by
  simp [QMap.find, QMap.insert]

theorem find_filter_ne (l : List (K × V)) (k k1 : K) (h : k1 ≠ k) :
    (l.filter (fun p => decide (p.1 ≠ k))).find? (fun p => decide (p.1 = k1))
      = l.find? (fun p => decide (p.1 = k1)) := by
  rw [List.find?_filter]
  congr 1
  funext a
  by_cases ha : a.1 = k1
  · have : ¬ a.1 = k := fun hk => h (ha.symm.trans hk)
    simp [ha, this, h]
  · simp [ha]

theorem find_insert_ne (m : QMap K V) (k k1 : K) (v : V) (h : k1 ≠ k) :
    (m.insert k v).find k1 = m.find k1 := by
  have hk : ¬ k = k1 := fun h1 => h h1.symm
  simp only [QMap.find, QMap.insert, List.find?_cons, hk, decide_False]
  rw [find_filter_ne _ _ _ h]

theorem find_erase_ne (m : QMap K V) (k k1 : K) (h : k1 ≠ k) :
    (m.erase k).find k1 = m.find k1 := by
  simp only [QMap.find, QMap.erase]
  rw [find_filter_ne _ _ _ h]

@[simp] theorem find_erase_self (m : QMap K V) (k : K) : (m.erase k).find k = none := by
  simp only [QMap.find, QMap.erase, Option.map_eq_none']
  rw [List.find?_eq_none]
  intro p hp
  have := (List.mem_filter.mp hp).2
  simpa using this

end QMap

/-! ## The RPC layer -/

theorem MTP_cancel_frame (requestId : mtpRequestId) (s : Widget) :
    (MTP_cancel requestId s).searchLane = s.searchLane
    ∧ (MTP_cancel requestId s).peerLane = s.peerLane
    ∧ (MTP_cancel requestId s)._searchInChat = s._searchInChat
    ∧ (MTP_cancel requestId s)._searchInMigrated = s._searchInMigrated
    ∧ (MTP_cancel requestId s)._searchFromUser = s._searchFromUser
    ∧ (MTP_cancel requestId s).filterText = s.filterText
    ∧ (MTP_cancel requestId s)._lastFilterText = s._lastFilterText
    ∧ (MTP_cancel requestId s).mtp.lastRequestId = s.mtp.lastRequestId
    ∧ (MTP_cancel requestId s).mtp.inFlight
        = s.mtp.inFlight.filter (fun p => decide (p.1 ≠ requestId) || decide (requestId = 0))
    ∧ (MTP_cancel requestId s).log
        = s.log ++ (if requestId = 0 then [] else [Effect.cancel requestId]) := by
  unfold MTP_cancel
  by_cases h : requestId = 0
  · simp [h]
  · simp [h, Widget.searchLane, Widget.peerLane]

theorem MTP_send_frame (request : Request) (handler : RpcHandler) (s : Widget) :
    (MTP_send request handler s).2 = s.mtp.lastRequestId + 1
    ∧ (MTP_send request handler s).1.searchLane = s.searchLane
    ∧ (MTP_send request handler s).1.peerLane = s.peerLane
    ∧ (MTP_send request handler s).1._searchInChat = s._searchInChat
    ∧ (MTP_send request handler s).1._searchInMigrated = s._searchInMigrated
    ∧ (MTP_send request handler s).1._searchFromUser = s._searchFromUser
    ∧ (MTP_send request handler s).1.filterText = s.filterText
    ∧ (MTP_send request handler s).1._lastFilterText = s._lastFilterText
    ∧ (MTP_send request handler s).1.mtp.lastRequestId = s.mtp.lastRequestId + 1
    ∧ (MTP_send request handler s).1.mtp.inFlight
        = (s.mtp.lastRequestId + 1, handler) :: s.mtp.inFlight
    ∧ (MTP_send request handler s).1.log
        = s.log ++ [Effect.send (s.mtp.lastRequestId + 1) request handler] := by
  simp [MTP_send, Widget.searchLane, Widget.peerLane]

/-! ## The contact-search lane leaves the message-search lanes alone -/

theorem peerSearchReceived_frame (e : Env) (result : MTPcontacts_Found)
    (requestId : mtpRequestId) (s : Widget) :
    (peerSearchReceived e result requestId s).searchLane = s.searchLane
    ∧ (peerSearchReceived e result requestId s)._searchInChat = s._searchInChat
    ∧ (peerSearchReceived e result requestId s)._searchInMigrated = s._searchInMigrated
    ∧ (peerSearchReceived e result requestId s)._searchFromUser = s._searchFromUser
    ∧ (peerSearchReceived e result requestId s).filterText = s.filterText
    ∧ (peerSearchReceived e result requestId s)._lastFilterText = s._lastFilterText
    ∧ (peerSearchReceived e result requestId s).mtp = s.mtp
    ∧ sends (peerSearchReceived e result requestId s).log = sends s.log
    ∧ searchSends (peerSearchReceived e result requestId s).log = searchSends s.log
    ∧ peerSearchSends (peerSearchReceived e result requestId s).log = peerSearchSends s.log
    ∧ cancels (peerSearchReceived e result requestId s).log = cancels s.log
    ∧ pagesShown (peerSearchReceived e result requestId s).log = pagesShown s.log := by
  unfold peerSearchReceived
  by_cases hf : e.inner.state = WidgetState.Filtered
  · cases hq : s._peerSearchQueries.find requestId <;>
      by_cases hr : s._peerSearchRequest = requestId <;>
      simp [hf, hq, hr, Widget.emit, Widget.searchLane, sends, searchSends, peerSearchSends,
        cancels, pagesShown]
  · by_cases hr : s._peerSearchRequest = requestId <;>
      simp [hf, hr, Widget.emit, Widget.searchLane, sends, searchSends, peerSearchSends,
        cancels, pagesShown]

/-- The contact-search part of `onSearchMessages` changes no member of the
message-search lanes, sends no message-search request, cancels nothing and
hands no page of messages to the list view; with `searchCache` it sends nothing
at all. -/
theorem onSearchMessagesPeers_frame (e : Env) (searchCache : Bool) (q : QString)
    (result : Bool) (s : Widget) :
    (onSearchMessagesPeers e searchCache q result s).1.searchLane = s.searchLane
    ∧ (onSearchMessagesPeers e searchCache q result s).1._searchInChat = s._searchInChat
    ∧ (onSearchMessagesPeers e searchCache q result s).1._searchInMigrated
        = s._searchInMigrated
    ∧ (onSearchMessagesPeers e searchCache q result s).1._searchFromUser = s._searchFromUser
    ∧ (onSearchMessagesPeers e searchCache q result s).1.filterText = s.filterText
    ∧ (onSearchMessagesPeers e searchCache q result s).1._lastFilterText = s._lastFilterText
    ∧ searchSends (onSearchMessagesPeers e searchCache q result s).1.log = searchSends s.log
    ∧ cancels (onSearchMessagesPeers e searchCache q result s).1.log = cancels s.log
    ∧ pagesShown (onSearchMessagesPeers e searchCache q result s).1.log = pagesShown s.log
    ∧ inFlightSearches (onSearchMessagesPeers e searchCache q result s).1 = inFlightSearches s
    ∧ s.mtp.lastRequestId ≤ (onSearchMessagesPeers e searchCache q result s).1.mtp.lastRequestId
    ∧ (searchCache = true →
        sends (onSearchMessagesPeers e searchCache q result s).1.log = sends s.log
        ∧ (onSearchMessagesPeers e searchCache q result s).1.mtp = s.mtp)
    ∧ (result = true → (onSearchMessagesPeers e searchCache q result s).2 = true) := by
  unfold onSearchMessagesPeers
  split_ifs with h1 h2 h3
  · split
    · rename_i found hfound
      have hp := peerSearchReceived_frame e found 0
        { s with _peerSearchQuery := q, _peerSearchRequest := 0 }
      obtain ⟨p1, p2, p3, p4, p5, p6, p7, p8, p9, p10, p11, p12⟩ := hp
      simp only [p1, p2, p3, p4, p5, p6, p8, p9, p11, p12, inFlightSearches, p7]
      simp [Widget.searchLane]
    · simp
  · simp [MTP_send, Widget.searchLane, searchSends, cancels, pagesShown, inFlightSearches,
      List.filter_cons]
    simp_all
  · simp_all
  · have hp := peerSearchReceived_frame e ⟨[], []⟩ 0
      { s with _peerSearchQuery := q, _peerSearchFull := true }
    obtain ⟨p1, p2, p3, p4, p5, p6, p7, p8, p9, p10, p11, p12⟩ := hp
    simp only [p1, p2, p3, p4, p5, p6, p8, p9, p11, p12, inFlightSearches, p7]
    simp [Widget.searchLane]

/-! ## Issuing a first-page request -/

theorem cancelTakeSearchRequest_frame (s : Widget) :
    (cancelTakeSearchRequest s).searchLane = { s.searchLane with _searchRequest := 0 }
    ∧ (cancelTakeSearchRequest s).peerLane = s.peerLane
    ∧ (cancelTakeSearchRequest s)._searchInChat = s._searchInChat
    ∧ (cancelTakeSearchRequest s)._searchInMigrated = s._searchInMigrated
    ∧ (cancelTakeSearchRequest s)._searchFromUser = s._searchFromUser
    ∧ (cancelTakeSearchRequest s).filterText = s.filterText
    ∧ (cancelTakeSearchRequest s)._lastFilterText = s._lastFilterText
    ∧ (cancelTakeSearchRequest s).mtp.lastRequestId = s.mtp.lastRequestId
    ∧ (cancelTakeSearchRequest s).mtp.inFlight
        = s.mtp.inFlight.filter
            (fun p => decide (p.1 ≠ s._searchRequest) || decide (s._searchRequest = 0))
    ∧ (cancelTakeSearchRequest s).log
        = s.log ++ (if s._searchRequest = 0 then [] else [Effect.cancel s._searchRequest]) := by
  unfold cancelTakeSearchRequest MTP_cancel
  by_cases h : s._searchRequest = 0
  · simp [h, Widget.searchLane, Widget.peerLane]
  · simp [h, Widget.searchLane, Widget.peerLane]

theorem cancelTakePeerSearchRequest_frame (s : Widget) :
    (cancelTakePeerSearchRequest s).searchLane = s.searchLane
    ∧ (cancelTakePeerSearchRequest s).peerLane = { s.peerLane with _peerSearchRequest := 0 }
    ∧ (cancelTakePeerSearchRequest s)._searchInChat = s._searchInChat
    ∧ (cancelTakePeerSearchRequest s)._searchInMigrated = s._searchInMigrated
    ∧ (cancelTakePeerSearchRequest s)._searchFromUser = s._searchFromUser
    ∧ (cancelTakePeerSearchRequest s).filterText = s.filterText
    ∧ (cancelTakePeerSearchRequest s)._lastFilterText = s._lastFilterText
    ∧ (cancelTakePeerSearchRequest s).mtp.lastRequestId = s.mtp.lastRequestId
    ∧ (cancelTakePeerSearchRequest s).mtp.inFlight
        = s.mtp.inFlight.filter
            (fun p => decide (p.1 ≠ s._peerSearchRequest) || decide (s._peerSearchRequest = 0))
    ∧ (cancelTakePeerSearchRequest s).log
        = s.log ++
          (if s._peerSearchRequest = 0 then [] else [Effect.cancel s._peerSearchRequest]) := by
  unfold cancelTakePeerSearchRequest MTP_cancel
  by_cases h : s._peerSearchRequest = 0
  · simp [h, Widget.searchLane, Widget.peerLane]
  · simp [h, Widget.searchLane, Widget.peerLane]

theorem sendFirstPage_frame (e : Env) (s : Widget) :
    (sendFirstPage e s).searchLane
        = { s.searchLane with _searchRequest := s.mtp.lastRequestId + 1 }
    ∧ (sendFirstPage e s).peerLane = s.peerLane
    ∧ (sendFirstPage e s)._searchInChat = s._searchInChat
    ∧ (sendFirstPage e s)._searchInMigrated = s._searchInMigrated
    ∧ (sendFirstPage e s)._searchFromUser = s._searchFromUser
    ∧ (sendFirstPage e s).filterText = s.filterText
    ∧ (sendFirstPage e s)._lastFilterText = s._lastFilterText
    ∧ (sendFirstPage e s).mtp.lastRequestId = s.mtp.lastRequestId + 1
    ∧ (sendFirstPage e s).mtp.inFlight
        = (s.mtp.lastRequestId + 1,
            RpcHandler.search
              (expectedFirstPage e s._searchInChat s._searchQueryFrom s._searchQuery).2)
          :: s.mtp.inFlight
    ∧ (sendFirstPage e s).log
        = s.log ++ [Effect.send (s.mtp.lastRequestId + 1)
            (expectedFirstPage e s._searchInChat s._searchQueryFrom s._searchQuery).1
            (RpcHandler.search
              (expectedFirstPage e s._searchInChat s._searchQueryFrom s._searchQuery).2)] := by
  unfold sendFirstPage expectedFirstPage MTP_send
  cases hp : s._searchInChat.peer <;> simp [hp, Widget.searchLane, Widget.peerLane]

/-- The branch of `onSearchMessages(false)` that starts a new query. -/
theorem onSearchMessagesMessages_issue (e : Env) (q : QString) (s : Widget)
    (hnew : s._searchQuery ≠ q ∨ s._searchQueryFrom ≠ s._searchFromUser) :
    (onSearchMessagesMessages e false q s).2 = false
    ∧ (onSearchMessagesMessages e false q s).1.searchLane
        = ⟨s.mtp.lastRequestId + 1, q, s._searchFromUser, 0, false, false, s._searchCache,
            s._searchQueries.insert (s.mtp.lastRequestId + 1) q⟩
    ∧ (onSearchMessagesMessages e false q s).1.peerLane = s.peerLane
    ∧ (onSearchMessagesMessages e false q s).1._searchInChat = s._searchInChat
    ∧ (onSearchMessagesMessages e false q s).1._searchInMigrated = s._searchInMigrated
    ∧ (onSearchMessagesMessages e false q s).1._searchFromUser = s._searchFromUser
    ∧ (onSearchMessagesMessages e false q s).1.filterText = s.filterText
    ∧ (onSearchMessagesMessages e false q s).1._lastFilterText = s._lastFilterText
    ∧ (onSearchMessagesMessages e false q s).1.mtp.lastRequestId = s.mtp.lastRequestId + 1
    ∧ (onSearchMessagesMessages e false q s).1.mtp.inFlight
        = (s.mtp.lastRequestId + 1, RpcHandler.search (expectedFirstPage e s._searchInChat s._searchFromUser q).2)
          :: s.mtp.inFlight.filter
              (fun p => decide (p.1 ≠ s._searchRequest) || decide (s._searchRequest = 0))
    ∧ (onSearchMessagesMessages e false q s).1.log
        = s.log ++ (if s._searchRequest = 0 then [] else [Effect.cancel s._searchRequest])
          ++ [Effect.send (s.mtp.lastRequestId + 1) (expectedFirstPage e s._searchInChat s._searchFromUser q).1
                (RpcHandler.search (expectedFirstPage e s._searchInChat s._searchFromUser q).2)] := by
  have h2 := cancelTakeSearchRequest_frame (startQuery q s)
  have h3 := sendFirstPage_frame e (cancelTakeSearchRequest (startQuery q s))
  simp only [Widget.searchLane, Widget.peerLane, SearchLane.mk.injEq, PeerLane.mk.injEq] at h2 h3
  obtain ⟨⟨a1, a2, a3, a4, a5, a6, a7, a8⟩, ⟨b1, b2, b3, b4, b5⟩, a9, a10, a11, a12, a13, a14,
    a15, a16⟩ := h2
  obtain ⟨⟨c1, c2, c3, c4, c5, c6, c7, c8⟩, ⟨d1, d2, d3, d4, d5⟩, c9, c10, c11, c12, c13, c14,
    c15, c16⟩ := h3
  have e1 : (startQuery q s)._searchQuery = q := rfl
  have e2 : (startQuery q s)._searchQueryFrom = s._searchFromUser := rfl
  unfold onSearchMessagesMessages
  simp only [hnew, if_true, Bool.false_eq_true, if_false]
  simp only [Widget.searchLane, Widget.peerLane, SearchLane.mk.injEq, PeerLane.mk.injEq]
  rw [a2, e1, a3, e2, a9] at c16 c15
  rw [a2, e1] at c2
  rw [a3, e2] at c3
  refine ⟨trivial, ⟨c1.trans (by rw [a14]; rfl), c2, c3, c4.trans a4, c5.trans a5, c6.trans a6,
    c7.trans a7, ?_⟩, ⟨d1.trans b1, d2.trans b2, d3.trans b3, d4.trans b4, d5.trans b5⟩,
    c9.trans a9, c10.trans a10, c11.trans a11, c12.trans a12, c13.trans a13, ?_, ?_, ?_⟩
  · show QMap.insert _ _ _ = _
    rw [c1, c2, c8, a8, a14]; rfl
  · show (sendFirstPage e _).mtp.lastRequestId = _
    rw [c14, a14]; rfl
  · show (sendFirstPage e _).mtp.inFlight = _
    rw [c15, a14, a15]; rfl
  · show (sendFirstPage e _).log = _
    rw [c16, a14, a16]; rfl

theorem onSearchMessages_of_query (e : Env) (searchCache : Bool) (s : Widget)
    (hq : trimmed s.filterText ≠ [] ∨ s._searchFromUser ≠ none) :
    onSearchMessages e searchCache s =
      onSearchMessagesPeers e searchCache (trimmed s.filterText)
        (onSearchMessagesMessages e searchCache (trimmed s.filterText) s).2
        (onSearchMessagesMessages e searchCache (trimmed s.filterText) s).1 := by
  have h1 : ¬ ((trimmed s.filterText).isEmpty = true ∧ s._searchFromUser = none) := by
    rintro ⟨ha, hb⟩
    rcases hq with hq | hq
    · exact hq (List.isEmpty_iff.mp ha)
    · exact hq hb
  unfold onSearchMessages
  simp only [h1, if_false]

theorem inFlightSearches_cons_search (s : Widget) (l : List (mtpRequestId × RpcHandler))
    (i : mtpRequestId) (t : SearchRequestType) (h : s.mtp.inFlight = (i, RpcHandler.search t) :: l) :
    inFlightSearches s
      = i :: (l.filter (fun p => decide (p.2 ≠ RpcHandler.peerSearch))).map Prod.fst := by
  simp [inFlightSearches, h, List.filter_cons]

theorem map_fst_filter_filter (l : List (mtpRequestId × RpcHandler))
    (f : mtpRequestId → Bool) (g : mtpRequestId × RpcHandler → Bool) :
    ((l.filter (fun p => f p.1)).filter g).map Prod.fst
      = ((l.filter g).map Prod.fst).filter f := by
  induction l with
  | nil => rfl
  | cons p l ih =>
    simp only [List.filter_filter] at ih
    by_cases hf : f p.1 <;> by_cases hg : g p <;>
      simp [List.filter_cons, hf, hg, ih, List.filter_filter]

/-- What `onSearchMessages(false)` does when the query or the sender differs
from the active one. -/
theorem onSearchMessages_issue (e : Env) (s : Widget)
    (hq : trimmed s.filterText ≠ [] ∨ s._searchFromUser ≠ none)
    (hnew : s._searchQuery ≠ trimmed s.filterText ∨ s._searchQueryFrom ≠ s._searchFromUser) :
    (onSearchMessages e false s).1.searchLane
        = ⟨s.mtp.lastRequestId + 1, trimmed s.filterText, s._searchFromUser, 0, false, false,
            s._searchCache,
            s._searchQueries.insert (s.mtp.lastRequestId + 1) (trimmed s.filterText)⟩
    ∧ (onSearchMessages e false s).1._searchInChat = s._searchInChat
    ∧ (onSearchMessages e false s).1._searchInMigrated = s._searchInMigrated
    ∧ (onSearchMessages e false s).1._searchFromUser = s._searchFromUser
    ∧ (onSearchMessages e false s).1.filterText = s.filterText
    ∧ (onSearchMessages e false s).1._lastFilterText = s._lastFilterText
    ∧ searchSends (onSearchMessages e false s).1.log = searchSends s.log ++
        [(s.mtp.lastRequestId + 1,
          (expectedFirstPage e s._searchInChat s._searchFromUser (trimmed s.filterText)).1,
          (expectedFirstPage e s._searchInChat s._searchFromUser (trimmed s.filterText)).2)]
    ∧ cancels (onSearchMessages e false s).1.log = cancels s.log ++
        (if s._searchRequest = 0 then [] else [s._searchRequest])
    ∧ pagesShown (onSearchMessages e false s).1.log = pagesShown s.log
    ∧ inFlightSearches (onSearchMessages e false s).1 = (s.mtp.lastRequestId + 1) ::
        (inFlightSearches s).filter
          (fun i => decide (i ≠ s._searchRequest) || decide (s._searchRequest = 0))
    ∧ s.mtp.lastRequestId + 1 ≤ (onSearchMessages e false s).1.mtp.lastRequestId := by
  rw [onSearchMessages_of_query e false s hq]
  obtain ⟨m1, m2, m3, m4, m5, m6, m7, m8, m9, m10, m11⟩ :=
    onSearchMessagesMessages_issue e (trimmed s.filterText) s hnew
  obtain ⟨p1, p2, p3, p4, p5, p6, p7, p8, p9, p10, p11, -, -⟩ :=
    onSearchMessagesPeers_frame e false (trimmed s.filterText)
      (onSearchMessagesMessages e false (trimmed s.filterText) s).2
      (onSearchMessagesMessages e false (trimmed s.filterText) s).1
  refine ⟨p1.trans m2, p2.trans m4, p3.trans m5, p4.trans m6, p5.trans m7, p6.trans m8,
    ?_, ?_, ?_, ?_, ?_⟩
  · rw [p7, m11]
    by_cases h0 : s._searchRequest = 0 <;> simp [h0, searchSends]
  · rw [p8, m11]
    by_cases h0 : s._searchRequest = 0 <;> simp [h0, cancels]
  · rw [p9, m11]
    by_cases h0 : s._searchRequest = 0 <;> simp [h0, pagesShown]
  · rw [p10, inFlightSearches_cons_search _ _ _ _ m10]
    exact congrArg _ (map_fst_filter_filter s.mtp.inFlight
      (fun i => decide (i ≠ s._searchRequest) || decide (s._searchRequest = 0))
      (fun p => decide (p.2 ≠ RpcHandler.peerSearch)))
  · rw [← m9]; exact p11

/-! ## A late response after the query changed (C2) -/

/-- C2: a late from-start response for a superseded query is not shown for the
new query. `onSearchMessages(false)` issues a request for `a` (id `idA`); the
text changes and `onSearchMessages(false)` issues a request for `b ≠ a`; then a
from-start response carrying `idA` arrives. The response is not handed to the
list view, `_searchRequest` stays the id of the request for `b`, the completion
flags and the next-rate cursor are unchanged, and in the Filtered state the
response is stored in `_searchCache` under `a` while every other key, `b`
included, keeps its entry. -/
theorem C2_late_response_not_shown (e1 e2 e3 : Env) (ta tb : QString)
    (type : SearchRequestType) (result : MTPmessages_Messages) (s0 s1 s2 s3 : Widget)
    (hab : trimmed ta ≠ trimmed tb)
    (ha : trimmed ta ≠ [] ∨ s0._searchFromUser ≠ none)
    (hb : trimmed tb ≠ [] ∨ s0._searchFromUser ≠ none)
    (hnew : s0._searchQuery ≠ trimmed ta ∨ s0._searchQueryFrom ≠ s0._searchFromUser)
    (htype : type = SearchRequestType.FromStart ∨ type = SearchRequestType.PeerFromStart)
    (h1 : s1 = (onSearchMessages e1 false { s0 with filterText := ta }).1)
    (h2 : s2 = (onSearchMessages e2 false { s1 with filterText := tb }).1)
    (h3 : s3 = searchReceived e3 type result (s0.mtp.lastRequestId + 1) s2) :
    (s1._searchRequest = s0.mtp.lastRequestId + 1
      ∧ s1._searchQuery = trimmed ta
      ∧ s1._searchQueries.find (s0.mtp.lastRequestId + 1) = some (trimmed ta))
    ∧ (s2._searchRequest = s1.mtp.lastRequestId + 1
      ∧ s2._searchRequest ≠ s0.mtp.lastRequestId + 1
      ∧ s2._searchQuery = trimmed tb
      ∧ s2._searchQueries.find s2._searchRequest = some (trimmed tb)
      ∧ cancels s2.log = cancels s1.log ++ [s0.mtp.lastRequestId + 1])
    ∧ (pagesShown s3.log = pagesShown s2.log
      ∧ s3._searchRequest = s2._searchRequest
      ∧ s3._searchQuery = trimmed tb
      ∧ s3._searchFull = s2._searchFull
      ∧ s3._searchFullMigrated = s2._searchFullMigrated
      ∧ s3._searchNextRate = s2._searchNextRate)
    ∧ (e3.inner.state = WidgetState.Filtered →
        s3._searchCache.find (trimmed ta) = some result
        ∧ ∀ k, k ≠ trimmed ta → s3._searchCache.find k = s2._searchCache.find k)
    ∧ (e3.inner.state ≠ WidgetState.Filtered → s3._searchCache = s2._searchCache) := by
  obtain ⟨a1, -, -, a4, -, -, -, -, -, -, a11⟩ :=
    onSearchMessages_issue e1 { s0 with filterText := ta } ha hnew
  rw [← h1] at a1 a4 a11
  simp only [Widget.searchLane, SearchLane.mk.injEq] at a1
  obtain ⟨a1r, a1q, a1f, -, -, -, a1c, a1qs⟩ := a1
  have hb1 : trimmed ({ s1 with filterText := tb } : Widget).filterText ≠ []
      ∨ ({ s1 with filterText := tb } : Widget)._searchFromUser ≠ none := by
    rcases hb with hb | hb
    · exact Or.inl hb
    · exact Or.inr (by rw [show ({ s1 with filterText := tb } : Widget)._searchFromUser
        = s1._searchFromUser from rfl, a4]; exact hb)
  have hnew1 : ({ s1 with filterText := tb } : Widget)._searchQuery
        ≠ trimmed ({ s1 with filterText := tb } : Widget).filterText
      ∨ ({ s1 with filterText := tb } : Widget)._searchQueryFrom
        ≠ ({ s1 with filterText := tb } : Widget)._searchFromUser :=
    Or.inl (by show s1._searchQuery ≠ trimmed tb; rw [a1q]; exact hab)
  obtain ⟨b1, -, -, -, -, -, -, b8, -, -, -⟩ :=
    onSearchMessages_issue e2 { s1 with filterText := tb } hb1 hnew1
  rw [← h2] at b1 b8
  simp only [Widget.searchLane, SearchLane.mk.injEq] at b1
  obtain ⟨b1r, b1q, -, -, -, -, b1c, b1qs⟩ := b1
  have hlt : s0.mtp.lastRequestId + 1 < s1.mtp.lastRequestId + 1 :=
    Nat.lt_succ_of_le a11
  have hne : s2._searchRequest ≠ s0.mtp.lastRequestId + 1 := by
    rw [b1r]; exact Nat.ne_of_gt hlt
  have hfindA : s2._searchQueries.find (s0.mtp.lastRequestId + 1) = some (trimmed ta) := by
    rw [b1qs, QMap.find_insert_ne _ _ _ _ (Nat.ne_of_lt hlt)]
    show s1._searchQueries.find _ = _
    rw [a1qs]
    exact QMap.find_insert_self _ _ _
  have h3c : s3 = searchReceivedCache e3 type result (s0.mtp.lastRequestId + 1) s2 := by
    rw [h3]; exact searchReceived_of_ne e3 type result _ s2 hne
  refine ⟨⟨a1r, a1q, ?_⟩, ⟨b1r, hne, b1q, ?_, ?_⟩, ⟨?_, ?_, ?_, ?_, ?_, ?_⟩, ?_, ?_⟩
  · rw [a1qs]; exact QMap.find_insert_self _ _ _
  · rw [b1qs, b1r]; exact QMap.find_insert_self _ _ _
  · rw [b8]
    show cancels s1.log ++ (if s1._searchRequest = 0 then [] else [s1._searchRequest]) = _
    rw [a1r]; simp
  · rw [h3c]; simp
  · rw [h3c]; simp
  · rw [h3c]; simpa using b1q
  · rw [h3c]; simp
  · rw [h3c]; simp
  · rw [h3c]; simp
  · intro hf
    have hcache : s3._searchCache = s2._searchCache.insert (trimmed ta) result := by
      rw [h3c]
      unfold searchReceivedCache
      simp only [hf, htype, if_true, hfindA]
    rw [hcache]
    exact ⟨QMap.find_insert_self _ _ _, fun k hk => QMap.find_insert_ne _ _ _ _ hk⟩
  · intro hf
    rw [h3c]
    unfold searchReceivedCache
    simp only [hf, if_false]

/-- C2 (witness): the queries "abc" and "abcd" on the constructed widget. -/
theorem C2_late_response_not_shown_witness :
    pagesShown afterLateAbc.log = pagesShown afterAbcd.log
    ∧ afterLateAbc._searchRequest = afterAbcd._searchRequest
    ∧ afterLateAbc._searchCache.find "abc".toList = some (MTPmessages_Messages.messages [7])
    ∧ afterLateAbc._searchCache.find "abcd".toList = afterAbcd._searchCache.find "abcd".toList := by
  have h := C2_late_response_not_shown sampleEnv sampleEnv sampleEnv "abc".toList
    "abcd".toList SearchRequestType.FromStart (MTPmessages_Messages.messages [7])
    Widget.init afterAbc afterAbcd afterLateAbc (by decide) (by decide) (by decide)
    (by decide) (Or.inl rfl) rfl rfl rfl
  exact ⟨h.2.2.1.1, h.2.2.1.2.1, (h.2.2.2.1 rfl).1, (h.2.2.2.1 rfl).2 _ (by decide)⟩

/-! ## New and unchanged queries (C7, C8) -/

/-- C8: a changed query or sender starts a new first-page search. When the
trimmed text `q` is non-empty or a sender is chosen, and `q` or the sender
differs from the active one, `onSearchMessages(false)` cancels the tracked
request (the log gains its cancellation and it leaves the in-flight requests),
resets `_searchNextRate` to 0 and both completion flags to false, makes `q` and
the sender the active ones, sends exactly one message-search request, the
first page for `q` (all offsets 0, limit `SearchPerPage`, in the conversation
when the scope has a peer and global otherwise), stores its id in
`_searchRequest` and records the id with `q` in `_searchQueries`. -/
theorem C8_changed_query_starts_search (e : Env) (s : Widget)
    (hq : trimmed s.filterText ≠ [] ∨ s._searchFromUser ≠ none)
    (hnew : s._searchQuery ≠ trimmed s.filterText ∨ s._searchQueryFrom ≠ s._searchFromUser) :
    cancels (onSearchMessages e false s).1.log
        = cancels s.log ++ (if s._searchRequest = 0 then [] else [s._searchRequest])
    ∧ inFlightSearches (onSearchMessages e false s).1 = (s.mtp.lastRequestId + 1) ::
        (inFlightSearches s).filter
          (fun i => decide (i ≠ s._searchRequest) || decide (s._searchRequest = 0))
    ∧ (onSearchMessages e false s).1._searchNextRate = 0
    ∧ (onSearchMessages e false s).1._searchFull = false
    ∧ (onSearchMessages e false s).1._searchFullMigrated = false
    ∧ (onSearchMessages e false s).1._searchQuery = trimmed s.filterText
    ∧ (onSearchMessages e false s).1._searchQueryFrom = s._searchFromUser
    ∧ searchSends (onSearchMessages e false s).1.log = searchSends s.log ++
        [(s.mtp.lastRequestId + 1,
          (expectedFirstPage e s._searchInChat s._searchFromUser (trimmed s.filterText)).1,
          (expectedFirstPage e s._searchInChat s._searchFromUser (trimmed s.filterText)).2)]
    ∧ (onSearchMessages e false s).1._searchRequest = s.mtp.lastRequestId + 1
    ∧ (onSearchMessages e false s).1._searchQueries.find (s.mtp.lastRequestId + 1)
        = some (trimmed s.filterText) := by
  obtain ⟨a1, -, -, -, -, -, a7, a8, -, a10, -⟩ := onSearchMessages_issue e s hq hnew
  simp only [Widget.searchLane, SearchLane.mk.injEq] at a1
  obtain ⟨r1, r2, r3, r4, r5, r6, -, r8⟩ := a1
  refine ⟨a8, a10, r4, r5, r6, r2, r3, a7, r1, ?_⟩
  rw [r8]
  exact QMap.find_insert_self _ _ _

/-- C8 (witness): the text "abc" typed into the constructed widget. -/
theorem C8_changed_query_starts_search_witness :
    searchSends afterAbc.log
      = [(1, Request.messages_SearchGlobal false 0 "abc".toList 0 none 0 50,
          SearchRequestType.FromStart)]
    ∧ afterAbc._searchRequest = 1
    ∧ afterAbc._searchQueries.find 1 = some "abc".toList := by
  have h := C8_changed_query_starts_search sampleEnv
    { Widget.init with filterText := "abc".toList } (by decide) (by decide)
  exact ⟨h.2.2.2.2.2.2.2.1, h.2.2.2.2.2.2.2.2.1, h.2.2.2.2.2.2.2.2.2⟩

/-- C7 (amended): an unchanged query is left alone. When the trimmed text is
non-empty or a sender is chosen, and text and sender equal the active ones,
`onSearchMessages(false)` sends no message-search request, cancels nothing and
leaves `_searchRequest`, `_searchQuery`, `_searchQueryFrom`, `_searchNextRate`,
`_searchFull`, `_searchFullMigrated`, `_searchCache`, `_searchQueries` and the
message-search requests in flight unchanged. -/
theorem C7_unchanged_query_noop (e : Env) (s : Widget)
    (hq : trimmed s.filterText ≠ [] ∨ s._searchFromUser ≠ none)
    (hsame : trimmed s.filterText = s._searchQuery)
    (hfrom : s._searchFromUser = s._searchQueryFrom) :
    searchSends (onSearchMessages e false s).1.log = searchSends s.log
    ∧ cancels (onSearchMessages e false s).1.log = cancels s.log
    ∧ (onSearchMessages e false s).1.searchLane = s.searchLane
    ∧ inFlightSearches (onSearchMessages e false s).1 = inFlightSearches s := by
  rw [onSearchMessages_of_query e false s hq]
  have hm : onSearchMessagesMessages e false (trimmed s.filterText) s = (s, false) := by
    unfold onSearchMessagesMessages
    have : ¬ (s._searchQuery ≠ trimmed s.filterText ∨ s._searchQueryFrom ≠ s._searchFromUser) := by
      rw [hsame, hfrom]; simp
    simp only [Bool.false_eq_true, if_false, this]
  rw [hm]
  obtain ⟨p1, -, -, -, -, -, p7, p8, -, p10, -⟩ :=
    onSearchMessagesPeers_frame e false (trimmed s.filterText) false s
  exact ⟨p7, p8, p1, p10⟩

/-- C7 (witness): "abc" is the active query and still the text. -/
theorem C7_unchanged_query_noop_witness :
    (onSearchMessages sampleEnv false afterAbc).1.searchLane = afterAbc.searchLane
    ∧ cancels (onSearchMessages sampleEnv false afterAbc).1.log = cancels afterAbc.log :=
  have h := C7_unchanged_query_noop sampleEnv afterAbc (by decide) (by decide) (by decide)
  ⟨h.2.2.1, h.2.1⟩

/-- C7 (counterexample): the text is empty, no sender is chosen, the active
query is empty as well and request 5 is tracked. Text and sender equal the
active ones, yet `onSearchMessages(false)` cancels request 5 and resets
`_searchRequest`. -/
theorem C7_counterexample :
    trimmed trackingFive.filterText = trackingFive._searchQuery
    ∧ trackingFive._searchFromUser = trackingFive._searchQueryFrom
    ∧ trackingFive._searchRequest = 5
    ∧ (onSearchMessages sampleEnv false trackingFive).1._searchRequest = 0
    ∧ cancels trackingFive.log = []
    ∧ cancels (onSearchMessages sampleEnv false trackingFive).1.log = [5] := by
  decide

/-! ## Cache hits (C3) -/

theorem searchReceived_frame (e : Env) (type : SearchRequestType)
    (result : MTPmessages_Messages) (requestId : mtpRequestId) (s : Widget) :
    (searchReceived e type result requestId s)._searchRequest
        = (if s._searchRequest = requestId then 0 else s._searchRequest)
    ∧ (searchReceived e type result requestId s).mtp = s.mtp
    ∧ (searchReceived e type result requestId s)._searchQuery = s._searchQuery
    ∧ (searchReceived e type result requestId s)._searchQueryFrom = s._searchQueryFrom
    ∧ (searchReceived e type result requestId s)._searchInChat = s._searchInChat
    ∧ (searchReceived e type result requestId s).peerLane = s.peerLane
    ∧ sends (searchReceived e type result requestId s).log = sends s.log
    ∧ cancels (searchReceived e type result requestId s).log = cancels s.log
    ∧ peerResultsShown (searchReceived e type result requestId s).log
        = peerResultsShown s.log := by
  by_cases h : s._searchRequest = requestId
  · rw [searchReceived_of_eq e type result requestId s h]
    simp [h, Widget.peerLane]
    have := searchReceivedApply_peerLane e type result
      (searchReceivedCache e type result requestId s)
    simp only [Widget.peerLane, PeerLane.mk.injEq, searchReceivedCache_peerLane] at this
    have h2 := searchReceivedCache_peerLane e type result requestId s
    simp only [Widget.peerLane, PeerLane.mk.injEq] at h2
    obtain ⟨x1, x2, x3, x4, x5⟩ := this
    obtain ⟨y1, y2, y3, y4, y5⟩ := h2
    exact ⟨x1.trans y1, x2.trans y2, x3.trans y3, x4.trans y4, x5.trans y5⟩
  · rw [searchReceived_of_ne e type result requestId s h]
    simp [h]

/-- A cache hit of `onSearchMessages(true)`: when the trimmed text `q` is
non-empty and a key of `_searchCache`, the call returns true, sends no request
(no id is handed out), cancels the tracked request and leaves `_searchRequest`
at 0, makes `q` the active query, and hands the cached page to `searchReceived`
with request id 0; the list view gets what `searchReceived` forwards for that
page (`pageOf`). -/
theorem onSearchMessages_cache_hit (e : Env) (s : Widget) (page : MTPmessages_Messages)
    (hq : trimmed s.filterText ≠ [])
    (hc : s._searchCache.find (trimmed s.filterText) = some page) :
    (onSearchMessages e true s).2 = true
    ∧ sends (onSearchMessages e true s).1.log = sends s.log
    ∧ (onSearchMessages e true s).1.mtp.lastRequestId = s.mtp.lastRequestId
    ∧ cancels (onSearchMessages e true s).1.log
        = cancels s.log ++ (if s._searchRequest = 0 then [] else [s._searchRequest])
    ∧ (onSearchMessages e true s).1.mtp.inFlight
        = s.mtp.inFlight.filter
            (fun p => decide (p.1 ≠ s._searchRequest) || decide (s._searchRequest = 0))
    ∧ (onSearchMessages e true s).1._searchRequest = 0
    ∧ (onSearchMessages e true s).1._searchQuery = trimmed s.filterText
    ∧ (onSearchMessages e true s).1
        = (onSearchMessagesPeers e true (trimmed s.filterText) true
            (searchReceived e
              (if s._searchInChat.toBool then SearchRequestType.PeerFromStart
                else SearchRequestType.FromStart)
              page 0 (cancelTakeSearchRequest (startQuery (trimmed s.filterText) s)))).1
    ∧ pagesShown (onSearchMessages e true s).1.log = pagesShown s.log ++
        pageOf
          (if s._searchInChat.toBool then SearchRequestType.PeerFromStart
            else SearchRequestType.FromStart)
          page := by
  rw [onSearchMessages_of_query e true s (Or.inl hq)]
  obtain ⟨c1, -, c3, -, -, -, -, c8, c9, c10⟩ :=
    cancelTakeSearchRequest_frame (startQuery (trimmed s.filterText) s)
  simp only [Widget.searchLane, SearchLane.mk.injEq] at c1
  obtain ⟨c1r, c1q, -⟩ := c1
  have hm : onSearchMessagesMessages e true (trimmed s.filterText) s
      = (searchReceived e
          (if s._searchInChat.toBool then SearchRequestType.PeerFromStart
            else SearchRequestType.FromStart)
          page 0 (cancelTakeSearchRequest (startQuery (trimmed s.filterText) s)), true) := by
    unfold onSearchMessagesMessages
    simp only [if_true, hc]
    rw [c3]
    rfl
  rw [hm]
  obtain ⟨p1, -, -, -, -, -, -, p8, p9, -, -, p12, p13⟩ :=
    onSearchMessagesPeers_frame e true (trimmed s.filterText) true
      (searchReceived e
          (if s._searchInChat.toBool then SearchRequestType.PeerFromStart
            else SearchRequestType.FromStart)
          page 0 (cancelTakeSearchRequest (startQuery (trimmed s.filterText) s)))
  obtain ⟨p12a, p12b⟩ := p12 rfl
  simp only [Widget.searchLane, SearchLane.mk.injEq] at p1
  obtain ⟨p1r, p1q, -⟩ := p1
  obtain ⟨r1, r2, r3, -, -, -, r7, r8, -⟩ :=
    searchReceived_frame e
      (if s._searchInChat.toBool then SearchRequestType.PeerFromStart
        else SearchRequestType.FromStart)
      page 0 (cancelTakeSearchRequest (startQuery (trimmed s.filterText) s))
  refine ⟨p13 rfl, ?_, ?_, ?_, ?_, ?_, ?_, rfl, ?_⟩
  · rw [p12a, r7, c10]
    show sends (s.log ++ (if s._searchRequest = 0 then [] else [Effect.cancel s._searchRequest]))
      = _
    by_cases h0 : s._searchRequest = 0 <;> simp [h0, sends]
  · rw [p12b, r2, c8]; rfl
  · rw [p8, r8, c10]
    show cancels (s.log ++ (if s._searchRequest = 0 then [] else [Effect.cancel s._searchRequest]))
      = _
    by_cases h0 : s._searchRequest = 0 <;> simp [h0, cancels]
  · rw [p12b, r2, c9]; rfl
  · rw [p1r, r1, c1r]; simp
  · rw [p1q, r3, c1q]; rfl
  · rw [p9, searchReceived_of_eq _ _ _ _ _ c1r]
    show pagesShown (searchReceivedApply e _ page _).log = _
    rw [searchReceivedApply_pagesShown, searchReceivedCache_log, c10]
    have hl : (startQuery (trimmed s.filterText) s).log = s.log := rfl
    have hr : (startQuery (trimmed s.filterText) s)._searchRequest = s._searchRequest := rfl
    rw [hl, hr]
    by_cases h0 : s._searchRequest = 0 <;> simp [h0, pagesShown]

/-- C3 (amended): a cache hit is served without the network. When the trimmed
text `q` is non-empty and a key of `_searchCache`, `onSearchMessages(true)`
returns true, sends no request (no id is handed out), cancels the tracked
request and leaves `_searchRequest` at 0, makes `q` the active query, and hands
the cached page to `searchReceived` with request id 0. The list view gets
exactly that page when it is one of the three shapes that carry a page
(`messages`, `messagesSlice`, `channelMessages`), and nothing when the cached
answer is `messagesNotModified`. -/
theorem C3_cache_hit_served_locally (e : Env) (s : Widget) (page : MTPmessages_Messages)
    (hq : trimmed s.filterText ≠ [])
    (hc : s._searchCache.find (trimmed s.filterText) = some page) :
    (onSearchMessages e true s).2 = true
    ∧ sends (onSearchMessages e true s).1.log = sends s.log
    ∧ (onSearchMessages e true s).1.mtp.lastRequestId = s.mtp.lastRequestId
    ∧ cancels (onSearchMessages e true s).1.log
        = cancels s.log ++ (if s._searchRequest = 0 then [] else [s._searchRequest])
    ∧ (onSearchMessages e true s).1.mtp.inFlight
        = s.mtp.inFlight.filter
            (fun p => decide (p.1 ≠ s._searchRequest) || decide (s._searchRequest = 0))
    ∧ (onSearchMessages e true s).1._searchRequest = 0
    ∧ (onSearchMessages e true s).1._searchQuery = trimmed s.filterText
    ∧ (onSearchMessages e true s).1
        = (onSearchMessagesPeers e true (trimmed s.filterText) true
            (searchReceived e
              (if s._searchInChat.toBool then SearchRequestType.PeerFromStart
                else SearchRequestType.FromStart)
              page 0 (cancelTakeSearchRequest (startQuery (trimmed s.filterText) s)))).1
    ∧ pagesShown (onSearchMessages e true s).1.log = pagesShown s.log ++
        pageOf
          (if s._searchInChat.toBool then SearchRequestType.PeerFromStart
            else SearchRequestType.FromStart)
          page
    ∧ (∀ msgs, page = MTPmessages_Messages.messages msgs →
        pagesShown (onSearchMessages e true s).1.log = pagesShown s.log ++
          [(msgs,
            if s._searchInChat.toBool then SearchRequestType.PeerFromStart
              else SearchRequestType.FromStart,
            (msgs.length : Int))])
    ∧ (∀ vcount vnext_rate msgs,
        page = MTPmessages_Messages.messagesSlice vcount vnext_rate msgs →
        pagesShown (onSearchMessages e true s).1.log = pagesShown s.log ++
          [(msgs,
            if s._searchInChat.toBool then SearchRequestType.PeerFromStart
              else SearchRequestType.FromStart,
            vcount)])
    ∧ (∀ vpts vcount msgs,
        page = MTPmessages_Messages.channelMessages vpts vcount msgs →
        pagesShown (onSearchMessages e true s).1.log = pagesShown s.log ++
          [(msgs,
            if s._searchInChat.toBool then SearchRequestType.PeerFromStart
              else SearchRequestType.FromStart,
            vcount)])
    ∧ (∀ c, page = MTPmessages_Messages.messagesNotModified c →
        pagesShown (onSearchMessages e true s).1.log = pagesShown s.log) := by
  obtain ⟨h1, h2, h3, h4, h5, h6, h7, h8, h9⟩ := onSearchMessages_cache_hit e s page hq hc
  refine ⟨h1, h2, h3, h4, h5, h6, h7, h8, h9, ?_, ?_, ?_, ?_⟩
  · intro msgs hp
    rw [h9, hp]
    rfl
  · intro vcount vnext_rate msgs hp
    rw [h9, hp]
    rfl
  · intro vpts vcount msgs hp
    rw [h9, hp]
    rfl
  · intro c hp
    rw [h9, hp]
    simp [pageOf]

/-- C3 (witness): after the late response for "abc" was cached, the text goes
back to "abc". -/
theorem C3_cache_hit_served_locally_witness :
    (onSearchMessages sampleEnv true { afterLateAbc with filterText := "abc".toList }).2 = true
    ∧ sends (onSearchMessages sampleEnv true
          { afterLateAbc with filterText := "abc".toList }).1.log
        = sends afterLateAbc.log
    ∧ pagesShown (onSearchMessages sampleEnv true
          { afterLateAbc with filterText := "abc".toList }).1.log
        = pagesShown afterLateAbc.log ++ [([7], SearchRequestType.FromStart, 1)] :=
  have h := C3_cache_hit_served_locally sampleEnv
    { afterLateAbc with filterText := "abc".toList } (MTPmessages_Messages.messages [7])
    (by decide) (by decide)
  ⟨h.1, h.2.1, h.2.2.2.2.2.2.2.2.1⟩

/-- The widget whose search for "abc" was answered by `messagesNotModified` is
reachable. -/
theorem notModifiedAbc_reachable : Reachable notModifiedAbc :=
  Reachable.step sampleEnv 0 (Event.searchDone 1 (MTPmessages_Messages.messagesNotModified 0))
    (Reachable.step sampleEnv 0 (Event.onSearchMessages false)
      (Reachable.step sampleEnv 0 (Event.filterChanged "abc".toList 3) Reachable.init rfl)
      rfl)
    rfl

/-- C3 (counterexample): the search for "abc" was answered by
`messagesNotModified`, which is cached under "abc". With "abc" in the filter
field `onSearchMessages(true)` finds the cached answer and returns true, yet
nothing is handed to the list view: the log gains the API error report only. -/
theorem C3_counterexample :
    Reachable notModifiedAbc
    ∧ trimmed notModifiedAbc.filterText = "abc".toList
    ∧ notModifiedAbc._searchCache.find (trimmed notModifiedAbc.filterText)
        = some (MTPmessages_Messages.messagesNotModified 0)
    ∧ (onSearchMessages sampleEnv true notModifiedAbc).2 = true
    ∧ (onSearchMessages sampleEnv true notModifiedAbc).1.log
        = notModifiedAbc.log ++ [Effect.logApiError]
    ∧ pagesShown (onSearchMessages sampleEnv true notModifiedAbc).1.log = [] :=
  ⟨notModifiedAbc_reachable, by decide⟩

/-! ## Loading more (C4, C5) -/

/-- C4: `onSearchMore` does nothing (the widget, its log and the RPC layer are
unchanged) when a message-search request is pending, and when the primary lane
is complete and the migrated lane is absent or complete. -/
theorem C4_onSearchMore_noop (e : Env) (s : Widget)
    (h : s._searchRequest ≠ 0
      ∨ (s._searchFull = true
        ∧ (s._searchInMigrated = none ∨ s._searchFullMigrated = true))) :
    onSearchMore e s = s := by
  unfold onSearchMore
  rcases h with h | ⟨hf, hm | hm⟩
  · simp [h]
  · by_cases h0 : s._searchRequest = 0 <;> simp [h0, hf, hm]
  · by_cases h0 : s._searchRequest = 0
    · cases hmig : s._searchInMigrated <;> simp [h0, hf, hm]
    · simp [h0]

/-- C4 (witness): request 5 is pending. -/
theorem C4_onSearchMore_noop_witness : onSearchMore sampleEnv trackingFive = trackingFive :=
  C4_onSearchMore_noop sampleEnv trackingFive (Or.inl (by decide))

/-- What `onSearchMore` sends. -/
theorem onSearchMore_newSearchSends (e : Env) (s : Widget) :
    newSearchSends s (onSearchMore e s) =
      if s._searchRequest = 0 then
        if s._searchFull = false then
          [(s.mtp.lastRequestId + 1,
            (match s._searchInChat.peer with
              | some peer =>
                Request.messages_Search s._searchQueryFrom.isSome peer s._searchQuery
                  s._searchQueryFrom 0 0 e.inner.lastSearchId 0 e.SearchPerPage 0 0 0
              | none =>
                Request.messages_SearchGlobal e.skipArchiveInSearch 0 s._searchQuery
                  s._searchNextRate e.inner.lastSearchPeer e.inner.lastSearchId
                  e.SearchPerPage),
            (match s._searchInChat.peer with
              | some _ =>
                if e.inner.lastSearchId ≠ 0 then SearchRequestType.PeerFromOffset
                else SearchRequestType.PeerFromStart
              | none =>
                if e.inner.lastSearchId ≠ 0 then SearchRequestType.FromOffset
                else SearchRequestType.FromStart))]
        else
          match s._searchInMigrated with
          | some migrated =>
            if s._searchFullMigrated = false then
              [(s.mtp.lastRequestId + 1,
                Request.messages_Search s._searchQueryFrom.isSome migrated s._searchQuery
                  s._searchQueryFrom 0 0 e.inner.lastSearchMigratedId 0 e.SearchPerPage 0 0 0,
                if e.inner.lastSearchMigratedId ≠ 0 then SearchRequestType.MigratedFromOffset
                else SearchRequestType.MigratedFromStart)]
            else []
          | none => []
      else [] := by
  unfold onSearchMore newSearchSends
  by_cases h0 : s._searchRequest = 0
  · by_cases hf : s._searchFull = false
    · have hf1 : (!s._searchFull) = true := by simp [hf]
      simp only [h0, if_true, hf, hf1]
      cases hp : s._searchInChat.peer <;> by_cases ho : e.inner.lastSearchId = 0 <;>
        simp [hp, ho, MTP_send, searchSends]
    · have hf1 : ¬ (!s._searchFull) = true := by simpa using hf
      simp only [h0, if_true, hf, hf1, if_false]
      cases hm : s._searchInMigrated with
      | none => simp
      | some m =>
        by_cases hfm : s._searchFullMigrated = false
        · simp [hfm, MTP_send, searchSends]
        · simp [hfm]
  · simp [h0]

/-- C5: the migrated lane is paged only after the primary lane is complete.
Every request `onSearchMore` sends for the migrated lane (request types
`MigratedFromStart`, `MigratedFromOffset`) is sent from a state where
`_searchFull` is set, `_searchInMigrated` is non-null, `_searchFullMigrated` is
false and no request is pending; while `_searchFull` is false none is sent; in
such a state one is sent, to the migrated conversation. The load-more callback
calls `onSearchMore` while the list waits for search results only when
`_searchInMigrated && _searchFull && !_searchFullMigrated`, and when it does
not call it no message-search request is sent. -/
theorem C5_migrated_after_primary (e : Env) (s : Widget) :
    (∀ x ∈ newSearchSends s (onSearchMore e s), x.2.2.isMigrated = true →
      s._searchFull = true ∧ s._searchInMigrated ≠ none ∧ s._searchFullMigrated = false
        ∧ s._searchRequest = 0)
    ∧ (s._searchFull = false →
        ∀ x ∈ newSearchSends s (onSearchMore e s), x.2.2.isMigrated = false)
    ∧ (∀ migrated, s._searchFull = true → s._searchInMigrated = some migrated →
        s._searchFullMigrated = false → s._searchRequest = 0 →
        newSearchSends s (onSearchMore e s) =
          [(s.mtp.lastRequestId + 1,
            Request.messages_Search s._searchQueryFrom.isSome migrated s._searchQuery
              s._searchQueryFrom 0 0 e.inner.lastSearchMigratedId 0 e.SearchPerPage 0 0 0,
            if e.inner.lastSearchMigratedId ≠ 0 then SearchRequestType.MigratedFromOffset
            else SearchRequestType.MigratedFromStart)])
    ∧ (e.inner.waitingForSearch = true → loadMoreCallsSearchMore e s = true →
        s._searchInMigrated ≠ none ∧ s._searchFull = true ∧ s._searchFullMigrated = false)
    ∧ (loadMoreCallsSearchMore e s = true → loadMoreCallback e s = onSearchMore e s)
    ∧ (loadMoreCallsSearchMore e s = false → newSearchSends s (loadMoreCallback e s) = []) := by
  have hs := onSearchMore_newSearchSends e s
  refine ⟨?_, ?_, ?_, ?_, ?_, ?_⟩
  · intro x hx hmig
    rw [hs] at hx
    by_cases h0 : s._searchRequest = 0
    · by_cases hf : s._searchFull = false
      · simp only [h0, hf, if_true, List.mem_singleton] at hx
        subst hx
        cases hp : s._searchInChat.peer <;> by_cases ho : e.inner.lastSearchId = 0 <;>
          simp [hp, ho, SearchRequestType.isMigrated] at hmig
      · simp only [h0, hf, if_true, if_false] at hx
        cases hm : s._searchInMigrated with
        | none => simp [hm] at hx
        | some m =>
          by_cases hfm : s._searchFullMigrated = false
          · exact ⟨by simpa using hf, by simp, hfm, h0⟩
          · simp [hm, hfm] at hx
    · simp [h0] at hx
  · intro hf x hx
    rw [hs] at hx
    by_cases h0 : s._searchRequest = 0
    · simp only [h0, hf, if_true, List.mem_singleton] at hx
      subst hx
      cases hp : s._searchInChat.peer <;> by_cases ho : e.inner.lastSearchId = 0 <;>
        simp [ho, SearchRequestType.isMigrated]
    · simp [h0] at hx
  · intro migrated hf hm hfm h0
    rw [hs]
    simp [h0, hf, hm, hfm]
  · intro hw hc
    unfold loadMoreCallsSearchMore at hc
    simp only [hw, Bool.not_true, Bool.false_or, Bool.and_eq_true, decide_eq_true_eq,
      Bool.not_eq_true'] at hc
    obtain ⟨-, ⟨hm, hf⟩, hfm⟩ := hc
    refine ⟨?_, hf, hfm⟩
    intro hn
    rw [hn] at hm
    simp at hm
  · intro hc
    unfold loadMoreCallback
    simp only [hc, if_true]
  · intro hc
    unfold loadMoreCallback newSearchSends
    simp only [hc, Bool.false_eq_true, if_false]
    split_ifs <;> simp [Widget.emit, searchSends]

/-- C5 (witness): the primary lane of a migrated conversation is complete. -/
theorem C5_migrated_after_primary_witness :
    newSearchSends primaryComplete (onSearchMore sampleEnv primaryComplete)
      = [(1, Request.messages_Search false 9 "abc".toList none 0 0 0 0 50 0 0 0,
          SearchRequestType.MigratedFromStart)] :=
  (C5_migrated_after_primary sampleEnv primaryComplete).2.2.1 9 rfl rfl rfl rfl

/-! ## Failures (C6) -/

/-- C6: a failed request completes its lane and is not retried. For an error
the default handler does not take: when the id is the tracked `_searchRequest`,
`searchFailed` resets `_searchRequest` to 0 and sets the flag of the lane of
the request (`_searchFullMigrated` for the migrated types, `_searchFull`
otherwise), changes nothing else (no request is sent) and returns true; when
the id differs it changes nothing. `peopleFailed` does the same with
`_peerSearchRequest` and `_peerSearchFull`. -/
theorem C6_failure_completes_lane (e : Env) (type : SearchRequestType) (error : RPCError)
    (requestId : mtpRequestId) (s : Widget) (h : e.isDefaultHandledError error = false) :
    (requestId = s._searchRequest →
      searchFailed e type error requestId s
        = (if type.isMigrated then { s with _searchRequest := 0, _searchFullMigrated := true }
            else { s with _searchRequest := 0, _searchFull := true }, true)
      ∧ sends (searchFailed e type error requestId s).1.log = sends s.log)
    ∧ (requestId ≠ s._searchRequest → searchFailed e type error requestId s = (s, true))
    ∧ (requestId = s._peerSearchRequest →
      peopleFailed e error requestId s
        = ({ s with _peerSearchRequest := 0, _peerSearchFull := true }, true)
      ∧ sends (peopleFailed e error requestId s).1.log = sends s.log)
    ∧ (requestId ≠ s._peerSearchRequest → peopleFailed e error requestId s = (s, true)) := by
  refine ⟨?_, ?_, ?_, ?_⟩
  · intro hr
    unfold searchFailed markFull
    cases hm : type.isMigrated <;> simp [h, hr, hm]
  · intro hr
    unfold searchFailed
    simp [h, Ne.symm hr]
  · intro hr
    unfold peopleFailed
    simp [h, hr]
  · intro hr
    unfold peopleFailed
    simp [h, Ne.symm hr]

/-- C6 (witness): the tracked request 5 fails. -/
theorem C6_failure_completes_lane_witness :
    searchFailed sampleEnv SearchRequestType.FromStart ⟨400, "QUERY_INVALID"⟩ 5 trackingFive
      = ({ trackingFive with _searchRequest := 0, _searchFull := true }, true) :=
  ((C6_failure_completes_lane sampleEnv SearchRequestType.FromStart
    ⟨400, "QUERY_INVALID"⟩ 5 trackingFive rfl).1 rfl).1

/-! ## At most one message-search request in flight (C9) -/

theorem inFlightSearches_eq (s : Widget) : inFlightSearches s = searchesOf s.mtp.inFlight := rfl

theorem searchesOf_filter_sublist (l : List (mtpRequestId × RpcHandler))
    (f : mtpRequestId × RpcHandler → Bool) :
    (searchesOf (l.filter f)).Sublist (searchesOf l) := by
  unfold searchesOf
  apply List.Sublist.map
  apply List.Sublist.filter
  exact List.filter_sublist l

theorem sublist_nil_or_singleton {α : Type} {a : α} {l1 l2 : List α}
    (hs : l1.Sublist l2) (h : l2 = [] ∨ l2 = [a]) : l1 = [] ∨ l1 = [a] := by
  rcases h with h | h
  · subst h
    exact Or.inl (List.sublist_nil.mp hs)
  · subst h
    cases l1 with
    | nil => exact Or.inl rfl
    | cons b t =>
      have hlen := hs.length_le
      have ht : t = [] := by
        cases t with
        | nil => rfl
        | cons c u => simp at hlen
      subst ht
      have : b ∈ [a] := hs.subset (by simp)
      simp at this
      exact Or.inr (by rw [this])

theorem OneSearchOn.filter {l : List (mtpRequestId × RpcHandler)} {r n : mtpRequestId}
    (h : OneSearchOn l r n) (f : mtpRequestId × RpcHandler → Bool) :
    OneSearchOn (l.filter f) r n :=
  ⟨fun p hp => h.1 p (List.mem_filter.mp hp).1,
    sublist_nil_or_singleton (searchesOf_filter_sublist l f) h.2.1, h.2.2.1,
    fun hm => h.2.2.2 (List.mem_filter.mp hm).1⟩

theorem mem_of_mem_searchesOf {l : List (mtpRequestId × RpcHandler)} {i : mtpRequestId}
    (h : i ∈ searchesOf l) : ∃ hd, (i, hd) ∈ l := by
  unfold searchesOf at h
  rw [List.mem_map] at h
  obtain ⟨p, hp, rfl⟩ := h
  exact ⟨p.2, (List.mem_filter.mp hp).1⟩

/-- With the invariant, nothing is in flight once the tracked id is cancelled. -/
theorem OneSearchOn.filter_tracked {l : List (mtpRequestId × RpcHandler)}
    {r n : mtpRequestId} (h : OneSearchOn l r n) :
    searchesOf (l.filter (fun p => decide (p.1 ≠ r) || decide (r = 0))) = [] := by
  have hs := sublist_nil_or_singleton
    (searchesOf_filter_sublist l (fun p => decide (p.1 ≠ r) || decide (r = 0))) h.2.1
  rcases hs with hs | hs
  · exact hs
  · exfalso
    have hmem : r ∈ searchesOf (l.filter (fun p => decide (p.1 ≠ r) || decide (r = 0))) := by
      rw [hs]; simp
    obtain ⟨hd, hp⟩ := mem_of_mem_searchesOf hmem
    have hp2 := List.mem_filter.mp hp
    have hr0 : r ≠ 0 := (h.1 _ hp2.1).1
    simpa [hr0] using hp2.2

/-- With no message search in flight the tracked id can be reset to 0. -/
theorem OneSearchOn.untrack {l : List (mtpRequestId × RpcHandler)} {r n : mtpRequestId}
    (h : OneSearchOn l r n) (hn : searchesOf l = []) : OneSearchOn l 0 n :=
  ⟨h.1, Or.inl hn, Nat.zero_le n, fun hm => (h.1 _ hm).1 rfl⟩

theorem OneSearchOn.nil_of_zero {l : List (mtpRequestId × RpcHandler)} {n : mtpRequestId}
    (h : OneSearchOn l 0 n) : searchesOf l = [] := by
  rcases h.2.1 with hs | hs
  · exact hs
  · exfalso
    have hmem : (0 : mtpRequestId) ∈ searchesOf l := by rw [hs]; simp
    obtain ⟨hd, hp⟩ := mem_of_mem_searchesOf hmem
    exact (h.1 _ hp).1 rfl

theorem OneSearchOn.nil_of_not_mem {l : List (mtpRequestId × RpcHandler)}
    {r n : mtpRequestId} (h : OneSearchOn l r n) (hn : ∀ hd, (r, hd) ∉ l) :
    searchesOf l = [] := by
  rcases h.2.1 with hs | hs
  · exact hs
  · exfalso
    have hmem : r ∈ searchesOf l := by rw [hs]; simp
    obtain ⟨hd, hp⟩ := mem_of_mem_searchesOf hmem
    exact hn hd hp

theorem OneSearchOn.cons_search {l : List (mtpRequestId × RpcHandler)} {r n : mtpRequestId}
    (h : OneSearchOn l r n) (hn : searchesOf l = []) (t : SearchRequestType) :
    OneSearchOn ((n + 1, RpcHandler.search t) :: l) (n + 1) (n + 1) := by
  refine ⟨?_, Or.inr ?_, le_rfl, ?_⟩
  · intro p hp
    rcases List.mem_cons.mp hp with hp | hp
    · subst hp
      exact ⟨Nat.succ_ne_zero n, le_rfl⟩
    · exact ⟨(h.1 p hp).1, Nat.le_succ_of_le (h.1 p hp).2⟩
  · have hc : searchesOf ((n + 1, RpcHandler.search t) :: l) = (n + 1) :: searchesOf l := by
      unfold searchesOf
      simp [List.filter_cons]
    rw [hc, hn]
  · intro hm
    rcases List.mem_cons.mp hm with hm | hm
    · cases hm
    · exact Nat.not_succ_le_self n (h.1 _ hm).2

theorem OneSearchOn.cons_peer {l : List (mtpRequestId × RpcHandler)} {r n : mtpRequestId}
    (h : OneSearchOn l r n) :
    OneSearchOn ((n + 1, RpcHandler.peerSearch) :: l) r (n + 1) := by
  refine ⟨?_, ?_, Nat.le_succ_of_le h.2.2.1, ?_⟩
  · intro p hp
    rcases List.mem_cons.mp hp with hp | hp
    · subst hp
      exact ⟨Nat.succ_ne_zero n, le_rfl⟩
    · exact ⟨(h.1 p hp).1, Nat.le_succ_of_le (h.1 p hp).2⟩
  · have : searchesOf ((n + 1, RpcHandler.peerSearch) :: l) = searchesOf l := by
      unfold searchesOf
      simp [List.filter_cons]
    rw [this]
    exact h.2.1
  · intro hm
    rcases List.mem_cons.mp hm with hm | hm
    · have hr : r = n + 1 := congrArg Prod.fst hm
      have hle : r ≤ n := h.2.2.1
      rw [hr] at hle
      exact Nat.not_succ_le_self n hle
    · exact h.2.2.2 hm

theorem OneSearchInFlight.frame {s s1 : Widget} (h : OneSearchInFlight s)
    (hm : s1.mtp = s.mtp) (hr : s1._searchRequest = s._searchRequest) :
    OneSearchInFlight s1 := by
  unfold OneSearchInFlight at h ⊢
  rw [hm, hr]
  exact h

theorem OneSearchInFlight.emit {s : Widget} (h : OneSearchInFlight s) (ef : Effect) :
    OneSearchInFlight (s.emit ef) :=
  h.frame rfl rfl

theorem OneSearchInFlight.cancel {s : Widget} (h : OneSearchInFlight s)
    (requestId : mtpRequestId) : OneSearchInFlight (MTP_cancel requestId s) := by
  obtain ⟨c1, -, -, -, -, -, -, c8, c9, -⟩ := MTP_cancel_frame requestId s
  simp only [Widget.searchLane, SearchLane.mk.injEq] at c1
  unfold OneSearchInFlight at h ⊢
  rw [c9, c1.1, c8]
  exact h.filter _

theorem OneSearchInFlight.finish {s : Widget} (h : OneSearchInFlight s)
    (requestId : mtpRequestId) : OneSearchInFlight (MTP_finish requestId s) := by
  unfold OneSearchInFlight at h ⊢
  exact h.filter _

/-- After `MTP::cancel(base::take(_searchRequest))` no message search is in
flight. -/
theorem OneSearchInFlight.cancelTake {s : Widget} (h : OneSearchInFlight s) :
    OneSearchInFlight (cancelTakeSearchRequest s)
    ∧ inFlightSearches (cancelTakeSearchRequest s) = []
    ∧ (cancelTakeSearchRequest s)._searchRequest = 0 := by
  obtain ⟨c1, -, -, -, -, -, -, c8, c9, -⟩ := cancelTakeSearchRequest_frame s
  simp only [Widget.searchLane, SearchLane.mk.injEq] at c1
  have hn : inFlightSearches (cancelTakeSearchRequest s) = [] := by
    rw [inFlightSearches_eq, c9]
    exact OneSearchOn.filter_tracked h
  refine ⟨?_, hn, c1.1⟩
  unfold OneSearchInFlight
  rw [c1.1, c8]
  unfold OneSearchInFlight at h
  have h2 : OneSearchOn (cancelTakeSearchRequest s).mtp.inFlight s._searchRequest
      s.mtp.lastRequestId := by
    rw [c9]; exact h.filter _
  exact h2.untrack hn

/-- The opening statement of `onCancelSearch` and `onCancelSearchInChat` does
what `MTP::cancel(base::take(_searchRequest))` does. -/
theorem cancelSearchRequest_eq (s : Widget) :
    cancelSearchRequest s = cancelTakeSearchRequest s := by
  unfold cancelSearchRequest cancelTakeSearchRequest MTP_cancel
  by_cases h : s._searchRequest = 0
  · simp only [h, ne_eq, not_true_eq_false, if_false, if_true]
    cases s
    simp_all
  · simp [h]

theorem OneSearchInFlight.cancelTakePeer {s : Widget} (h : OneSearchInFlight s) :
    OneSearchInFlight (cancelTakePeerSearchRequest s) := by
  obtain ⟨c1, -, -, -, -, -, -, c8, c9, -⟩ := cancelTakePeerSearchRequest_frame s
  simp only [Widget.searchLane, SearchLane.mk.injEq] at c1
  unfold OneSearchInFlight at h ⊢
  rw [c9, c1.1, c8]
  exact h.filter _

theorem oneSearch_sendFirstPage {s : Widget} (h : OneSearchInFlight s)
    (hn : inFlightSearches s = []) (e : Env) : OneSearchInFlight (sendFirstPage e s) := by
  obtain ⟨c1, -, -, -, -, -, -, c8, c9, -⟩ := sendFirstPage_frame e s
  simp only [Widget.searchLane, SearchLane.mk.injEq] at c1
  unfold OneSearchInFlight at h ⊢
  rw [c9, c1.1, c8]
  exact h.cons_search hn _

theorem oneSearch_searchReceived {s : Widget} (h : OneSearchInFlight s) (e : Env)
    (type : SearchRequestType) (result : MTPmessages_Messages) (requestId : mtpRequestId)
    (hn : s._searchRequest = requestId → inFlightSearches s = []) :
    OneSearchInFlight (searchReceived e type result requestId s) := by
  obtain ⟨r1, r2, -⟩ := searchReceived_frame e type result requestId s
  unfold OneSearchInFlight at h ⊢
  rw [r1, r2]
  by_cases hr : s._searchRequest = requestId
  · simp only [hr, if_true]
    exact h.untrack (hn hr)
  · simp only [hr, if_false]
    exact h

theorem oneSearch_peerSearchReceived {s : Widget} (h : OneSearchInFlight s) (e : Env)
    (result : MTPcontacts_Found) (requestId : mtpRequestId) :
    OneSearchInFlight (peerSearchReceived e result requestId s) := by
  obtain ⟨p1, -, -, -, -, -, p7, -⟩ := peerSearchReceived_frame e result requestId s
  simp only [Widget.searchLane, SearchLane.mk.injEq] at p1
  exact h.frame p7 p1.1

theorem oneSearch_onSearchMessagesPeers {s : Widget} (h : OneSearchInFlight s) (e : Env)
    (searchCache : Bool) (q : QString) (result : Bool) :
    OneSearchInFlight (onSearchMessagesPeers e searchCache q result s).1 := by
  unfold onSearchMessagesPeers
  split_ifs with h1 h2 h3
  · split
    · show OneSearchInFlight (peerSearchReceived e _ 0 _)
      refine oneSearch_peerSearchReceived ?_ e _ 0
      exact h.frame rfl rfl
    · exact h
  · unfold OneSearchInFlight at h ⊢
    exact h.cons_peer
  · exact h
  · show OneSearchInFlight (peerSearchReceived e _ 0 _)
    refine oneSearch_peerSearchReceived ?_ e _ 0
    exact h.frame rfl rfl

theorem oneSearch_onSearchMessagesMessages {s : Widget} (h : OneSearchInFlight s)
    (e : Env) (searchCache : Bool) (q : QString) :
    OneSearchInFlight (onSearchMessagesMessages e searchCache q s).1 := by
  have hs : OneSearchInFlight (startQuery q s) := h.frame rfl rfl
  obtain ⟨c1, c2, c3⟩ := hs.cancelTake
  unfold onSearchMessagesMessages
  split_ifs with h1 h2
  · split
    · exact oneSearch_searchReceived c1 e _ _ 0 (fun _ => c2)
    · exact h
  · exact (oneSearch_sendFirstPage c1 c2 e).frame rfl rfl
  · exact h

theorem oneSearch_onSearchMessages {s : Widget} (h : OneSearchInFlight s)
    (e : Env) (searchCache : Bool) : OneSearchInFlight (onSearchMessages e searchCache s).1 := by
  unfold onSearchMessages
  dsimp only
  split_ifs with h1
  · exact h.cancelTake.1.cancelTakePeer
  · exact oneSearch_onSearchMessagesPeers
      (oneSearch_onSearchMessagesMessages h e searchCache _) e searchCache _ _

theorem oneSearch_onNeedSearchMessages {s : Widget} (h : OneSearchInFlight s)
    (e : Env) : OneSearchInFlight (onNeedSearchMessages e s) := by
  unfold onNeedSearchMessages
  dsimp only
  split_ifs
  · exact (oneSearch_onSearchMessages h e true).emit _
  · exact oneSearch_onSearchMessages h e true

theorem oneSearch_onSearchMore {s : Widget} (h : OneSearchInFlight s) (e : Env) :
    OneSearchInFlight (onSearchMore e s) := by
  unfold onSearchMore
  by_cases h0 : s._searchRequest = 0
  · have hn : searchesOf s.mtp.inFlight = [] := by
      unfold OneSearchInFlight at h
      rw [h0] at h
      exact h.nil_of_zero
    simp only [h0, if_true]
    unfold OneSearchInFlight at h ⊢
    cases hsf : s._searchFull
    · simp only [Bool.not_false, if_true]
      split_ifs <;> cases hp : s._searchInChat.peer <;> exact h.cons_search hn _
    · simp only [Bool.not_true, Bool.false_eq_true, if_false]
      cases hm : s._searchInMigrated with
      | none =>
        dsimp only
        exact h
      | some m =>
        dsimp only
        split_ifs <;>
          first
            | exact h.cons_search hn _
            | exact h
  · simp only [h0, if_false]
    exact h

theorem oneSearch_loadMoreCallback {s : Widget} (h : OneSearchInFlight s) (e : Env) :
    OneSearchInFlight (loadMoreCallback e s) := by
  unfold loadMoreCallback
  split_ifs
  · exact oneSearch_onSearchMore h e
  · exact h.emit _
  · exact h

theorem oneSearch_clearSearchCache {s : Widget} (h : OneSearchInFlight s) :
    OneSearchInFlight (clearSearchCache s) := by
  unfold clearSearchCache
  dsimp only
  refine (OneSearchInFlight.cancelTake ?_).1
  exact h.frame rfl rfl

theorem oneSearch_showSearchFrom {s : Widget} (h : OneSearchInFlight s) :
    OneSearchInFlight (showSearchFrom s) := by
  unfold showSearchFrom
  split
  · exact h.emit _
  · exact h

theorem oneSearch_applyFilterUpdate {s : Widget} (h : OneSearchInFlight s) (e : Env)
    (force : Bool) : OneSearchInFlight (applyFilterUpdate e force s) := by
  unfold applyFilterUpdate
  split_ifs with h1
  · exact h
  · dsimp only
    have ha : OneSearchInFlight
        (if s.filterText.isEmpty = true ∧
            (s.emit (Effect.innerApplyFilterUpdate s.filterText force))._searchFromUser = none
          then clearSearchCache (s.emit (Effect.innerApplyFilterUpdate s.filterText force))
          else s.emit (Effect.innerApplyFilterUpdate s.filterText force)) := by
      split_ifs
      · exact oneSearch_clearSearchCache (h.emit _)
      · exact h.emit _
    generalize (if s.filterText.isEmpty = true ∧
            (s.emit (Effect.innerApplyFilterUpdate s.filterText force))._searchFromUser = none
          then clearSearchCache (s.emit (Effect.innerApplyFilterUpdate s.filterText force))
          else s.emit (Effect.innerApplyFilterUpdate s.filterText force)) = s1 at ha ⊢
    have hb : OneSearchInFlight
        (if s.filterText.isEmpty = true then
          { s1 with
              _peerSearchCache := QMap.clear
              _peerSearchQueries := QMap.clear
              _peerSearchQuery := [] }
          else s1) := by
      split_ifs
      · exact ha.frame rfl rfl
      · exact ha
    generalize (if s.filterText.isEmpty = true then
          ({ s1 with
              _peerSearchCache := QMap.clear
              _peerSearchQueries := QMap.clear
              _peerSearchQuery := [] } : Widget)
          else s1) = s2 at hb ⊢
    have hc : OneSearchInFlight
        (if e.chooseFromUserToggled = true ∨ s2._searchFromUser.isSome = true then
          if s2._lastFilterText ≠ SwitchToChooseFromQuery
              ∧ s2._lastFilterText.isPrefixOf SwitchToChooseFromQuery = true
              ∧ s.filterText = SwitchToChooseFromQuery then
            showSearchFrom s2
          else s2
        else s2) := by
      split_ifs
      · exact oneSearch_showSearchFrom hb
      · exact hb
      · exact hb
    exact hc.frame rfl rfl

theorem oneSearch_filterChanged {s : Widget} (h : OneSearchInFlight s) (e : Env)
    (text : QString) (cursor : Int) : OneSearchInFlight (filterChanged e text cursor s) := by
  unfold filterChanged
  refine oneSearch_applyFilterUpdate ?_ e false
  exact h.frame rfl rfl

theorem oneSearch_fullSearchRefresh {s : Widget} (h : OneSearchInFlight s) (e : Env) :
    OneSearchInFlight (fullSearchRefresh e s) := by
  unfold fullSearchRefresh
  split_ifs
  · dsimp only
    refine oneSearch_onSearchMessages ?_ e false
    exact h.frame rfl rfl
  · exact h

theorem oneSearch_setSearchInChatStore {s : Widget} (h : OneSearchInFlight s) (chat : Key)
    (fromUser : Option UserId) : OneSearchInFlight (setSearchInChatStore chat fromUser s) := by
  unfold setSearchInChatStore
  dsimp only
  refine OneSearchInFlight.emit ?_ _
  split_ifs <;>
    first
      | exact oneSearch_clearSearchCache (h.frame rfl rfl)
      | exact h.frame rfl rfl

theorem oneSearch_setSearchInMigrated {s : Widget} (h : OneSearchInFlight s) (e : Env)
    (chat : Key) : OneSearchInFlight (setSearchInMigrated e chat s) := by
  unfold setSearchInMigrated
  split
  · exact h.frame rfl rfl
  · exact h

theorem oneSearch_cancelSearchRequest {s : Widget} (h : OneSearchInFlight s) :
    OneSearchInFlight (cancelSearchRequest s) := by
  rw [cancelSearchRequest_eq]
  exact h.cancelTake.1

theorem oneSearch_clearFilterAndUpdate {s : Widget} (h : OneSearchInFlight s) (e : Env) :
    OneSearchInFlight (clearFilterAndUpdate e s) := by
  unfold clearFilterAndUpdate
  dsimp only
  refine oneSearch_applyFilterUpdate ?_ e false
  exact (h.emit Effect.innerClearFilter).frame rfl rfl

theorem oneSearch_showScopeHistory {s : Widget} (h : OneSearchInFlight s) (oneColumn : Bool) :
    OneSearchInFlight (showScopeHistory oneColumn s) := by
  unfold showScopeHistory
  split
  · exact h.emit _
  · exact h

/-- The invariant survives `setSearchInChat` and `onCancelSearch`, whatever
the depth of their calls. -/
theorem oneSearch_scope (e : Env) : ∀ fuel : Nat,
    (∀ (chat : Key) (fromUser : Option UserId) (s s1 : Widget), OneSearchInFlight s →
      setSearchInChat e fuel chat fromUser s = Except.ok s1 → OneSearchInFlight s1)
    ∧ (∀ (s : Widget) (r : Widget × Bool), OneSearchInFlight s →
      onCancelSearch e fuel s = Except.ok r → OneSearchInFlight r.1) := by
  intro fuel
  induction fuel with
  | zero =>
    constructor
    · intro chat fromUser s s1 _ h
      simp [setSearchInChat] at h
    · intro s r _ h
      simp [onCancelSearch] at h
  | succ fuel ih =>
    obtain ⟨ihs, ihc⟩ := ih
    constructor
    · intro chat fromUser s s1 hs h
      rw [setSearchInChat] at h
      dsimp only at h
      generalize (if chat.folder.isSome = true then Key.empty else chat) = chat1 at h
      cases hmt : chat1.peer.bind e.migrateTo with
      | some mt =>
        simp only [hmt] at h
        refine ihs _ _ _ _ ?_ h
        exact hs.frame rfl rfl
      | none =>
        simp only [hmt] at h
        have hw : OneSearchInFlight
            (setSearchInChatStore chat1 fromUser
              (setSearchInMigrated e chat1 { s with _searchInMigrated := none })) :=
          oneSearch_setSearchInChatStore
            (oneSearch_setSearchInMigrated
              (show OneSearchInFlight ({ s with _searchInMigrated := none } : Widget) from
                hs.frame rfl rfl) e chat1) _ _
        generalize setSearchInChatStore chat1 fromUser
              (setSearchInMigrated e chat1 { s with _searchInMigrated := none }) = w at h hw
        split_ifs at h
        · cases hoc : onCancelSearch e fuel w with
          | error f => simp [hoc] at h
          | ok r =>
            simp only [hoc, Except.ok.injEq] at h
            subst h
            exact ihc _ _ hw hoc
        · simp only [Except.ok.injEq] at h
          subst h
          exact hw
    · intro s r hs h
      rw [onCancelSearch] at h
      dsimp only at h
      have hc := oneSearch_cancelSearchRequest hs
      generalize cancelSearchRequest s = c at h hc
      split_ifs at h
      · have hshow := oneSearch_showScopeHistory hc e.oneColumn
        generalize showScopeHistory e.oneColumn c = c1 at h hshow
        cases hsc : setSearchInChat e fuel Key.empty none c1 with
        | error f => simp [hsc] at h
        | ok s2 =>
          simp only [hsc, Except.ok.injEq] at h
          subst h
          exact oneSearch_clearFilterAndUpdate (ihs _ _ _ _ hshow hsc) e
      · simp only [Except.ok.injEq] at h
        subst h
        exact oneSearch_clearFilterAndUpdate hc e

theorem oneSearch_setSearchInChat {s s1 : Widget} (h : OneSearchInFlight s) (e : Env)
    (fuel : Nat) (chat : Key) (fromUser : Option UserId)
    (hr : setSearchInChat e fuel chat fromUser s = Except.ok s1) : OneSearchInFlight s1 :=
  (oneSearch_scope e fuel).1 chat fromUser s s1 h hr

theorem oneSearch_onCancelSearch {s : Widget} {r : Widget × Bool} (h : OneSearchInFlight s)
    (e : Env) (fuel : Nat) (hr : onCancelSearch e fuel s = Except.ok r) :
    OneSearchInFlight r.1 :=
  (oneSearch_scope e fuel).2 s r h hr

theorem oneSearch_onCancelSearchInChatFinish {s : Widget} (h : OneSearchInFlight s) (e : Env) :
    OneSearchInFlight (onCancelSearchInChatFinish e s) := by
  unfold onCancelSearchInChatFinish
  dsimp only
  split_ifs
  · exact (oneSearch_clearFilterAndUpdate h e).emit _
  · exact oneSearch_clearFilterAndUpdate h e

theorem oneSearch_onCancelSearchInChat {s s1 : Widget} (h : OneSearchInFlight s) (e : Env)
    (fuel : Nat) (hr : onCancelSearchInChat e fuel s = Except.ok s1) :
    OneSearchInFlight s1 := by
  unfold onCancelSearchInChat at hr
  dsimp only at hr
  have hc := oneSearch_cancelSearchRequest h
  generalize cancelSearchRequest s = c at hr hc
  split_ifs at hr
  · have hshow := oneSearch_showScopeHistory hc (e.oneColumn && !e.selectingPeer)
    generalize showScopeHistory (e.oneColumn && !e.selectingPeer) c = c1 at hr hshow
    cases hsc : setSearchInChat e fuel Key.empty none c1 with
    | error f => simp [hsc] at hr
    | ok s2 =>
      simp only [hsc, Except.ok.injEq] at hr
      subst hr
      exact oneSearch_onCancelSearchInChatFinish (oneSearch_setSearchInChat hshow e fuel _ _ hsc) e
  · simp only [Except.ok.injEq] at hr
    subst hr
    exact oneSearch_onCancelSearchInChatFinish hc e

theorem oneSearch_searchInChat {s s1 : Widget} (h : OneSearchInFlight s) (e : Env)
    (fuel : Nat) (chat : Key) (hr : searchInChat e fuel chat s = Except.ok s1) :
    OneSearchInFlight s1 := by
  unfold searchInChat at hr
  cases hoc : onCancelSearch e fuel s with
  | error f => simp [hoc] at hr
  | ok r =>
    simp only [hoc] at hr
    cases hsc : setSearchInChat e fuel chat none r.1 with
    | error f => simp [hsc] at hr
    | ok s2 =>
      simp only [hsc, Except.ok.injEq] at hr
      subst hr
      exact oneSearch_applyFilterUpdate
        (oneSearch_setSearchInChat (oneSearch_onCancelSearch h e fuel hoc) e fuel _ _ hsc) e true

theorem oneSearch_searchFromUserChosen {s s1 : Widget} (h : OneSearchInFlight s) (e : Env)
    (fuel : Nat) (chat : Key) (user : Option UserId)
    (hr : searchFromUserChosen e fuel chat user s = Except.ok s1) : OneSearchInFlight s1 := by
  unfold searchFromUserChosen at hr
  cases hsc : setSearchInChat e fuel chat user s with
  | error f => simp [hsc] at hr
  | ok s2 =>
    simp only [hsc, Except.ok.injEq] at hr
    subst hr
    exact oneSearch_applyFilterUpdate (oneSearch_setSearchInChat h e fuel _ _ hsc) e true

theorem oneSearch_searchMessagesStart {s : Widget} (h : OneSearchInFlight s) (e : Env)
    (query : QString) : OneSearchInFlight (searchMessagesStart e query s) := by
  unfold searchMessagesStart
  dsimp only
  refine OneSearchInFlight.emit ?_ _
  refine oneSearch_onSearchMessages ?_ e false
  refine OneSearchInFlight.emit ?_ _
  refine oneSearch_applyFilterUpdate ?_ e true
  exact h.frame rfl rfl

theorem oneSearch_searchMessages {s s1 : Widget} (h : OneSearchInFlight s) (e : Env)
    (fuel : Nat) (query : QString) (inChat : Key)
    (hr : searchMessages e fuel query inChat s = Except.ok s1) : OneSearchInFlight s1 := by
  unfold searchMessages at hr
  split_ifs at hr
  · cases hoc : onCancelSearch e fuel s with
    | error f => simp [hoc] at hr
    | ok r =>
      simp only [hoc] at hr
      cases hsc : setSearchInChat e fuel inChat none r.1 with
      | error f => simp [hsc] at hr
      | ok s2 =>
        simp only [hsc, Except.ok.injEq] at hr
        subst hr
        exact oneSearch_searchMessagesStart
          (oneSearch_setSearchInChat (oneSearch_onCancelSearch h e fuel hoc) e fuel _ _ hsc)
          e query
  · simp only [Except.ok.injEq] at hr
    subst hr
    exact oneSearch_searchMessagesStart h e query
  · simp only [Except.ok.injEq] at hr
    subst hr
    exact h

theorem handlerOf_mem {s : Widget} {requestId : mtpRequestId} {hd : RpcHandler}
    (h : (requestId, hd) ∈ s.mtp.inFlight) : handlerOf s requestId ≠ none := by
  unfold handlerOf
  intro hn
  rw [Option.map_eq_none', List.find?_eq_none] at hn
  have := hn _ h
  simp at this

theorem searchesOf_finish_not_mem (s : Widget) (requestId : mtpRequestId) (hd : RpcHandler) :
    (requestId, hd) ∉ (MTP_finish requestId s).mtp.inFlight := by
  intro h
  have := (List.mem_filter.mp h).2
  simp at this

theorem oneSearch_searchReceived_absent {s : Widget} (h : OneSearchInFlight s) (e : Env)
    (type : SearchRequestType) (result : MTPmessages_Messages) (requestId : mtpRequestId)
    (hn : ∀ hd, (requestId, hd) ∉ s.mtp.inFlight) :
    OneSearchInFlight (searchReceived e type result requestId s) := by
  refine oneSearch_searchReceived h e type result requestId ?_
  intro heq
  unfold OneSearchInFlight at h
  rw [heq] at h
  exact h.nil_of_not_mem hn

theorem oneSearch_markFull {s : Widget} (h : OneSearchInFlight s) (type : SearchRequestType) :
    OneSearchInFlight (markFull type s) := by
  unfold markFull
  split_ifs <;> exact h.frame rfl rfl

theorem oneSearch_searchFailed_finish {s : Widget} (h : OneSearchInFlight s) (e : Env)
    (type : SearchRequestType) (error : RPCError) (requestId : mtpRequestId) :
    OneSearchInFlight
      (if (searchFailed e type error requestId s).2 = true then
        MTP_finish requestId (searchFailed e type error requestId s).1
      else (searchFailed e type error requestId s).1) := by
  unfold searchFailed
  by_cases hd : e.isDefaultHandledError error = true
  · simp only [hd, if_true, Bool.false_eq_true, if_false]
    exact h
  · by_cases hr : s._searchRequest = requestId
    · subst hr
      simp only [hd, if_false, if_true]
      have hf := h.finish s._searchRequest
      have hf2 : OneSearchOn (MTP_finish s._searchRequest s).mtp.inFlight s._searchRequest
          s.mtp.lastRequestId := hf
      have hnil := hf2.nil_of_not_mem (searchesOf_finish_not_mem s s._searchRequest)
      have hX1 : (MTP_finish s._searchRequest
          (markFull type { s with _searchRequest := 0 })).mtp
          = (MTP_finish s._searchRequest s).mtp := by
        unfold markFull
        split_ifs <;> rfl
      have hX2 : (MTP_finish s._searchRequest
          (markFull type { s with _searchRequest := 0 }))._searchRequest = 0 := by
        unfold markFull
        split_ifs <;> rfl
      have hgoal : OneSearchInFlight (MTP_finish s._searchRequest
          (markFull type { s with _searchRequest := 0 })) := by
        unfold OneSearchInFlight
        rw [hX1, hX2]
        exact hf2.untrack hnil
      simpa using hgoal
    · simp only [hd, if_false, hr, if_true]
      exact h.finish requestId

theorem oneSearch_peopleFailed_finish {s : Widget} (h : OneSearchInFlight s) (e : Env)
    (error : RPCError) (requestId : mtpRequestId) :
    OneSearchInFlight
      (if (peopleFailed e error requestId s).2 = true then
        MTP_finish requestId (peopleFailed e error requestId s).1
      else (peopleFailed e error requestId s).1) := by
  unfold peopleFailed
  by_cases hd : e.isDefaultHandledError error = true
  · simp only [hd, if_true, Bool.false_eq_true, if_false]
    exact h
  · by_cases hr : s._peerSearchRequest = requestId
    · simp only [hd, if_false, hr, if_true]
      exact (h.finish requestId).frame rfl rfl
    · simp only [hd, if_false, hr, if_true]
      exact h.finish requestId

theorem not_mem_of_handlerOf_none {s : Widget} {requestId : mtpRequestId}
    (h : handlerOf s requestId = none) : ∀ hd, (requestId, hd) ∉ s.mtp.inFlight :=
  fun _ hm => handlerOf_mem hm h

/-- Every event keeps the invariant. -/
theorem oneSearch_fire {s s1 : Widget} (h : OneSearchInFlight s) (e : Env) (fuel : Nat)
    (ev : Event) (hr : fire e fuel ev s = some s1) : OneSearchInFlight s1 := by
  cases ev with
  | filterChanged text cursor =>
    simp only [fire, Option.some.injEq] at hr
    subst hr
    exact oneSearch_filterChanged h e text cursor
  | onSearchMessages searchCache =>
    simp only [fire, Option.some.injEq] at hr
    subst hr
    exact oneSearch_onSearchMessages h e searchCache
  | onNeedSearchMessages =>
    simp only [fire, Option.some.injEq] at hr
    subst hr
    exact oneSearch_onNeedSearchMessages h e
  | onSearchMore =>
    simp only [fire, Option.some.injEq] at hr
    subst hr
    exact oneSearch_onSearchMore h e
  | loadMoreCallback =>
    simp only [fire, Option.some.injEq] at hr
    subst hr
    exact oneSearch_loadMoreCallback h e
  | searchDone requestId result =>
    simp only [fire] at hr
    split at hr
    · simp only [Option.some.injEq] at hr
      subst hr
      exact oneSearch_searchReceived_absent (h.finish requestId) e _ result requestId
        (searchesOf_finish_not_mem s requestId)
    · cases hr
  | peerSearchDone requestId result =>
    simp only [fire] at hr
    split at hr
    · simp only [Option.some.injEq] at hr
      subst hr
      exact oneSearch_peerSearchReceived (h.finish requestId) e result requestId
    · cases hr
  | requestFailed requestId error =>
    simp only [fire] at hr
    split at hr
    · simp only [Option.some.injEq] at hr
      subst hr
      exact oneSearch_searchFailed_finish h e _ error requestId
    · simp only [Option.some.injEq] at hr
      subst hr
      exact oneSearch_peopleFailed_finish h e error requestId
    · cases hr
  | lateSearchDone type requestId result =>
    simp only [fire] at hr
    split_ifs at hr with hg
    simp only [Option.some.injEq] at hr
    subst hr
    exact oneSearch_searchReceived_absent h e type result requestId
      (not_mem_of_handlerOf_none hg.2)
  | latePeerSearchDone requestId result =>
    simp only [fire] at hr
    split_ifs at hr with hg
    simp only [Option.some.injEq] at hr
    subst hr
    exact oneSearch_peerSearchReceived h e result requestId
  | onCancelSearch =>
    simp only [fire] at hr
    cases hoc : onCancelSearch e fuel s with
    | error f => simp [hoc, Except.toOption] at hr
    | ok r =>
      simp only [hoc, Except.toOption, Option.map_some', Option.some.injEq] at hr
      subst hr
      exact oneSearch_onCancelSearch h e fuel hoc
  | onCancelSearchInChat =>
    simp only [fire] at hr
    cases hoc : onCancelSearchInChat e fuel s with
    | error f => simp [hoc, Except.toOption] at hr
    | ok r =>
      simp only [hoc, Except.toOption, Option.some.injEq] at hr
      subst hr
      exact oneSearch_onCancelSearchInChat h e fuel hoc
  | clearSearchCache =>
    simp only [fire, Option.some.injEq] at hr
    subst hr
    exact oneSearch_clearSearchCache h
  | fullSearchRefresh =>
    simp only [fire, Option.some.injEq] at hr
    subst hr
    exact oneSearch_fullSearchRefresh h e
  | applyFilterUpdate force =>
    simp only [fire, Option.some.injEq] at hr
    subst hr
    exact oneSearch_applyFilterUpdate h e force
  | setSearchInChat chat fromUser =>
    simp only [fire] at hr
    cases hoc : setSearchInChat e fuel chat fromUser s with
    | error f => simp [hoc, Except.toOption] at hr
    | ok r =>
      simp only [hoc, Except.toOption, Option.some.injEq] at hr
      subst hr
      exact oneSearch_setSearchInChat h e fuel _ _ hoc
  | searchInChat chat =>
    simp only [fire] at hr
    cases hoc : searchInChat e fuel chat s with
    | error f => simp [hoc, Except.toOption] at hr
    | ok r =>
      simp only [hoc, Except.toOption, Option.some.injEq] at hr
      subst hr
      exact oneSearch_searchInChat h e fuel _ hoc
  | searchMessages query inChat =>
    simp only [fire] at hr
    cases hoc : searchMessages e fuel query inChat s with
    | error f => simp [hoc, Except.toOption] at hr
    | ok r =>
      simp only [hoc, Except.toOption, Option.some.injEq] at hr
      subst hr
      exact oneSearch_searchMessages h e fuel _ _ hoc
  | searchFromUserChosen chat user =>
    simp only [fire] at hr
    cases hoc : searchFromUserChosen e fuel chat user s with
    | error f => simp [hoc, Except.toOption] at hr
    | ok r =>
      simp only [hoc, Except.toOption, Option.some.injEq] at hr
      subst hr
      exact oneSearch_searchFromUserChosen h e fuel _ _ hoc

theorem oneSearch_init : OneSearchInFlight Widget.init :=
  ⟨fun _ hp => (List.not_mem_nil _ hp).elim, Or.inl rfl, le_rfl, List.not_mem_nil _⟩

theorem oneSearch_reachable {s : Widget} (h : Reachable s) : OneSearchInFlight s := by
  induction h with
  | init => exact oneSearch_init
  | step e fuel ev _ hf ih => exact oneSearch_fire ih e fuel ev hf

theorem searchSends_of_sends (log : List Effect) :
    searchSends log = (sends log).filterMap fun x =>
      match x.2.2 with
      | RpcHandler.search type => some (x.1, x.2.1, type)
      | RpcHandler.peerSearch => none := by
  induction log with
  | nil => rfl
  | cons ef log ih =>
    cases ef with
    | send requestId request handler =>
      cases handler <;> simp [searchSends, sends, List.filterMap_cons] at ih ⊢ <;> exact ih
    | _ => simpa [searchSends, sends, List.filterMap_cons] using ih

theorem searchSends_eq_of_sends_eq {a b : List Effect} (h : sends a = sends b) :
    searchSends a = searchSends b := by
  rw [searchSends_of_sends, searchSends_of_sends, h]

theorem newSearchSends_eq_nil {s s1 : Widget} (h : searchSends s1.log = searchSends s.log) :
    newSearchSends s s1 = [] := by
  unfold newSearchSends
  rw [h]
  exact List.drop_length _

/-- With `searchCache` the message-search part of `onSearchMessages` sends
nothing. -/
theorem onSearchMessagesMessages_cached_sends (e : Env) (q : QString) (s : Widget) :
    sends (onSearchMessagesMessages e true q s).1.log = sends s.log := by
  unfold onSearchMessagesMessages
  simp only [if_true]
  split
  · dsimp only
    obtain ⟨-, -, -, -, -, -, r7, -⟩ := searchReceived_frame e
      (if (cancelTakeSearchRequest (startQuery q s))._searchInChat.toBool = true then
        SearchRequestType.PeerFromStart else SearchRequestType.FromStart)
      (by assumption) 0 (cancelTakeSearchRequest (startQuery q s))
    rw [r7]
    obtain ⟨-, -, -, -, -, -, -, -, -, c10⟩ := cancelTakeSearchRequest_frame (startQuery q s)
    rw [c10]
    show sends (s.log ++ (if s._searchRequest = 0 then [] else [Effect.cancel s._searchRequest]))
      = _
    by_cases h0 : s._searchRequest = 0 <;> simp [h0, sends]
  · rfl

/-- The only branch of `onSearchMessages` that sends a message-search request
is the one for a changed query without `searchCache`. -/
theorem onSearchMessages_sends_only_new (e : Env) (searchCache : Bool) (s : Widget)
    (h : newSearchSends s (onSearchMessages e searchCache s).1 ≠ []) :
    searchCache = false
    ∧ (trimmed s.filterText ≠ [] ∨ s._searchFromUser ≠ none)
    ∧ (s._searchQuery ≠ trimmed s.filterText ∨ s._searchQueryFrom ≠ s._searchFromUser) := by
  by_cases hq : trimmed s.filterText ≠ [] ∨ s._searchFromUser ≠ none
  · rw [onSearchMessages_of_query e searchCache s hq] at h
    obtain ⟨-, -, -, -, -, -, p7, -⟩ :=
      onSearchMessagesPeers_frame e searchCache (trimmed s.filterText)
        (onSearchMessagesMessages e searchCache (trimmed s.filterText) s).2
        (onSearchMessagesMessages e searchCache (trimmed s.filterText) s).1
    cases searchCache with
    | true =>
      exfalso
      apply h
      apply newSearchSends_eq_nil
      rw [p7]
      exact searchSends_eq_of_sends_eq (onSearchMessagesMessages_cached_sends e _ s)
    | false =>
      refine ⟨rfl, hq, ?_⟩
      by_contra hnew
      apply h
      apply newSearchSends_eq_nil
      rw [p7]
      unfold onSearchMessagesMessages
      simp only [Bool.false_eq_true, if_false, hnew]
  · exfalso
    apply h
    apply newSearchSends_eq_nil
    have hq2 : (trimmed s.filterText).isEmpty = true ∧ s._searchFromUser = none := by
      push_neg at hq
      exact ⟨by simp [hq.1], hq.2⟩
    unfold onSearchMessages
    simp only [hq2, and_self, if_true]
    obtain ⟨-, -, -, -, -, -, -, -, -, c10⟩ := cancelTakeSearchRequest_frame s
    obtain ⟨-, -, -, -, -, -, -, -, -, d10⟩ :=
      cancelTakePeerSearchRequest_frame (cancelTakeSearchRequest s)
    rw [d10, c10]
    by_cases h0 : s._searchRequest = 0 <;>
      by_cases h1 : (cancelTakeSearchRequest s)._peerSearchRequest = 0 <;>
      simp [h0, h1, searchSends]

/-- C9: at most one message-search request is in flight. In every state
reachable from the constructed widget by events (the operations of the widget,
responses, failures and late responses of the RPC layer, each in any
environment), the message-search requests that were sent and have neither
completed nor been cancelled are none or just the tracked `_searchRequest`.
`onSearchMore` sends only when `_searchRequest` is 0 and nothing is in flight;
`onSearchMessages` sends only right after cancelling the tracked request, and
its request is then the only one in flight. -/
theorem C9_one_search_in_flight (s : Widget) (h : Reachable s) :
    (inFlightSearches s).length ≤ 1
    ∧ (∀ i ∈ inFlightSearches s, i = s._searchRequest)
    ∧ (∀ e : Env, newSearchSends s (onSearchMore e s) ≠ [] →
        s._searchRequest = 0 ∧ inFlightSearches s = [])
    ∧ (∀ (e : Env) (searchCache : Bool),
        newSearchSends s (onSearchMessages e searchCache s).1 ≠ [] →
          cancels (onSearchMessages e searchCache s).1.log
            = cancels s.log ++ (if s._searchRequest = 0 then [] else [s._searchRequest])
          ∧ inFlightSearches (onSearchMessages e searchCache s).1
            = [(onSearchMessages e searchCache s).1._searchRequest]) := by
  have hinv := oneSearch_reachable h
  have hinv2 : OneSearchOn s.mtp.inFlight s._searchRequest s.mtp.lastRequestId := hinv
  refine ⟨?_, ?_, ?_, ?_⟩
  · rw [inFlightSearches_eq]
    rcases hinv2.2.1 with h1 | h1 <;> rw [h1] <;> simp
  · intro i hi
    rw [inFlightSearches_eq] at hi
    rcases hinv2.2.1 with h1 | h1
    · rw [h1] at hi; cases hi
    · rw [h1] at hi; simpa using hi
  · intro e hs
    have h0 : s._searchRequest = 0 := by
      by_contra hne
      apply hs
      rw [onSearchMore_newSearchSends]
      simp [hne]
    refine ⟨h0, ?_⟩
    rw [h0] at hinv2
    exact hinv2.nil_of_zero
  · intro e searchCache hs
    obtain ⟨hc, hq, hnew⟩ := onSearchMessages_sends_only_new e searchCache s hs
    subst hc
    obtain ⟨a1, -, -, -, -, -, -, a8, -, a10, -⟩ := onSearchMessages_issue e s hq hnew
    simp only [Widget.searchLane, SearchLane.mk.injEq] at a1
    refine ⟨a8, ?_⟩
    rw [a10, a1.1, inFlightSearches_eq]
    have := OneSearchOn.filter_tracked hinv2
    rw [← this]
    exact congrArg _ (map_fst_filter_filter s.mtp.inFlight
      (fun i => decide (i ≠ s._searchRequest) || decide (s._searchRequest = 0))
      (fun p => decide (p.2 ≠ RpcHandler.peerSearch))).symm

/-- The widget that searched "abc" and then saw "abcd" typed is reachable. -/
theorem typedAbcd_reachable : Reachable typedAbcd :=
  Reachable.step sampleEnv 0 (Event.filterChanged "abcd".toList 4)
    (Reachable.step sampleEnv 0 (Event.onSearchMessages false)
      (Reachable.step sampleEnv 0 (Event.filterChanged "abc".toList 3) Reachable.init rfl)
      rfl)
    rfl

/-- The widget that searched "abc" and then "abcd" is reachable. -/
theorem searchedAbcd_reachable : Reachable searchedAbcd :=
  Reachable.step sampleEnv 0 (Event.onSearchMessages false) typedAbcd_reachable rfl

/-- C9 (witness): after "abc" and then "abcd" were searched, only the request
for "abcd" is in flight on the message lanes. -/
theorem C9_one_search_in_flight_witness :
    (inFlightSearches searchedAbcd).length ≤ 1
    ∧ ∀ i ∈ inFlightSearches searchedAbcd, i = searchedAbcd._searchRequest :=
  have h := C9_one_search_in_flight searchedAbcd searchedAbcd_reachable
  ⟨h.1, h.2.1⟩

/-! ## The contact-search lane does not cancel (C10) -/

theorem inFlightPeerSearches_filter_of_not_mem (l : List (mtpRequestId × RpcHandler))
    (r : mtpRequestId)
    (h : r ∉ (l.filter (fun p => decide (p.2 = RpcHandler.peerSearch))).map Prod.fst) :
    ((l.filter (fun p => decide (p.1 ≠ r) || decide (r = 0))).filter
        (fun p => decide (p.2 = RpcHandler.peerSearch))).map Prod.fst
      = (l.filter (fun p => decide (p.2 = RpcHandler.peerSearch))).map Prod.fst := by
  induction l with
  | nil => rfl
  | cons p l ih =>
    by_cases hp : p.2 = RpcHandler.peerSearch
    · have hne : p.1 ≠ r := by
        intro heq
        apply h
        simp [List.filter_cons, hp, heq]
      have ih2 := ih (by
        intro hm
        apply h
        simp only [List.filter_cons, hp, decide_True, if_true, List.map_cons, List.mem_cons]
        exact Or.inr hm)
      simp only [List.filter_cons, hne, hp, ne_eq, not_false_eq_true, decide_True, Bool.true_or,
        if_true, List.map_cons, ih2]
    · have ih2 := ih (by
        intro hm
        apply h
        simpa [List.filter_cons, hp] using hm)
      by_cases hk : (decide (p.1 ≠ r) || decide (r = 0)) = true
      · simp only [List.filter_cons, hk, if_true, hp, decide_False, Bool.false_eq_true, if_false,
          ih2]
      · simp only [List.filter_cons, hk, Bool.false_eq_true, if_false, hp, decide_False, ih2]

/-- The message-search part of `onSearchMessages(false)` leaves the
contact-search lane and its requests alone. -/
theorem onSearchMessagesMessages_peer_frame (e : Env) (q : QString) (s : Widget)
    (hids : s._searchRequest ∉ inFlightPeerSearches s) :
    (onSearchMessagesMessages e false q s).1.peerLane = s.peerLane
    ∧ (onSearchMessagesMessages e false q s).1._searchInChat = s._searchInChat
    ∧ peerSearchSends (onSearchMessagesMessages e false q s).1.log = peerSearchSends s.log
    ∧ inFlightPeerSearches (onSearchMessagesMessages e false q s).1 = inFlightPeerSearches s
    ∧ s.mtp.lastRequestId ≤ (onSearchMessagesMessages e false q s).1.mtp.lastRequestId := by
  by_cases hnew : s._searchQuery ≠ q ∨ s._searchQueryFrom ≠ s._searchFromUser
  · obtain ⟨-, -, m3, m4, -, -, -, -, m9, m10, m11⟩ := onSearchMessagesMessages_issue e q s hnew
    refine ⟨m3, m4, ?_, ?_, ?_⟩
    · rw [m11]
      by_cases h0 : s._searchRequest = 0 <;> simp [h0, peerSearchSends]
    · unfold inFlightPeerSearches
      rw [m10]
      simp only [List.filter_cons, decide_False, Bool.false_eq_true, if_false]
      exact inFlightPeerSearches_filter_of_not_mem _ _ hids
    · rw [m9]; exact Nat.le_succ _
  · have hm : onSearchMessagesMessages e false q s = (s, false) := by
      unfold onSearchMessagesMessages
      simp only [Bool.false_eq_true, if_false, hnew]
    rw [hm]
    exact ⟨rfl, rfl, rfl, rfl, le_rfl⟩

/-- The branch of `onSearchMessages(false)` that sends a contacts search. -/
theorem onSearchMessagesPeers_send (e : Env) (q : QString) (result : Bool) (s : Widget)
    (hreq : searchForPeersRequired s q = true) (hnew : s._peerSearchQuery ≠ q) :
    (onSearchMessagesPeers e false q result s).1._peerSearchRequest = s.mtp.lastRequestId + 1
    ∧ (onSearchMessagesPeers e false q result s).1.mtp.lastRequestId = s.mtp.lastRequestId + 1
    ∧ (onSearchMessagesPeers e false q result s).1.mtp.inFlight
        = (s.mtp.lastRequestId + 1, RpcHandler.peerSearch) :: s.mtp.inFlight
    ∧ (onSearchMessagesPeers e false q result s).1.log
        = s.log ++ [Effect.send (s.mtp.lastRequestId + 1)
            (Request.contacts_Search q e.SearchPeopleLimit) RpcHandler.peerSearch] := by
  unfold onSearchMessagesPeers
  simp only [hreq, if_true, Bool.false_eq_true, if_false, hnew, ne_eq, not_false_eq_true]
  simp [MTP_send]

theorem searchForPeersRequired_congr {s s1 : Widget} (h : s1._searchInChat = s._searchInChat)
    (q : QString) : searchForPeersRequired s1 q = searchForPeersRequired s q := by
  unfold searchForPeersRequired
  rw [h]

/-- In a reachable state the tracked message-search id is not the id of a
contacts-search request in flight. -/
theorem tracked_not_peer_search {s : Widget} (h : Reachable s) :
    s._searchRequest ∉ inFlightPeerSearches s := by
  have hinv : OneSearchOn s.mtp.inFlight s._searchRequest s.mtp.lastRequestId :=
    oneSearch_reachable h
  intro hm
  unfold inFlightPeerSearches at hm
  rw [List.mem_map] at hm
  obtain ⟨p, hp, hp1⟩ := hm
  obtain ⟨hp2, hp3⟩ := List.mem_filter.mp hp
  have hp4 : p.2 = RpcHandler.peerSearch := by simpa using hp3
  apply hinv.2.2.2
  rw [← hp1, ← hp4]
  exact hp2

/-- C10 (amended): the contact-search lane tracks one request at a time but
does not cancel the one it replaces. In every reachable state, whenever
`onSearchMessages(false)` sends a new contacts-search request (contact search
is required and the trimmed text differs from `_peerSearchQuery`), the new
request gets a fresh id that becomes `_peerSearchRequest`, and every
contacts-search request that was in flight before the call is still in flight
after it, next to the new one; a response to such an earlier request is not
handed to the list view. -/
theorem C10_contact_search_replaced_not_cancelled (e : Env) (s : Widget)
    (hs : Reachable s)
    (hreq : searchForPeersRequired s (trimmed s.filterText) = true)
    (hnew : s._peerSearchQuery ≠ trimmed s.filterText) :
    peerSearchSends (onSearchMessages e false s).1.log = peerSearchSends s.log ++
        [((onSearchMessages e false s).1.mtp.lastRequestId,
          Request.contacts_Search (trimmed s.filterText) e.SearchPeopleLimit)]
    ∧ (onSearchMessages e false s).1._peerSearchRequest
        = (onSearchMessages e false s).1.mtp.lastRequestId
    ∧ s.mtp.lastRequestId < (onSearchMessages e false s).1.mtp.lastRequestId
    ∧ inFlightPeerSearches (onSearchMessages e false s).1
        = (onSearchMessages e false s).1.mtp.lastRequestId :: inFlightPeerSearches s
    ∧ (∀ (e2 : Env) (found : MTPcontacts_Found) (i : mtpRequestId),
        i ≠ (onSearchMessages e false s).1._peerSearchRequest →
        peerResultsShown (peerSearchReceived e2 found i (onSearchMessages e false s).1).log
          = peerResultsShown (onSearchMessages e false s).1.log) := by
  have hids := tracked_not_peer_search hs
  have hq : trimmed s.filterText ≠ [] := by
    intro h0
    rw [h0] at hreq
    simp [searchForPeersRequired] at hreq
  rw [onSearchMessages_of_query e false s (Or.inl hq)]
  obtain ⟨m1, m2, m3, m4, m5⟩ :=
    onSearchMessagesMessages_peer_frame e (trimmed s.filterText) s hids
  generalize onSearchMessagesMessages e false (trimmed s.filterText) s = M at m1 m2 m3 m4 m5
  have hreq1 : searchForPeersRequired M.1 (trimmed s.filterText) = true := by
    rw [searchForPeersRequired_congr m2]; exact hreq
  have hnew1 : M.1._peerSearchQuery ≠ trimmed s.filterText := by
    have := congrArg PeerLane._peerSearchQuery m1
    simp only [Widget.peerLane] at this
    rw [this]; exact hnew
  obtain ⟨p1, p2, p3, p4⟩ :=
    onSearchMessagesPeers_send e (trimmed s.filterText) M.2 M.1 hreq1 hnew1
  refine ⟨?_, ?_, ?_, ?_, ?_⟩
  · rw [p4, p2, peerSearchSends_append, m3]
    simp [peerSearchSends]
  · rw [p1, p2]
  · rw [p2]; exact Nat.lt_succ_of_le m5
  · unfold inFlightPeerSearches at m4 ⊢
    rw [p3, p2]
    simp only [List.filter_cons, decide_True, if_true, List.map_cons, m4]
  · intro e2 found i hi
    have := (peerSearchReceived_spec e2 found i
      (onSearchMessagesPeers e false (trimmed s.filterText) M.2 M.1).1).2 hi
    rw [this.2.2]

/-- C10 (witness): "abcd" typed while the contacts search for "abc" (request
2) is unanswered. -/
theorem C10_contact_search_replaced_not_cancelled_witness :
    inFlightPeerSearches (onSearchMessages sampleEnv false typedAbcd).1
      = (onSearchMessages sampleEnv false typedAbcd).1.mtp.lastRequestId
        :: inFlightPeerSearches typedAbcd :=
  (C10_contact_search_replaced_not_cancelled sampleEnv typedAbcd typedAbcd_reachable
    (by decide) (by decide)).2.2.2.1

/-- C10 (counterexample): a reachable state in which the contacts search for
"abc" (request 2) is in flight, neither completed nor cancelled;
`onSearchMessages(false)` then sends the contacts search for "abcd" (request 4)
and cancels only the message search (request 1), so two contacts-search
requests are in flight. -/
theorem C10_counterexample :
    Reachable typedAbcd
    ∧ inFlightPeerSearches typedAbcd = [2]
    ∧ peerSearchSends (onSearchMessages sampleEnv false typedAbcd).1.log
        = peerSearchSends typedAbcd.log ++ [(4, Request.contacts_Search "abcd".toList 5)]
    ∧ cancels typedAbcd.log = []
    ∧ cancels (onSearchMessages sampleEnv false typedAbcd).1.log = [1]
    ∧ inFlightPeerSearches (onSearchMessages sampleEnv false typedAbcd).1 = [4, 2] :=
  ⟨typedAbcd_reachable, by decide⟩

/-! ## The gate of the contact search (C11) -/

theorem peerSearchSends_of_sends (log : List Effect) :
    peerSearchSends log = (sends log).filterMap fun x =>
      match x.2.2 with
      | RpcHandler.search _ => none
      | RpcHandler.peerSearch => some (x.1, x.2.1) := by
  induction log with
  | nil => rfl
  | cons ef log ih =>
    cases ef with
    | send requestId request handler =>
      cases handler <;> simp [peerSearchSends, sends, List.filterMap_cons] at ih ⊢ <;> exact ih
    | _ => simpa [peerSearchSends, sends, List.filterMap_cons] using ih

theorem peerSearchSends_eq_of_sends_eq {a b : List Effect} (h : sends a = sends b) :
    peerSearchSends a = peerSearchSends b := by
  rw [peerSearchSends_of_sends, peerSearchSends_of_sends, h]

/-- The message-search part of `onSearchMessages` leaves the members of the
contact-search lane and the scope alone, sends no contacts search and hands no
contacts result to the list view. -/
theorem onSearchMessagesMessages_contacts_frame (e : Env) (searchCache : Bool) (q : QString)
    (s : Widget) :
    (onSearchMessagesMessages e searchCache q s).1.peerLane = s.peerLane
    ∧ (onSearchMessagesMessages e searchCache q s).1._searchInChat = s._searchInChat
    ∧ peerSearchSends (onSearchMessagesMessages e searchCache q s).1.log
        = peerSearchSends s.log
    ∧ peerResultsShown (onSearchMessagesMessages e searchCache q s).1.log
        = peerResultsShown s.log := by
  cases searchCache with
  | true =>
    have hs := onSearchMessagesMessages_cached_sends e q s
    refine ⟨?_, ?_, peerSearchSends_eq_of_sends_eq hs, ?_⟩
    all_goals
      unfold onSearchMessagesMessages
      simp only [if_true]
      split
      · dsimp only
        obtain ⟨-, -, -, -, r5, r6, -, -, r9⟩ := searchReceived_frame e
          (if (cancelTakeSearchRequest (startQuery q s))._searchInChat.toBool = true then
            SearchRequestType.PeerFromStart else SearchRequestType.FromStart)
          (by assumption) 0 (cancelTakeSearchRequest (startQuery q s))
        obtain ⟨-, c2, c3, -, -, -, -, -, -, c10⟩ :=
          cancelTakeSearchRequest_frame (startQuery q s)
        first
          | exact r6.trans c2
          | exact r5.trans c3
          | (rw [r9, c10]
             show peerResultsShown (s.log ++
               (if s._searchRequest = 0 then [] else [Effect.cancel s._searchRequest])) = _
             by_cases h0 : s._searchRequest = 0 <;> simp [h0, peerResultsShown])
      · rfl
  | false =>
    by_cases hnew : s._searchQuery ≠ q ∨ s._searchQueryFrom ≠ s._searchFromUser
    · obtain ⟨-, -, m3, m4, -, -, -, -, -, -, m11⟩ := onSearchMessagesMessages_issue e q s hnew
      refine ⟨m3, m4, ?_, ?_⟩
      · rw [m11]
        by_cases h0 : s._searchRequest = 0 <;> simp [h0, peerSearchSends]
      · rw [m11]
        by_cases h0 : s._searchRequest = 0 <;> simp [h0, peerResultsShown]
    · have hm : onSearchMessagesMessages e false q s = (s, false) := by
        unfold onSearchMessagesMessages
        simp only [Bool.false_eq_true, if_false, hnew]
      rw [hm]
      exact ⟨rfl, rfl, rfl, rfl⟩

/-- When contact search is not required, the contact-search part of
`onSearchMessages` is the delivery of an empty result with request id 0. -/
theorem onSearchMessagesPeers_not_required (e : Env) (searchCache : Bool) (q : QString)
    (result : Bool) (s : Widget) (h : searchForPeersRequired s q = false) :
    onSearchMessagesPeers e searchCache q result s
      = (peerSearchReceived e ⟨[], []⟩ 0
          { s with _peerSearchQuery := q, _peerSearchFull := true }, result) := by
  unfold onSearchMessagesPeers
  simp only [h, Bool.false_eq_true, if_false]

/-- The branch of `onSearchMessages` behind its empty-query guard (lines
727-731): the two tracked requests are cancelled, nothing else changes, and the
call returns true. -/
theorem onSearchMessages_guard (e : Env) (searchCache : Bool) (s : Widget)
    (hq : trimmed s.filterText = []) (hf : s._searchFromUser = none) :
    onSearchMessages e searchCache s
      = ({ s with
            _searchRequest := 0
            _peerSearchRequest := 0
            mtp := ⟨s.mtp.lastRequestId,
              s.mtp.inFlight.filter (fun p =>
                (decide (p.1 ≠ s._searchRequest) || decide (s._searchRequest = 0))
                  && (decide (p.1 ≠ s._peerSearchRequest)
                    || decide (s._peerSearchRequest = 0)))⟩
            log := s.log
              ++ (if s._searchRequest = 0 then [] else [Effect.cancel s._searchRequest])
              ++ (if s._peerSearchRequest = 0 then []
                  else [Effect.cancel s._peerSearchRequest]) }, true) := by
  unfold onSearchMessages
  simp only [hq, hf, List.isEmpty_nil, and_self, if_true]
  unfold cancelTakePeerSearchRequest cancelTakeSearchRequest MTP_cancel
  by_cases h1 : s._searchRequest = 0 <;> by_cases h2 : s._peerSearchRequest = 0 <;>
    simp [h1, h2, hf, List.filter_filter, Bool.and_comm]

/-- C11 (amended): contact search runs only when the query does not look like a
hashtag and no scope is set. `searchForPeersRequired` is true exactly when no
search-in-chat scope is set, the query is non-empty and its first character is
not `#`. Whenever it is false for the trimmed filter text `q` and
`onSearchMessages` gets past its empty-query guard (`q` is non-empty or a sender
filter is set), `onSearchMessages` sends no contacts-search request, sets
`_peerSearchQuery` to `q` and `_peerSearchFull` to true and calls
`peerSearchReceived` with an empty result and request id 0, which hands the
empty result to the list view when no contacts request is tracked. With an
empty trimmed text and no sender filter `onSearchMessages` only cancels the two
tracked requests and returns true: both request members are 0, the requests
they named are no longer in flight, the log gains their cancellations and every
other member is as before. -/
theorem C11_contact_search_gate (e : Env) (searchCache : Bool) (s : Widget)
    (query : QString) :
    (searchForPeersRequired s query = true
      ↔ s._searchInChat = Key.empty ∧ query ≠ [] ∧ query.head? ≠ some '#')
    ∧ ((trimmed s.filterText ≠ [] ∨ s._searchFromUser ≠ none) →
        searchForPeersRequired s (trimmed s.filterText) = false →
        peerSearchSends (onSearchMessages e searchCache s).1.log = peerSearchSends s.log
        ∧ (onSearchMessages e searchCache s).1._peerSearchQuery = trimmed s.filterText
        ∧ (onSearchMessages e searchCache s).1._peerSearchFull = true
        ∧ (onSearchMessages e searchCache s).1
            = peerSearchReceived e ⟨[], []⟩ 0
                { (onSearchMessagesMessages e searchCache (trimmed s.filterText) s).1 with
                  _peerSearchQuery := trimmed s.filterText
                  _peerSearchFull := true }
        ∧ (s._peerSearchRequest = 0 →
            peerResultsShown (onSearchMessages e searchCache s).1.log
              = peerResultsShown s.log ++
                [(if e.inner.state = WidgetState.Filtered then
                    (s._peerSearchQueries.find 0).getD (trimmed s.filterText)
                  else trimmed s.filterText, [], [])]))
    ∧ (trimmed s.filterText = [] → s._searchFromUser = none →
        onSearchMessages e searchCache s
          = ({ s with
                _searchRequest := 0
                _peerSearchRequest := 0
                mtp := ⟨s.mtp.lastRequestId,
                  s.mtp.inFlight.filter (fun p =>
                    (decide (p.1 ≠ s._searchRequest) || decide (s._searchRequest = 0))
                      && (decide (p.1 ≠ s._peerSearchRequest)
                        || decide (s._peerSearchRequest = 0)))⟩
                log := s.log
                  ++ (if s._searchRequest = 0 then [] else [Effect.cancel s._searchRequest])
                  ++ (if s._peerSearchRequest = 0 then []
                      else [Effect.cancel s._peerSearchRequest]) }, true)) := by
  refine ⟨?_, ?_, fun hq hf => onSearchMessages_guard e searchCache s hq hf⟩
  · unfold searchForPeersRequired
    cases hk : s._searchInChat <;> cases query with
      | nil => simp [Key.toBool]
      | cons c t => simp [Key.toBool]
  · intro hq hreq
    obtain ⟨m1, m2, m3, m4⟩ :=
      onSearchMessagesMessages_contacts_frame e searchCache (trimmed s.filterText) s
    have hreq2 : searchForPeersRequired
        (onSearchMessagesMessages e searchCache (trimmed s.filterText) s).1
        (trimmed s.filterText) = false := by
      rw [← hreq]
      unfold searchForPeersRequired
      rw [m2]
    have hcall := onSearchMessagesPeers_not_required e searchCache (trimmed s.filterText)
      (onSearchMessagesMessages e searchCache (trimmed s.filterText) s).2
      (onSearchMessagesMessages e searchCache (trimmed s.filterText) s).1 hreq2
    rw [onSearchMessages_of_query e searchCache s hq, hcall]
    simp only [Widget.peerLane, PeerLane.mk.injEq] at m1
    obtain ⟨n1, n2, n3, n4, n5⟩ := m1
    obtain ⟨-, -, -, -, -, -, -, -, -, p10, -, -⟩ := peerSearchReceived_frame e ⟨[], []⟩ 0
      { (onSearchMessagesMessages e searchCache (trimmed s.filterText) s).1 with
        _peerSearchQuery := trimmed s.filterText
        _peerSearchFull := true }
    refine ⟨p10.trans m3, ?_, ?_, rfl, ?_⟩
    · unfold peerSearchReceived
      by_cases hf : e.inner.state = WidgetState.Filtered
      · cases hfind : (onSearchMessagesMessages e searchCache
            (trimmed s.filterText) s).1._peerSearchQueries.find 0 <;>
          simp only [hf, hfind, if_true] <;> split_ifs <;> rfl
      · simp only [hf, if_false]; split_ifs <;> rfl
    · unfold peerSearchReceived
      by_cases hf : e.inner.state = WidgetState.Filtered
      · cases hfind : (onSearchMessagesMessages e searchCache
            (trimmed s.filterText) s).1._peerSearchQueries.find 0 <;>
          simp only [hf, hfind, if_true] <;> split_ifs <;> rfl
      · simp only [hf, if_false]; split_ifs <;> rfl
    · intro h0
      have hsp := (peerSearchReceived_spec e ⟨[], []⟩ 0
        { (onSearchMessagesMessages e searchCache (trimmed s.filterText) s).1 with
          _peerSearchQuery := trimmed s.filterText
          _peerSearchFull := true }).1 (by
            show (0 : mtpRequestId) = (onSearchMessagesMessages e searchCache
              (trimmed s.filterText) s).1._peerSearchRequest
            rw [n1, h0])
      rw [hsp.2]
      show peerResultsShown (onSearchMessagesMessages e searchCache
              (trimmed s.filterText) s).1.log ++ _ = _
      rw [m4]
      show _ ++ [(if e.inner.state = WidgetState.Filtered then
          (((onSearchMessagesMessages e searchCache
            (trimmed s.filterText) s).1._peerSearchQueries.find 0).getD (trimmed s.filterText))
          else trimmed s.filterText, [], [])] = _
      rw [n5]

/-- C11 (witness): with "#tag" typed, `onSearchMessages(false)` sends the
message search only, marks the contact lane complete and hands an empty
contacts result for "#tag" to the list view. With two blanks typed over "abc"
while the requests 1 and 2 are tracked, `onSearchMessages(false)` cancels both
and returns true. -/
theorem C11_contact_search_gate_witness :
    searchForPeersRequired hashtagTyped (trimmed hashtagTyped.filterText) = false
    ∧ peerSearchSends (onSearchMessages sampleEnv false hashtagTyped).1.log = []
    ∧ (onSearchMessages sampleEnv false hashtagTyped).1._peerSearchQuery = "#tag".toList
    ∧ (onSearchMessages sampleEnv false hashtagTyped).1._peerSearchFull = true
    ∧ peerResultsShown (onSearchMessages sampleEnv false hashtagTyped).1.log
        = [("#tag".toList, [], [])]
    ∧ blankTyped._searchRequest = 1
    ∧ blankTyped._peerSearchRequest = 2
    ∧ onSearchMessages sampleEnv false blankTyped
        = ({ blankTyped with
              _searchRequest := 0
              _peerSearchRequest := 0
              mtp := ⟨2, []⟩
              log := blankTyped.log ++ [Effect.cancel 1, Effect.cancel 2] }, true) :=
  have h := (C11_contact_search_gate sampleEnv false hashtagTyped []).2.1
    (Or.inl (by decide)) (by decide)
  have g := (C11_contact_search_gate sampleEnv false blankTyped []).2.2
    (by decide) (by decide)
  ⟨by decide, h.1, h.2.1, h.2.2.1, h.2.2.2.2 rfl, by decide, by decide, g.trans (by decide)⟩

/-- C11 (counterexample): in the constructed widget the filter text is empty and
no sender is set; `searchForPeersRequired` is false for the empty query, yet
`onSearchMessages` returns at its empty-query guard: `_peerSearchFull` stays
false and nothing is handed to the list view. -/
theorem C11_counterexample :
    searchForPeersRequired Widget.init (trimmed Widget.init.filterText) = false
    ∧ (onSearchMessages sampleEnv false Widget.init).1._peerSearchFull = false
    ∧ peerResultsShown (onSearchMessages sampleEnv false Widget.init).1.log = []
    ∧ (onSearchMessages sampleEnv true Widget.init).1._peerSearchFull = false
    ∧ peerResultsShown (onSearchMessages sampleEnv true Widget.init).1.log = [] := by
  decide

/-! ## Clearing the filter text (C12, C13) -/

/-- With an empty filter text, `applyFilterUpdate` (when it runs) tells the list
view, clears the message-search cache unless a sender filter is set, and clears
the contact-search cache, pending map and query. -/
theorem applyFilterUpdate_empty (e : Env) (force : Bool) (s : Widget)
    (hrun : ¬ (e.showAnimating = true ∧ force = false)) (hempty : s.filterText = []) :
    applyFilterUpdate e force s
      = { (if s._searchFromUser = none then
            clearSearchCache (s.emit (Effect.innerApplyFilterUpdate [] force))
          else s.emit (Effect.innerApplyFilterUpdate [] force)) with
          _peerSearchCache := QMap.clear
          _peerSearchQueries := QMap.clear
          _peerSearchQuery := []
          _lastFilterText := [] } := by
  have hsw : ¬ (([] : QString) = SwitchToChooseFromQuery) := by decide
  unfold applyFilterUpdate
  simp only [hrun, if_false, hempty, List.isEmpty_nil, true_and, if_true, hsw, and_false]
  by_cases hu : s._searchFromUser = none
  · simp only [Widget.emit, hu, if_true]
    split_ifs <;> rfl
  · simp only [Widget.emit, hu, if_false]
    split_ifs <;> rfl

/-- What `clearSearchCache` leaves. -/
theorem clearSearchCache_frame (s : Widget) :
    (clearSearchCache s).searchLane
        = ⟨0, [], none, s._searchNextRate, s._searchFull, s._searchFullMigrated, QMap.clear,
            QMap.clear⟩
    ∧ (clearSearchCache s).peerLane = s.peerLane
    ∧ (clearSearchCache s)._searchInChat = s._searchInChat
    ∧ (clearSearchCache s)._searchFromUser = s._searchFromUser
    ∧ (clearSearchCache s).mtp.lastRequestId = s.mtp.lastRequestId
    ∧ (clearSearchCache s).mtp.inFlight
        = s.mtp.inFlight.filter
            (fun p => decide (p.1 ≠ s._searchRequest) || decide (s._searchRequest = 0))
    ∧ (clearSearchCache s).log
        = s.log ++ (if s._searchRequest = 0 then [] else [Effect.cancel s._searchRequest]) := by
  unfold clearSearchCache cancelTakeSearchRequest MTP_cancel
  by_cases h : s._searchRequest = 0
  · simp [h, Widget.searchLane, Widget.peerLane]
  · simp [h, Widget.searchLane, Widget.peerLane]

/-- C12: when `applyFilterUpdate` runs (not suppressed by the show animation)
with an empty filter text, `_peerSearchCache` and `_peerSearchQueries` are
emptied and `_peerSearchQuery` is reset, in every state; `_searchCache` is
emptied when no sender filter is set and left unchanged when one is set. -/
theorem C12_empty_filter_clears_contact_cache (e : Env) (force : Bool) (s : Widget)
    (hrun : ¬ (e.showAnimating = true ∧ force = false)) (hempty : s.filterText = []) :
    (applyFilterUpdate e force s)._peerSearchCache = QMap.clear
    ∧ (applyFilterUpdate e force s)._peerSearchQueries = QMap.clear
    ∧ (applyFilterUpdate e force s)._peerSearchQuery = []
    ∧ (s._searchFromUser = none → (applyFilterUpdate e force s)._searchCache = QMap.clear)
    ∧ (s._searchFromUser ≠ none →
        (applyFilterUpdate e force s)._searchCache = s._searchCache) := by
  rw [applyFilterUpdate_empty e force s hrun hempty]
  refine ⟨rfl, rfl, rfl, ?_, ?_⟩
  · intro hu
    simp only [hu, if_true]
    have h := (clearSearchCache_frame (s.emit (Effect.innerApplyFilterUpdate [] force))).1
    simp only [Widget.searchLane, SearchLane.mk.injEq] at h
    exact h.2.2.2.2.2.2.1
  · intro hu
    simp only [hu, if_false]
    rfl

/-- The widget that searched "abc" is reachable. -/
theorem searchedAbc_reachable : Reachable searchedAbc :=
  Reachable.step sampleEnv 0 (Event.onSearchMessages false)
    (Reachable.step sampleEnv 0 (Event.filterChanged "abc".toList 3) Reachable.init rfl)
    rfl

/-- The widget whose search for "abc" was answered to the end is reachable. -/
theorem completedAbc_reachable : Reachable completedAbc :=
  Reachable.step sampleEnv 0 (Event.searchDone 3 (MTPmessages_Messages.messages [12]))
    (Reachable.step sampleEnv 0 Event.onSearchMore
      (Reachable.step sampleEnv 0
        (Event.searchDone 1 (MTPmessages_Messages.messagesSlice 100 (some 7) [10, 11]))
        searchedAbc_reachable rfl)
      rfl)
    rfl

/-- The widget whose filter field was cleared after that is reachable. -/
theorem clearedAbc_reachable : Reachable clearedAbc :=
  Reachable.step sampleEnv 0 (Event.filterChanged [] 0) completedAbc_reachable rfl

/-- C12 (witness): the user clears the filter field after "abc" was searched and
answered; the page cached for "abc" and the pending contacts entry are gone. -/
theorem C12_empty_filter_clears_contact_cache_witness :
    completedAbc._searchCache.contains "abc".toList = true
    ∧ completedAbc._peerSearchQueries.find 2 = some "abc".toList
    ∧ (applyFilterUpdate sampleEnv false
        { completedAbc with filterText := [], cursorPosition := 0 })._peerSearchQueries
          = QMap.clear
    ∧ (applyFilterUpdate sampleEnv false
        { completedAbc with filterText := [], cursorPosition := 0 })._searchCache
          = QMap.clear :=
  have h := C12_empty_filter_clears_contact_cache sampleEnv false
    { completedAbc with filterText := [], cursorPosition := 0 } (by decide) rfl
  ⟨by decide, by decide, h.2.1, h.2.2.2.1 rfl⟩

/-- C13 (amended): what clearing the query text resets. After `applyFilterUpdate`
runs with an empty filter text, the contact lane has an empty cache, an empty
pending map and an empty query, while its tracked request `_peerSearchRequest`
and its completion flag `_peerSearchFull` are what they were. The completion
flags `_searchFull`, `_searchFullMigrated` and the cursor `_searchNextRate` of
the message lanes are what they were as well. When no sender filter is set the
message-search cache and pending map are empty, the active query and its sender
are reset and the tracked request is cancelled and reset to 0; when a sender
filter is set no member of the message lanes changes and nothing is cancelled. -/
theorem C13_empty_filter_resets (e : Env) (force : Bool) (s : Widget)
    (hrun : ¬ (e.showAnimating = true ∧ force = false)) (hempty : s.filterText = []) :
    (applyFilterUpdate e force s).peerLane
        = ⟨s._peerSearchRequest, [], s._peerSearchFull, QMap.clear, QMap.clear⟩
    ∧ (applyFilterUpdate e force s)._searchFull = s._searchFull
    ∧ (applyFilterUpdate e force s)._searchFullMigrated = s._searchFullMigrated
    ∧ (applyFilterUpdate e force s)._searchNextRate = s._searchNextRate
    ∧ (s._searchFromUser = none →
        (applyFilterUpdate e force s).searchLane
            = ⟨0, [], none, s._searchNextRate, s._searchFull, s._searchFullMigrated,
                QMap.clear, QMap.clear⟩
        ∧ cancels (applyFilterUpdate e force s).log
            = cancels s.log ++ (if s._searchRequest = 0 then [] else [s._searchRequest])
        ∧ (applyFilterUpdate e force s).mtp.inFlight
            = s.mtp.inFlight.filter
                (fun p => decide (p.1 ≠ s._searchRequest) || decide (s._searchRequest = 0)))
    ∧ (s._searchFromUser ≠ none →
        (applyFilterUpdate e force s).searchLane = s.searchLane
        ∧ cancels (applyFilterUpdate e force s).log = cancels s.log
        ∧ (applyFilterUpdate e force s).mtp = s.mtp) := by
  rw [applyFilterUpdate_empty e force s hrun hempty]
  obtain ⟨c1, c2, -, -, -, c6, c7⟩ :=
    clearSearchCache_frame (s.emit (Effect.innerApplyFilterUpdate [] force))
  simp only [Widget.searchLane, Widget.peerLane, SearchLane.mk.injEq, PeerLane.mk.injEq] at c1 c2
  obtain ⟨a1, a2, a3, a4, a5, a6, a7, a8⟩ := c1
  obtain ⟨b1, b2, b3, b4, b5⟩ := c2
  by_cases hu : s._searchFromUser = none
  · simp only [hu, if_true, Widget.searchLane, Widget.peerLane, SearchLane.mk.injEq,
      PeerLane.mk.injEq]
    refine ⟨⟨b1, trivial, b3, trivial, trivial⟩, a5, a6, a4, fun _ =>
      ⟨⟨a1, a2, a3, a4, a5, a6, a7, a8⟩, ?_, c6⟩, fun h => absurd rfl h⟩
    show cancels (clearSearchCache _).log = _
    rw [c7]
    show cancels ((s.log ++ [Effect.innerApplyFilterUpdate [] force]) ++
      (if s._searchRequest = 0 then [] else [Effect.cancel s._searchRequest])) = _
    by_cases h0 : s._searchRequest = 0 <;> simp [h0, cancels]
  · simp only [hu, if_false, Widget.searchLane, Widget.peerLane, SearchLane.mk.injEq,
      PeerLane.mk.injEq]
    refine ⟨⟨rfl, trivial, rfl, trivial, trivial⟩, rfl, rfl, rfl, fun h => h.elim, fun _ =>
      ⟨⟨rfl, rfl, rfl, rfl, rfl, rfl, rfl, rfl⟩, ?_, rfl⟩⟩
    show cancels (s.log ++ [Effect.innerApplyFilterUpdate [] force]) = _
    simp [cancels]

/-- C13 (witness): the user clears the filter field after "abc" was searched and
answered. -/
theorem C13_empty_filter_resets_witness :
    (applyFilterUpdate sampleEnv false
        { completedAbc with filterText := [], cursorPosition := 0 }).searchLane
      = ⟨0, [], none, 7, true, false, QMap.clear, QMap.clear⟩
    ∧ (applyFilterUpdate sampleEnv false
        { completedAbc with filterText := [], cursorPosition := 0 }).peerLane
      = ⟨2, [], false, QMap.clear, QMap.clear⟩ :=
  have h := C13_empty_filter_resets sampleEnv false
    { completedAbc with filterText := [], cursorPosition := 0 } (by decide) rfl
  ⟨(h.2.2.2.2.1 rfl).1, h.1⟩

/-- C13 (counterexample): "abc" is searched, the first page arrives as a slice
with next rate 7, the next page as a full batch, and the user clears the filter
field. `applyFilterUpdate` ran with an empty filter text, yet `_searchFull` is
still true and `_searchNextRate` still 7 (initially false and 0), and the contact
lane still tracks the request 2, which is still in flight. -/
theorem C13_counterexample :
    Reachable clearedAbc
    ∧ clearedAbc
        = applyFilterUpdate sampleEnv false
            { completedAbc with filterText := [], cursorPosition := 0 }
    ∧ clearedAbc.filterText = []
    ∧ clearedAbc._searchFull = true
    ∧ Widget.init._searchFull = false
    ∧ clearedAbc._searchNextRate = 7
    ∧ Widget.init._searchNextRate = 0
    ∧ clearedAbc._peerSearchRequest = 2
    ∧ inFlightPeerSearches clearedAbc = [2] :=
  ⟨clearedAbc_reachable, by decide⟩

/-! ## Scope changes (C14) -/

theorem NothingSent.refl (s : Widget) : NothingSent s s := fun _ hp => hp

theorem NothingSent.of_mtp {s s1 : Widget} (h : s1.mtp = s.mtp) : NothingSent s s1 := by
  intro p hp
  rw [h] at hp
  exact hp

theorem NothingSent.trans {s t u : Widget} (h1 : NothingSent s t) (h2 : NothingSent t u) :
    NothingSent s u := fun p hp => h1 p (h2 p hp)

theorem TrackedCancelled.mono {s t u : Widget} (h1 : TrackedCancelled s t)
    (h2 : NothingSent t u) : TrackedCancelled s u := fun p hp => h1 p (h2 p hp)

theorem TrackedCancelled.of_eq {s t u : Widget} (h : TrackedCancelled t u)
    (hr : t._searchRequest = s._searchRequest) : TrackedCancelled s u := by
  intro p hp
  rw [← hr]
  exact h p hp

/-- What `clearSearchCache` does. -/
theorem clearSearchCache_cleared (s : Widget) :
    SearchCleared (clearSearchCache s)
    ∧ NothingSent s (clearSearchCache s)
    ∧ TrackedCancelled s (clearSearchCache s)
    ∧ (clearSearchCache s)._searchInChat = s._searchInChat
    ∧ (clearSearchCache s)._searchFromUser = s._searchFromUser
    ∧ (clearSearchCache s).filterText = s.filterText
    ∧ (clearSearchCache s)._lastFilterText = s._lastFilterText := by
  unfold clearSearchCache cancelTakeSearchRequest MTP_cancel SearchCleared NothingSent
    TrackedCancelled
  by_cases h : s._searchRequest = 0
  · simp [h]
  · simp [h]
    intro a b hab _
    exact hab

/-- What the cancelling statement that opens `onCancelSearch` does. -/
theorem cancelSearchRequest_spec (s : Widget) :
    (cancelSearchRequest s)._searchRequest = 0
    ∧ NothingSent s (cancelSearchRequest s)
    ∧ TrackedCancelled s (cancelSearchRequest s)
    ∧ (cancelSearchRequest s)._searchInChat = s._searchInChat
    ∧ (cancelSearchRequest s)._searchFromUser = s._searchFromUser
    ∧ (cancelSearchRequest s).filterText = s.filterText
    ∧ (cancelSearchRequest s)._lastFilterText = s._lastFilterText
    ∧ (cancelSearchRequest s)._searchCache = s._searchCache
    ∧ (cancelSearchRequest s)._searchQueries = s._searchQueries
    ∧ (cancelSearchRequest s)._searchQuery = s._searchQuery
    ∧ (cancelSearchRequest s)._searchQueryFrom = s._searchQueryFrom := by
  unfold cancelSearchRequest MTP_cancel NothingSent TrackedCancelled
  by_cases h : s._searchRequest = 0
  · simp [h]
  · simp [h]
    intro a b hab _
    exact hab

/-- What `showScopeHistory` leaves alone. -/
theorem showScopeHistory_spec (oneColumn : Bool) (s : Widget) :
    (showScopeHistory oneColumn s).searchLane = s.searchLane
    ∧ (showScopeHistory oneColumn s).mtp = s.mtp
    ∧ (showScopeHistory oneColumn s)._searchInChat = s._searchInChat
    ∧ (showScopeHistory oneColumn s)._searchFromUser = s._searchFromUser
    ∧ (showScopeHistory oneColumn s).filterText = s.filterText
    ∧ (showScopeHistory oneColumn s)._lastFilterText = s._lastFilterText := by
  unfold showScopeHistory
  split <;> simp [Widget.emit, Widget.searchLane]

/-- What `applyFilterUpdate` does to the message lanes when the filter text is
empty: nothing, or what `clearSearchCache` does when no sender filter is set. -/
theorem applyFilterUpdate_empty_spec (e : Env) (force : Bool) (s : Widget)
    (hempty : s.filterText = []) :
    (applyFilterUpdate e force s)._searchInChat = s._searchInChat
    ∧ (applyFilterUpdate e force s)._searchFromUser = s._searchFromUser
    ∧ NothingSent s (applyFilterUpdate e force s)
    ∧ (SearchCleared s → SearchCleared (applyFilterUpdate e force s))
    ∧ (s._searchFromUser ≠ none →
        (applyFilterUpdate e force s)._searchCache = s._searchCache
        ∧ (applyFilterUpdate e force s)._searchQueries = s._searchQueries) := by
  by_cases hrun : e.showAnimating = true ∧ force = false
  · have hno : applyFilterUpdate e force s = s := by
      unfold applyFilterUpdate
      simp only [hrun, and_self, if_true]
    rw [hno]
    exact ⟨rfl, rfl, NothingSent.refl s, id, fun _ => ⟨rfl, rfl⟩⟩
  · rw [applyFilterUpdate_empty e force s hrun hempty]
    obtain ⟨c1, c2, c3, c4, c5, -, -⟩ :=
      clearSearchCache_cleared (s.emit (Effect.innerApplyFilterUpdate [] force))
    by_cases hu : s._searchFromUser = none
    · simp only [hu, if_true]
      exact ⟨c4, c5.trans hu, c2, fun _ => c1, fun h => absurd rfl h⟩
    · simp only [hu, if_false]
      exact ⟨rfl, rfl, NothingSent.refl s, id, fun _ => ⟨rfl, rfl⟩⟩

/-- What `clearFilterAndUpdate` does to the message lanes. -/
theorem clearFilterAndUpdate_spec (e : Env) (s : Widget) :
    (clearFilterAndUpdate e s)._searchInChat = s._searchInChat
    ∧ (clearFilterAndUpdate e s)._searchFromUser = s._searchFromUser
    ∧ NothingSent s (clearFilterAndUpdate e s)
    ∧ (SearchCleared s → SearchCleared (clearFilterAndUpdate e s))
    ∧ (s._searchFromUser ≠ none →
        (clearFilterAndUpdate e s)._searchCache = s._searchCache
        ∧ (clearFilterAndUpdate e s)._searchQueries = s._searchQueries) :=
  applyFilterUpdate_empty_spec e false
    { s.emit Effect.innerClearFilter with filterText := [], cursorPosition := 0 } rfl

/-- Lines 1271-1285 of `setSearchInChat` in one piece: the search cache is
cleared exactly when the scope or the sender changes. -/
theorem setSearchInChatStore_eq (chat : Key) (fromUser : Option UserId) (s : Widget) :
    setSearchInChatStore chat fromUser s
      = (if s._searchInChat ≠ chat ∨ s._searchFromUser ≠ storedFromUser chat fromUser s then
          clearSearchCache
            { s with
                _searchInChat := chat
                _searchFromUser := storedFromUser chat fromUser s }
        else s).emit (Effect.innerSearchInChat chat (storedFromUser chat fromUser s)) := by
  unfold setSearchInChatStore storedFromUser
  by_cases hk : s._searchInChat = chat
  · subst hk
    by_cases hb : s._searchInChat.toBool = true
    · by_cases hf : s._searchFromUser = fromUser
      · simp [hb, hf]
      · obtain ⟨-, -, -, c4, c5, -, -⟩ :=
          clearSearchCache_cleared { s with _searchFromUser := fromUser }
        simp [hb, hf, c4, c5]
    · by_cases hf : s._searchFromUser = none
      · simp [hb, hf]
      · obtain ⟨-, -, -, c4, c5, -, -⟩ :=
          clearSearchCache_cleared { s with _searchFromUser := none }
        simp [hb, hf, c4, c5]
  · obtain ⟨-, -, -, c4, c5, -, -⟩ :=
      clearSearchCache_cleared { s with _searchInChat := chat, _searchFromUser := none }
    simp [hk, c4, c5]

/-- What lines 1271-1285 of `setSearchInChat` do to the message lanes. -/
theorem setSearchInChatStore_spec (chat : Key) (fromUser : Option UserId) (s : Widget) :
    (setSearchInChatStore chat fromUser s)._searchInChat = chat
    ∧ (setSearchInChatStore chat fromUser s)._searchFromUser = storedFromUser chat fromUser s
    ∧ (setSearchInChatStore chat fromUser s).filterText = s.filterText
    ∧ (setSearchInChatStore chat fromUser s)._lastFilterText = s._lastFilterText
    ∧ NothingSent s (setSearchInChatStore chat fromUser s)
    ∧ ((s._searchInChat ≠ chat ∨ s._searchFromUser ≠ storedFromUser chat fromUser s) →
        SearchCleared (setSearchInChatStore chat fromUser s)
        ∧ TrackedCancelled s (setSearchInChatStore chat fromUser s))
    ∧ (¬ (s._searchInChat ≠ chat ∨ s._searchFromUser ≠ storedFromUser chat fromUser s) →
        (setSearchInChatStore chat fromUser s)._searchCache = s._searchCache
        ∧ (setSearchInChatStore chat fromUser s)._searchQueries = s._searchQueries
        ∧ (setSearchInChatStore chat fromUser s)._searchRequest = s._searchRequest) := by
  rw [setSearchInChatStore_eq]
  obtain ⟨c1, c2, c3, c4, c5, c6, c7⟩ := clearSearchCache_cleared
    { s with _searchInChat := chat, _searchFromUser := storedFromUser chat fromUser s }
  by_cases hch : s._searchInChat ≠ chat ∨ s._searchFromUser ≠ storedFromUser chat fromUser s
  · simp only [hch, if_true]
    exact ⟨c4, c5, c6, c7, c2, fun _ => ⟨c1, c3⟩, fun h => absurd trivial h⟩
  · simp only [hch, if_false]
    have hk : s._searchInChat = chat := by
      by_contra h
      exact hch (Or.inl h)
    have hf : s._searchFromUser = storedFromUser chat fromUser s := by
      by_contra h
      exact hch (Or.inr h)
    exact ⟨hk, hf, rfl, rfl, NothingSent.refl s, fun h => h.elim, fun _ => ⟨rfl, rfl, rfl⟩⟩

/-- What `setSearchInMigrated` leaves alone. -/
theorem setSearchInMigrated_spec (e : Env) (chat : Key) (s : Widget) :
    (setSearchInMigrated e chat s).searchLane = s.searchLane
    ∧ (setSearchInMigrated e chat s).mtp = s.mtp
    ∧ (setSearchInMigrated e chat s)._searchInChat = s._searchInChat
    ∧ (setSearchInMigrated e chat s)._searchFromUser = s._searchFromUser
    ∧ (setSearchInMigrated e chat s).filterText = s.filterText
    ∧ (setSearchInMigrated e chat s)._lastFilterText = s._lastFilterText := by
  unfold setSearchInMigrated
  split <;> simp [Widget.searchLane]

/-- No sender is stored for the empty scope. -/
theorem storedFromUser_empty (fromUser : Option UserId) (s : Widget) :
    storedFromUser Key.empty fromUser s = none := by
  unfold storedFromUser
  by_cases hk : s._searchInChat = Key.empty
  · simp [hk, Key.toBool]
  · simp [hk]

/-- A stored sender means the scope was kept and is not empty. -/
theorem storedFromUser_some (chat : Key) (fromUser : Option UserId) (s : Widget)
    (h : storedFromUser chat fromUser s ≠ none) :
    s._searchInChat = chat ∧ chat.toBool = true ∧ storedFromUser chat fromUser s = fromUser := by
  unfold storedFromUser at h ⊢
  by_cases hk : s._searchInChat = chat
  · subst hk
    by_cases hb : s._searchInChat.toBool = true
    · simp [hb]
    · simp [hb] at h
  · simp [hk] at h

/-- The call `setSearchInChat(Key())` made by `onCancelSearch` returns after
storing the empty scope. -/
theorem setSearchInChat_empty (e : Env) (fuel : Nat) (s : Widget) :
    setSearchInChat e (fuel + 1) Key.empty none s
      = Except.ok (setSearchInChatStore Key.empty none { s with _searchInMigrated := none }) := by
  rw [setSearchInChat]
  have h1 : (setSearchInChatStore Key.empty none
      (setSearchInMigrated e Key.empty { s with _searchInMigrated := none }))._searchFromUser
        = none := by
    rw [(setSearchInChatStore_spec _ _ _).2.1]
    exact storedFromUser_empty _ _
  simp only [Key.folder, Option.isSome_none, Bool.false_eq_true, if_false, Key.peer,
    Option.bind_none, h1, false_and]
  rfl

/-- What a returning `onCancelSearch` does to the message lanes: the tracked
request is cancelled; with a scope and an empty filter field the scope is
dropped and the search cache cleared; otherwise scope and sender stay. -/
theorem onCancelSearch_spec (e : Env) (fuel : Nat) (s : Widget) (r : Widget × Bool)
    (h : onCancelSearch e fuel s = Except.ok r) :
    NothingSent s r.1
    ∧ TrackedCancelled s r.1
    ∧ (SearchCleared s → SearchCleared r.1)
    ∧ ((s._searchInChat.toBool = true ∧ s.filterText = []) →
        r.1._searchInChat = Key.empty ∧ SearchCleared r.1)
    ∧ (¬ (s._searchInChat.toBool = true ∧ s.filterText = []) →
        r.1._searchInChat = s._searchInChat
        ∧ r.1._searchFromUser = s._searchFromUser
        ∧ (s._searchFromUser ≠ none →
            r.1._searchCache = s._searchCache ∧ r.1._searchQueries = s._searchQueries)) := by
  cases fuel with
  | zero => simp [onCancelSearch] at h
  | succ fuel =>
    rw [onCancelSearch] at h
    dsimp only at h
    obtain ⟨c1, c2, c3, c4, c5, c6, c7, c8, c9, c10, c11⟩ := cancelSearchRequest_spec s
    have hcl : SearchCleared s → SearchCleared (cancelSearchRequest s) := by
      intro hs
      exact ⟨c8.trans hs.1, c9.trans hs.2.1, c10.trans hs.2.2.1, c11.trans hs.2.2.2.1, c1⟩
    have htext : ((!s.filterText.isEmpty) = false) ↔ s.filterText = [] := by
      cases s.filterText <;> simp
    rw [← c4] 
    generalize cancelSearchRequest s = c at h c1 c2 c3 c4 c5 c6 c7 c8 c9 c10 c11 hcl
    by_cases hcond : c._searchInChat.toBool = true ∧ (!s.filterText.isEmpty) = false
    · simp only [hcond, and_self, if_true] at h
      split_ifs at h
      obtain ⟨w1, w2, w3, w4, w5, w6⟩ := showScopeHistory_spec e.oneColumn c
      generalize showScopeHistory e.oneColumn c = c1s at h w1 w2 w3 w4 w5 w6
      cases fuel with
      | zero => simp [setSearchInChat] at h
      | succ fuel =>
        rw [setSearchInChat_empty] at h
        simp only [Except.ok.injEq] at h
        subst h
        obtain ⟨t1, t2, t3, t4, t5, t6, t7⟩ :=
          setSearchInChatStore_spec Key.empty none { c1s with _searchInMigrated := none }
        have hupd : ({ c1s with _searchInMigrated := none } : Widget)._searchInChat
            ≠ Key.empty := by
          show c1s._searchInChat ≠ Key.empty
          rw [w3]
          intro hk
          rw [hk] at hcond
          exact absurd hcond.1 (by simp [Key.toBool])
        obtain ⟨t6a, t6b⟩ := t6 (Or.inl hupd)
        obtain ⟨f1, f2, f3, f4, f5⟩ := clearFilterAndUpdate_spec e
          (setSearchInChatStore Key.empty none { c1s with _searchInMigrated := none })
        have hns : NothingSent s (clearFilterAndUpdate e
            (setSearchInChatStore Key.empty none { c1s with _searchInMigrated := none })) :=
          (c2.trans (NothingSent.trans (NothingSent.trans (NothingSent.of_mtp w2) t5) f3))
        refine ⟨hns, ?_, fun _ => f4 t6a, fun _ => ⟨f1.trans t1, f4 t6a⟩, ?_⟩
        · exact c3.mono (NothingSent.trans (NothingSent.trans (NothingSent.of_mtp w2) t5) f3)
        · intro hn
          exact absurd ⟨hcond.1, htext.mp hcond.2⟩ hn
    · simp only [hcond, if_false, Except.ok.injEq] at h
      subst h
      obtain ⟨f1, f2, f3, f4, f5⟩ := clearFilterAndUpdate_spec e c
      refine ⟨c2.trans f3, c3.mono f3, fun hs => f4 (hcl hs), ?_, ?_⟩
      · intro hy
        exact absurd ⟨hy.1, htext.mpr hy.2⟩ hcond
      · intro _
        refine ⟨f1, f2.trans c5, fun hu => ?_⟩
        obtain ⟨g1, g2⟩ := f5 (by rw [c5]; exact hu)
        exact ⟨g1.trans c8, g2.trans c9⟩

/-- What a returning `setSearchInChat` does to the message lanes, whatever the
depth of its calls. -/
theorem setSearchInChat_spec (e : Env) : ∀ (fuel : Nat) (chat : Key)
    (fromUser : Option UserId) (s s1 : Widget),
    setSearchInChat e fuel chat fromUser s = Except.ok s1 →
    ((s1._searchInChat ≠ s._searchInChat ∨ s1._searchFromUser ≠ s._searchFromUser) →
      SearchCleared s1 ∧ TrackedCancelled s s1)
    ∧ ((s1._searchInChat = s._searchInChat ∧ s1._searchFromUser = s._searchFromUser) →
      s1._searchCache = s._searchCache ∧ s1._searchQueries = s._searchQueries) := by
  intro fuel
  induction fuel with
  | zero =>
    intro chat fromUser s s1 h
    simp [setSearchInChat] at h
  | succ fuel ih =>
    intro chat fromUser s s1 h
    rw [setSearchInChat] at h
    dsimp only at h
    generalize (if chat.folder.isSome = true then Key.empty else chat) = chat1 at h
    cases hmt : chat1.peer.bind e.migrateTo with
    | some mt =>
      simp only [hmt] at h
      exact ih _ _ { s with _searchInMigrated := none } _ h
    | none =>
      simp only [hmt] at h
      obtain ⟨m1, m2, m3, m4, m5, m6⟩ :=
        setSearchInMigrated_spec e chat1 { s with _searchInMigrated := none }
      simp only [Widget.searchLane, SearchLane.mk.injEq] at m1
      obtain ⟨mr, -, -, -, -, -, mc, mq⟩ := m1
      obtain ⟨t1, t2, t3, t4, t5, t6, t7⟩ := setSearchInChatStore_spec chat1 fromUser
        (setSearchInMigrated e chat1 { s with _searchInMigrated := none })
      have hsome := storedFromUser_some chat1 fromUser
        (setSearchInMigrated e chat1 { s with _searchInMigrated := none })
      rw [m3, m4] at t6 t7
      rw [mc, mq, mr] at t7
      rw [m3] at hsome
      have t5s : NothingSent s (setSearchInChatStore chat1 fromUser
          (setSearchInMigrated e chat1 { s with _searchInMigrated := none })) :=
        NothingSent.trans (NothingSent.of_mtp m2) t5
      have t6s : ∀ u : Widget, NothingSent (setSearchInChatStore chat1 fromUser
          (setSearchInMigrated e chat1 { s with _searchInMigrated := none })) u →
          TrackedCancelled (setSearchInMigrated e chat1 { s with _searchInMigrated := none })
            (setSearchInChatStore chat1 fromUser
              (setSearchInMigrated e chat1 { s with _searchInMigrated := none })) →
          TrackedCancelled s u := by
        intro u hu htc
        exact (htc.mono hu).of_eq mr
      generalize storedFromUser chat1 fromUser
        (setSearchInMigrated e chat1 { s with _searchInMigrated := none }) = f
        at t2 t6 t7 hsome
      generalize setSearchInChatStore chat1 fromUser
        (setSearchInMigrated e chat1 { s with _searchInMigrated := none }) = t
        at h t1 t2 t3 t4 t5s t6 t7 t6s
      show ((s1._searchInChat ≠ s._searchInChat ∨ s1._searchFromUser ≠ s._searchFromUser) →
          SearchCleared s1 ∧ TrackedCancelled s s1)
        ∧ ((s1._searchInChat = s._searchInChat ∧ s1._searchFromUser = s._searchFromUser) →
          s1._searchCache = s._searchCache ∧ s1._searchQueries = s._searchQueries)
      have hs0 : ({ s with _searchInMigrated := none } : Widget)._searchInChat
          = s._searchInChat := rfl
      have hs1 : ({ s with _searchInMigrated := none } : Widget)._searchFromUser
          = s._searchFromUser := rfl
      have hs2 : ({ s with _searchInMigrated := none } : Widget)._searchCache
          = s._searchCache := rfl
      have hs3 : ({ s with _searchInMigrated := none } : Widget)._searchQueries
          = s._searchQueries := rfl
      have hs4 : ({ s with _searchInMigrated := none } : Widget)._searchRequest
          = s._searchRequest := rfl
      rw [hs0, hs1] at t6 t7
      rw [hs2, hs3, hs4] at t7
      rw [hs0] at hsome
      by_cases hcond : t._searchFromUser.isSome = true ∧ t._lastFilterText = SwitchToChooseFromQuery
      · simp only [hcond, and_self, if_true] at h
        cases hoc : onCancelSearch e fuel t with
        | error err => simp [hoc] at h
        | ok r =>
          simp only [hoc, Except.ok.injEq] at h
          subst h
          obtain ⟨o1, o2, o3, o4, o5⟩ := onCancelSearch_spec e fuel t r hoc
          have hfs : f ≠ none := by
            intro hf
            rw [t2, hf] at hcond
            exact absurd hcond.1 (by simp)
          obtain ⟨k1, k2, k3⟩ := hsome hfs
          by_cases hbr : t._searchInChat.toBool = true ∧ t.filterText = []
          · obtain ⟨b1, b2⟩ := o4 hbr
            refine ⟨fun _ => ⟨b2, ?_⟩, fun hsame => ?_⟩
            · by_cases hch : s._searchInChat ≠ chat1 ∨ s._searchFromUser ≠ f
              · exact t6s _ o1 (t6 hch).2
              · have hreq := (t7 hch).2.2
                exact o2.of_eq hreq
            · exfalso
              rw [b1, k1] at hsame
              rw [← hsame.1] at k2
              simp [Key.toBool] at k2
          · obtain ⟨b1, b2, b3⟩ := o5 hbr
            by_cases hch : s._searchInChat ≠ chat1 ∨ s._searchFromUser ≠ f
            · obtain ⟨q1, q2⟩ := t6 hch
              refine ⟨fun _ => ⟨o3 q1, t6s _ o1 q2⟩, fun hsame => ?_⟩
              exfalso
              rcases hch with hch | hch
              · exact hch k1
              · apply hch
                rw [← hsame.2, b2, t2]
            · obtain ⟨q1, q2, q3⟩ := t7 hch
              have hk : s._searchInChat = chat1 := by
                by_contra hx
                exact hch (Or.inl hx)
              have hf : s._searchFromUser = f := by
                by_contra hx
                exact hch (Or.inr hx)
              refine ⟨fun hdiff => ?_, fun _ => ?_⟩
              · exfalso
                rcases hdiff with hd | hd
                · exact hd (by rw [b1, t1, hk])
                · exact hd (by rw [b2, t2, hf])
              · obtain ⟨g1, g2⟩ := b3 (by rw [t2]; exact hfs)
                exact ⟨g1.trans q1, g2.trans q2⟩
      · simp only [hcond, if_false, Except.ok.injEq] at h
        subst h
        by_cases hch : s._searchInChat ≠ chat1 ∨ s._searchFromUser ≠ f
        · obtain ⟨q1, q2⟩ := t6 hch
          refine ⟨fun _ => ⟨q1, t6s _ (NothingSent.refl _) q2⟩, fun hsame => ?_⟩
          exfalso
          rcases hch with hch | hch
          · exact hch (by rw [← hsame.1, t1])
          · exact hch (by rw [← hsame.2, t2])
        · obtain ⟨q1, q2, q3⟩ := t7 hch
          have hk : s._searchInChat = chat1 := by
            by_contra hx
            exact hch (Or.inl hx)
          have hf : s._searchFromUser = f := by
            by_contra hx
            exact hch (Or.inr hx)
          refine ⟨fun hdiff => ?_, fun _ => ⟨q1, q2⟩⟩
          exfalso
          rcases hdiff with hd | hd
          · exact hd (by rw [t1, hk])
          · exact hd (by rw [t2, hf])

/-- The call `onCancelSearch()` returns when the scope is not a folder. -/
theorem onCancelSearch_returns (e : Env) (fuel : Nat) (s : Widget)
    (hk : s._searchInChat.folder = none) :
    ∃ r, onCancelSearch e (fuel + 2) s = Except.ok r := by
  rw [onCancelSearch]
  dsimp only
  obtain ⟨-, -, -, c4, -⟩ := cancelSearchRequest_spec s
  generalize cancelSearchRequest s = c at c4
  by_cases hcond : c._searchInChat.toBool = true ∧ (!s.filterText.isEmpty) = false
  · have hpeer : c._searchInChat.peer ≠ none := by
      rw [c4]
      rw [c4] at hcond
      cases hsc : s._searchInChat with
      | empty => rw [hsc] at hcond; simp [Key.toBool] at hcond
      | ofHistory p => simp [Key.peer]
      | ofFolder f => rw [hsc] at hk; simp [Key.folder] at hk
    simp only [hcond, and_self, if_true, hpeer, and_false, if_false]
    rw [setSearchInChat_empty]
    exact ⟨_, rfl⟩
  · simp only [hcond, if_false]
    exact ⟨_, rfl⟩

/-- The call `setSearchInChat(chat, from)` returns when the peer of `chat` was not
migrated to another one. -/
theorem setSearchInChat_returns (e : Env) (fuel : Nat) (chat : Key)
    (fromUser : Option UserId) (s : Widget) (hm : chat.peer.bind e.migrateTo = none) :
    ∃ s1, setSearchInChat e (fuel + 3) chat fromUser s = Except.ok s1 := by
  rw [setSearchInChat]
  dsimp only
  have hchat : (if chat.folder.isSome = true then Key.empty else chat).peer.bind e.migrateTo
      = none := by
    cases chat <;> simp [Key.folder, Key.peer] at hm ⊢
    exact hm
  have hfolder : (if chat.folder.isSome = true then Key.empty else chat).folder = none := by
    cases chat <;> simp [Key.folder]
  generalize (if chat.folder.isSome = true then Key.empty else chat) = chat1 at hchat hfolder
  simp only [hchat]
  obtain ⟨t1, -⟩ := setSearchInChatStore_spec chat1 fromUser
    (setSearchInMigrated e chat1 { s with _searchInMigrated := none })
  generalize setSearchInChatStore chat1 fromUser
    (setSearchInMigrated e chat1 { s with _searchInMigrated := none }) = t at t1
  split_ifs
  · obtain ⟨r, hr⟩ := onCancelSearch_returns e fuel t (by rw [t1]; exact hfolder)
    rw [hr]
    exact ⟨_, rfl⟩
  · exact ⟨_, rfl⟩

/-- C14: changing the search scope invalidates all cached and in-flight state.
Whenever a call of `setSearchInChat` returns with a scope `_searchInChat` or a
sender filter `_searchFromUser` other than before, `_searchCache` and
`_searchQueries` are empty, `_searchQuery` is empty, `_searchQueryFrom` is null,
`_searchRequest` is 0 and the request tracked before is no longer in flight;
when it returns with the same scope and sender, `_searchCache` and
`_searchQueries` are what they were. The call returns when the peer of `chat`
was not migrated to another one. -/
theorem C14_scope_change_invalidates (e : Env) (fuel : Nat) (chat : Key)
    (fromUser : Option UserId) (s : Widget) :
    (∀ s1 : Widget, setSearchInChat e fuel chat fromUser s = Except.ok s1 →
      ((s1._searchInChat ≠ s._searchInChat ∨ s1._searchFromUser ≠ s._searchFromUser) →
        s1._searchCache = QMap.clear
        ∧ s1._searchQueries = QMap.clear
        ∧ s1._searchQuery = []
        ∧ s1._searchQueryFrom = none
        ∧ s1._searchRequest = 0
        ∧ (s._searchRequest ≠ 0 → ∀ p ∈ s1.mtp.inFlight, p.1 ≠ s._searchRequest))
      ∧ ((s1._searchInChat = s._searchInChat ∧ s1._searchFromUser = s._searchFromUser) →
        s1._searchCache = s._searchCache ∧ s1._searchQueries = s._searchQueries))
    ∧ (chat.peer.bind e.migrateTo = none → 3 ≤ fuel →
        ∃ s1, setSearchInChat e fuel chat fromUser s = Except.ok s1) := by
  constructor
  · intro s1 h
    obtain ⟨a, b⟩ := setSearchInChat_spec e fuel chat fromUser s s1 h
    refine ⟨fun hd => ?_, b⟩
    obtain ⟨⟨x1, x2, x3, x4, x5⟩, hc⟩ := a hd
    refine ⟨x1, x2, x3, x4, x5, fun hne p hp => ?_⟩
    rcases hc p hp with h1 | h1
    · exact h1
    · exact absurd h1 hne
  · intro hm hfuel
    obtain ⟨k, rfl⟩ : ∃ k, fuel = k + 3 := ⟨fuel - 3, by omega⟩
    exact setSearchInChat_returns e k chat fromUser s hm

/-- C14 (witness): "abc" is being searched (request 1 tracked and in flight) when
the scope is set to the conversation 8; afterwards nothing of the search is left
and request 1 is no longer in flight. -/
theorem C14_scope_change_invalidates_witness :
    setSearchInChat sampleEnv 3 (Key.ofHistory 8) none searchedAbc = Except.ok scopedAfterAbc
    ∧ searchedAbc._searchRequest = 1
    ∧ searchedAbc.mtp.inFlight
        = [(2, RpcHandler.peerSearch), (1, RpcHandler.search SearchRequestType.FromStart)]
    ∧ scopedAfterAbc._searchQueries = QMap.clear
    ∧ scopedAfterAbc._searchQuery = []
    ∧ scopedAfterAbc._searchRequest = 0
    ∧ ∀ p ∈ scopedAfterAbc.mtp.inFlight, p.1 ≠ 1 :=
  have h := ((C14_scope_change_invalidates sampleEnv 3 (Key.ofHistory 8) none searchedAbc).1
    scopedAfterAbc rfl).1 (Or.inl (by decide))
  ⟨rfl, by decide, by decide, h.2.1, h.2.2.1, h.2.2.2.2.1, h.2.2.2.2.2 (by decide)⟩

/-! ## Pending-request entries (C15) -/

/-- The pending map after `searchReceived` is the one its caching part leaves. -/
theorem searchReceived_searchQueries (e : Env) (type : SearchRequestType)
    (result : MTPmessages_Messages) (requestId : mtpRequestId) (s : Widget) :
    (searchReceived e type result requestId s)._searchQueries
      = (searchReceivedCache e type result requestId s)._searchQueries := by
  by_cases h : s._searchRequest = requestId
  · rw [searchReceived_of_eq e type result requestId s h]
    show (searchReceivedApply e type result _)._searchQueries = _
    rw [searchReceivedApply_searchQueries]
  · rw [searchReceived_of_ne e type result requestId s h]

/-- The pending map of the message lanes after a response: the entry of the
request is erased when the list view is Filtered and the request is a first-page
one; otherwise the map is what it was. -/
theorem searchReceived_pending (e : Env) (type : SearchRequestType)
    (result : MTPmessages_Messages) (requestId : mtpRequestId) (s : Widget) :
    ((e.inner.state = WidgetState.Filtered
        ∧ (type = SearchRequestType.FromStart ∨ type = SearchRequestType.PeerFromStart)) →
      (searchReceived e type result requestId s)._searchQueries.find requestId = none
      ∧ ∀ k, k ≠ requestId →
          (searchReceived e type result requestId s)._searchQueries.find k
            = s._searchQueries.find k)
    ∧ (¬ (e.inner.state = WidgetState.Filtered
        ∧ (type = SearchRequestType.FromStart ∨ type = SearchRequestType.PeerFromStart)) →
      (searchReceived e type result requestId s)._searchQueries = s._searchQueries) := by
  rw [searchReceived_searchQueries]
  unfold searchReceivedCache
  constructor
  · rintro ⟨hf, ht⟩
    simp only [hf, ht, if_true]
    cases hq : s._searchQueries.find requestId with
    | none => exact ⟨hq, fun _ _ => rfl⟩
    | some q =>
      exact ⟨QMap.find_erase_self _ _, fun k hk => QMap.find_erase_ne _ _ _ hk⟩
  · intro hn
    by_cases hf : e.inner.state = WidgetState.Filtered
    · have ht : ¬ (type = SearchRequestType.FromStart ∨ type = SearchRequestType.PeerFromStart) :=
        fun ht => hn ⟨hf, ht⟩
      simp only [hf, ht, if_true, if_false]
    · simp only [hf, if_false]

/-- The pending map of the contact lane after a response. -/
theorem peerSearchReceived_pending (e : Env) (found : MTPcontacts_Found)
    (requestId : mtpRequestId) (s : Widget) :
    (e.inner.state = WidgetState.Filtered →
      (peerSearchReceived e found requestId s)._peerSearchQueries.find requestId = none
      ∧ ∀ k, k ≠ requestId →
          (peerSearchReceived e found requestId s)._peerSearchQueries.find k
            = s._peerSearchQueries.find k)
    ∧ (e.inner.state ≠ WidgetState.Filtered →
      (peerSearchReceived e found requestId s)._peerSearchQueries = s._peerSearchQueries) := by
  unfold peerSearchReceived
  constructor
  · intro hf
    cases hq : s._peerSearchQueries.find requestId with
    | none =>
      simp only [hf, hq, if_true]
      split_ifs
      · exact ⟨hq, fun _ _ => rfl⟩
      · exact ⟨hq, fun _ _ => rfl⟩
    | some q =>
      simp only [hf, hq, if_true]
      split_ifs
      · exact ⟨QMap.find_erase_self _ _, fun k hk => QMap.find_erase_ne _ _ _ hk⟩
      · exact ⟨QMap.find_erase_self _ _, fun k hk => QMap.find_erase_ne _ _ _ hk⟩
  · intro hf
    simp only [hf, if_false]
    split_ifs <;> rfl

/-- The pending entry the contact lane creates when it sends. -/
theorem onSearchMessagesPeers_pending (e : Env) (q : QString) (result : Bool) (s : Widget)
    (hreq : searchForPeersRequired s q = true) (hnew : s._peerSearchQuery ≠ q) :
    (onSearchMessagesPeers e false q result s).1._peerSearchQueries
      = s._peerSearchQueries.insert (s.mtp.lastRequestId + 1) q := by
  unfold onSearchMessagesPeers
  simp only [hreq, if_true, Bool.false_eq_true, if_false, hnew, ne_eq, not_false_eq_true]
  simp [MTP_send]

/-- C15 (amended): pending-request entries are created on send and removed when
the response is cached. `onSearchMessages(false)` records the id of the
first-page request it sends under the query, and its contact-search part does
the same in `_peerSearchQueries`. A response erases the entry of its request id
when the list view is in the Filtered state (for the message lanes: and the
request is a first-page one) and leaves every other entry; in any other case the
map is what it was. A failure (`searchFailed`, `peopleFailed`) and a cancellation
(`MTP::cancel(base::take(...))`) leave the maps as they were, so an entry can
outlive its request. -/
theorem C15_pending_entries (e : Env) (type : SearchRequestType)
    (result : MTPmessages_Messages) (found : MTPcontacts_Found) (error : RPCError)
    (requestId : mtpRequestId) (q : QString) (r : Bool) (s : Widget) :
    ((trimmed s.filterText ≠ [] ∨ s._searchFromUser ≠ none) →
      (s._searchQuery ≠ trimmed s.filterText ∨ s._searchQueryFrom ≠ s._searchFromUser) →
      (onSearchMessages e false s).1._searchRequest = s.mtp.lastRequestId + 1
      ∧ (onSearchMessages e false s).1._searchQueries
          = s._searchQueries.insert (s.mtp.lastRequestId + 1) (trimmed s.filterText))
    ∧ (searchForPeersRequired s q = true → s._peerSearchQuery ≠ q →
      (onSearchMessagesPeers e false q r s).1._peerSearchRequest = s.mtp.lastRequestId + 1
      ∧ (onSearchMessagesPeers e false q r s).1._peerSearchQueries
          = s._peerSearchQueries.insert (s.mtp.lastRequestId + 1) q)
    ∧ ((e.inner.state = WidgetState.Filtered
        ∧ (type = SearchRequestType.FromStart ∨ type = SearchRequestType.PeerFromStart)) →
      (searchReceived e type result requestId s)._searchQueries.find requestId = none
      ∧ ∀ k, k ≠ requestId →
          (searchReceived e type result requestId s)._searchQueries.find k
            = s._searchQueries.find k)
    ∧ (¬ (e.inner.state = WidgetState.Filtered
        ∧ (type = SearchRequestType.FromStart ∨ type = SearchRequestType.PeerFromStart)) →
      (searchReceived e type result requestId s)._searchQueries = s._searchQueries)
    ∧ (e.inner.state = WidgetState.Filtered →
      (peerSearchReceived e found requestId s)._peerSearchQueries.find requestId = none
      ∧ ∀ k, k ≠ requestId →
          (peerSearchReceived e found requestId s)._peerSearchQueries.find k
            = s._peerSearchQueries.find k)
    ∧ (e.inner.state ≠ WidgetState.Filtered →
      (peerSearchReceived e found requestId s)._peerSearchQueries = s._peerSearchQueries)
    ∧ (searchFailed e type error requestId s).1._searchQueries = s._searchQueries
    ∧ (peopleFailed e error requestId s).1._peerSearchQueries = s._peerSearchQueries
    ∧ (cancelTakeSearchRequest s)._searchQueries = s._searchQueries
    ∧ (cancelTakePeerSearchRequest s)._peerSearchQueries = s._peerSearchQueries := by
  refine ⟨?_, ?_, (searchReceived_pending e type result requestId s).1,
    (searchReceived_pending e type result requestId s).2,
    (peerSearchReceived_pending e found requestId s).1,
    (peerSearchReceived_pending e found requestId s).2, ?_, ?_, ?_, ?_⟩
  · intro hq hnew
    have h := (onSearchMessages_issue e s hq hnew).1
    simp only [Widget.searchLane, SearchLane.mk.injEq] at h
    exact ⟨h.1, h.2.2.2.2.2.2.2⟩
  · intro hreq hnew
    exact ⟨(onSearchMessagesPeers_send e q r s hreq hnew).1,
      onSearchMessagesPeers_pending e q r s hreq hnew⟩
  · unfold searchFailed markFull
    split_ifs <;> rfl
  · unfold peopleFailed
    split_ifs <;> rfl
  · have h := (cancelTakeSearchRequest_frame s).1
    simp only [Widget.searchLane, SearchLane.mk.injEq] at h
    exact h.2.2.2.2.2.2.2
  · have h := (cancelTakePeerSearchRequest_frame s).2.1
    simp only [Widget.peerLane, PeerLane.mk.injEq] at h
    exact h.2.2.2.2

/-- C15 (witness): the response of request 1 arrives while "abc" is searched and
the list view is Filtered; the entry of request 1 is gone. -/
theorem C15_pending_entries_witness :
    searchedAbc._searchQueries.find 1 = some "abc".toList
    ∧ (searchReceived sampleEnv SearchRequestType.FromStart (MTPmessages_Messages.messages [7])
        1 searchedAbc)._searchQueries.find 1 = none :=
  have h := (C15_pending_entries sampleEnv SearchRequestType.FromStart
    (MTPmessages_Messages.messages [7]) ⟨[], []⟩ ⟨0, ""⟩ 1 [] false searchedAbc).2.2.1
    ⟨rfl, Or.inl rfl⟩
  ⟨by decide, h.1⟩

/-- The widget whose message search for "abc" failed is reachable. -/
theorem failedAbc_reachable : Reachable failedAbc :=
  Reachable.step sampleEnv 0 (Event.requestFailed 1 ⟨400, "QUERY_INVALID"⟩)
    searchedAbc_reachable rfl

/-- C15 (counterexample): two reachable states whose pending map holds the id of
a request that is no longer in flight. After "abc" and then "abcd" were searched,
request 1 was cancelled and its entry is still there; after the search for "abc"
failed, request 1 is finished and its entry is still there. -/
theorem C15_counterexample :
    Reachable searchedAbcd
    ∧ Reachable failedAbc
    ∧ cancels searchedAbcd.log = [1]
    ∧ handlerOf searchedAbcd 1 = none
    ∧ searchedAbcd._searchQueries.find 1 = some "abc".toList
    ∧ handlerOf failedAbc 1 = none
    ∧ failedAbc._searchQueries.find 1 = some "abc".toList :=
  ⟨searchedAbcd_reachable, failedAbc_reachable, by decide⟩

/-! ## Completion of a lane (C16, C17, C19) -/

/-- The completion flags after the recurring block that marks a lane complete,
run or not. -/
theorem markFull_if_flags (type : SearchRequestType) (w : Widget) (done : Bool) :
    (if done then markFull type w else w)._searchFull
        = (w._searchFull || (done && !type.isMigrated))
    ∧ (if done then markFull type w else w)._searchFullMigrated
        = (w._searchFullMigrated || (done && type.isMigrated))
    ∧ (if done then markFull type w else w)._searchNextRate = w._searchNextRate := by
  unfold markFull
  cases done <;> cases type.isMigrated <;> simp

/-- The completion flags and the cursor after a `messagesSlice` is applied. -/
theorem searchReceivedApply_slice (e : Env) (type : SearchRequestType) (vcount : Int)
    (vnext : Option Int) (msgs : List Int) (s : Widget) :
    (searchReceivedApply e type (MTPmessages_Messages.messagesSlice vcount vnext msgs) s)._searchFull
        = (s._searchFull
            || (sliceFinished type vnext s._searchNextRate e.inner.searchReceived
                && !type.isMigrated))
    ∧ (searchReceivedApply e type
        (MTPmessages_Messages.messagesSlice vcount vnext msgs) s)._searchFullMigrated
        = (s._searchFullMigrated
            || (sliceFinished type vnext s._searchNextRate e.inner.searchReceived
                && type.isMigrated)) := by
  have hp1 : (processUnlessCached s)._searchFull = s._searchFull := by
    unfold processUnlessCached; split_ifs <;> rfl
  have hp2 : (processUnlessCached s)._searchFullMigrated = s._searchFullMigrated := by
    unfold processUnlessCached; split_ifs <;> rfl
  have hp3 : (processUnlessCached s)._searchNextRate = s._searchNextRate := by
    unfold processUnlessCached; split_ifs <;> rfl
  cases vnext with
  | none =>
    obtain ⟨a1, a2, -⟩ := markFull_if_flags type
      ((processUnlessCached s).emit (Effect.innerSearchReceived msgs type vcount))
      (sliceFinished type none s._searchNextRate e.inner.searchReceived)
    simp only [searchReceivedApply, sliceFinished] at a1 a2 ⊢
    exact ⟨a1.trans (by rw [← hp1]; rfl), a2.trans (by rw [← hp2]; rfl)⟩
  | some r =>
    by_cases hr : r = s._searchNextRate
    · have hru : decide (r ≠ ((processUnlessCached s).emit
          (Effect.innerSearchReceived msgs type vcount))._searchNextRate) = false := by
        simp [Widget.emit, hp3, hr]
      have hru2 : decide (r ≠ s._searchNextRate) = false := by simp [hr]
      obtain ⟨a1, a2, -⟩ := markFull_if_flags type
        ((processUnlessCached s).emit (Effect.innerSearchReceived msgs type vcount))
        (sliceFinished type (some r) s._searchNextRate e.inner.searchReceived)
      simp only [searchReceivedApply, sliceFinished, hru, hru2, Bool.false_eq_true,
        if_false] at a1 a2 ⊢
      exact ⟨a1.trans (by rw [← hp1]; rfl), a2.trans (by rw [← hp2]; rfl)⟩
    · have hru : decide (r ≠ ((processUnlessCached s).emit
          (Effect.innerSearchReceived msgs type vcount))._searchNextRate) = true := by
        simp [Widget.emit, hp3, hr]
      have hru2 : decide (r ≠ s._searchNextRate) = true := by simp [hr]
      obtain ⟨a1, a2, -⟩ := markFull_if_flags type
        ({ (processUnlessCached s).emit (Effect.innerSearchReceived msgs type vcount) with
            _searchNextRate := r })
        (sliceFinished type (some r) s._searchNextRate e.inner.searchReceived)
      simp only [searchReceivedApply, sliceFinished, hru, hru2, if_true] at a1 a2 ⊢
      exact ⟨a1.trans (by rw [← hp1]; rfl), a2.trans (by rw [← hp2]; rfl)⟩

/-- The completion flags and the cursor a matching `messagesSlice` leaves. -/
theorem searchReceived_slice (e : Env) (type : SearchRequestType) (vcount : Int)
    (vnext : Option Int) (msgs : List Int) (requestId : mtpRequestId) (s : Widget)
    (h : requestId = s._searchRequest) :
    (searchReceived e type (MTPmessages_Messages.messagesSlice vcount vnext msgs)
        requestId s)._searchFull
        = (s._searchFull
            || (sliceFinished type vnext s._searchNextRate e.inner.searchReceived
                && !type.isMigrated))
    ∧ (searchReceived e type (MTPmessages_Messages.messagesSlice vcount vnext msgs)
        requestId s)._searchFullMigrated
        = (s._searchFullMigrated
            || (sliceFinished type vnext s._searchNextRate e.inner.searchReceived
                && type.isMigrated))
    ∧ (searchReceived e type (MTPmessages_Messages.messagesSlice vcount vnext msgs)
        requestId s)._searchNextRate
        = nextRateAfter (MTPmessages_Messages.messagesSlice vcount vnext msgs) s._searchNextRate
    ∧ (searchReceived e type (MTPmessages_Messages.messagesSlice vcount vnext msgs)
        requestId s)._searchRequest = 0 := by
  rw [searchReceived_of_eq e type _ requestId s h.symm]
  obtain ⟨a1, a2⟩ := searchReceivedApply_slice e type vcount vnext msgs
    (searchReceivedCache e type (MTPmessages_Messages.messagesSlice vcount vnext msgs)
      requestId s)
  obtain ⟨-, -, -, -, f5⟩ := searchReceivedApply_flags e type
    (MTPmessages_Messages.messagesSlice vcount vnext msgs)
    (searchReceivedCache e type (MTPmessages_Messages.messagesSlice vcount vnext msgs)
      requestId s)
  simp only [searchReceivedCache_searchFull, searchReceivedCache_searchFullMigrated,
    searchReceivedCache_searchNextRate] at a1 a2 f5
  exact ⟨a1, a2, f5, rfl⟩

/-- C17: completion of a lane by a matching paged slice. On the global lane
(`FromStart` / `FromOffset`) a slice without next-rate token or with the stored
`_searchNextRate` marks the lane complete and leaves the cursor; a slice with
another token makes it the new `_searchNextRate` and leaves `_searchFull` as it
was. On the in-conversation and migrated lanes the lane is marked complete when
the list view reports that no message was added, and its flag is left as it was
otherwise. The flag is `_searchFullMigrated` for the `Migrated*` types and
`_searchFull` otherwise; the flag of the other lane is left alone. -/
theorem C17_slice_completion (e : Env) (type : SearchRequestType) (vcount : Int)
    (vnext : Option Int) (msgs : List Int) (requestId : mtpRequestId) (s : Widget)
    (h : requestId = s._searchRequest) :
    ((type = SearchRequestType.FromStart ∨ type = SearchRequestType.FromOffset) →
      ((vnext = none ∨ vnext = some s._searchNextRate) →
        (searchReceived e type (MTPmessages_Messages.messagesSlice vcount vnext msgs)
          requestId s)._searchFull = true
        ∧ (searchReceived e type (MTPmessages_Messages.messagesSlice vcount vnext msgs)
          requestId s)._searchNextRate = s._searchNextRate)
      ∧ (∀ r, vnext = some r → r ≠ s._searchNextRate →
        (searchReceived e type (MTPmessages_Messages.messagesSlice vcount vnext msgs)
          requestId s)._searchNextRate = r
        ∧ (searchReceived e type (MTPmessages_Messages.messagesSlice vcount vnext msgs)
          requestId s)._searchFull = s._searchFull))
    ∧ ((type = SearchRequestType.PeerFromStart ∨ type = SearchRequestType.PeerFromOffset) →
      (e.inner.searchReceived = false →
        (searchReceived e type (MTPmessages_Messages.messagesSlice vcount vnext msgs)
          requestId s)._searchFull = true)
      ∧ (e.inner.searchReceived = true →
        (searchReceived e type (MTPmessages_Messages.messagesSlice vcount vnext msgs)
          requestId s)._searchFull = s._searchFull))
    ∧ ((type = SearchRequestType.MigratedFromStart
        ∨ type = SearchRequestType.MigratedFromOffset) →
      (e.inner.searchReceived = false →
        (searchReceived e type (MTPmessages_Messages.messagesSlice vcount vnext msgs)
          requestId s)._searchFullMigrated = true)
      ∧ (e.inner.searchReceived = true →
        (searchReceived e type (MTPmessages_Messages.messagesSlice vcount vnext msgs)
          requestId s)._searchFullMigrated = s._searchFullMigrated))
    ∧ (type.isMigrated = true →
      (searchReceived e type (MTPmessages_Messages.messagesSlice vcount vnext msgs)
        requestId s)._searchFull = s._searchFull)
    ∧ (type.isMigrated = false →
      (searchReceived e type (MTPmessages_Messages.messagesSlice vcount vnext msgs)
        requestId s)._searchFullMigrated = s._searchFullMigrated) := by
  obtain ⟨a1, a2, a3, -⟩ := searchReceived_slice e type vcount vnext msgs requestId s h
  rw [a1, a2, a3]
  refine ⟨?_, ?_, ?_, ?_, ?_⟩
  · intro hg
    have hm : type.isMigrated = false := by
      rcases hg with hg | hg <;> rw [hg] <;> rfl
    refine ⟨?_, ?_⟩
    · intro hv
      rcases hv with hv | hv <;> subst hv <;>
        simp [sliceFinished, hg, hm, nextRateAfter]
    · intro r hv hr
      subst hv
      simp [sliceFinished, hg, hm, nextRateAfter, hr]
  · intro hg
    have hm : type.isMigrated = false := by
      rcases hg with hg | hg <;> rw [hg] <;> rfl
    have hng : ¬ (type = SearchRequestType.FromStart ∨ type = SearchRequestType.FromOffset) := by
      rcases hg with hg | hg <;> rw [hg] <;> decide
    refine ⟨?_, ?_⟩ <;> intro hi <;> simp [sliceFinished, hng, hm, hi]
  · intro hg
    have hm : type.isMigrated = true := by
      rcases hg with hg | hg <;> rw [hg] <;> rfl
    have hng : ¬ (type = SearchRequestType.FromStart ∨ type = SearchRequestType.FromOffset) := by
      rcases hg with hg | hg <;> rw [hg] <;> decide
    refine ⟨?_, ?_⟩ <;> intro hi <;> simp [sliceFinished, hng, hm, hi]
  · intro hm
    simp [hm]
  · intro hm
    simp [hm]

/-- C17 (witness): the first page for "abc" arrives as a slice with next rate 7
while the stored rate is 0: the cursor becomes 7 and the lane stays incomplete. -/
theorem C17_slice_completion_witness :
    searchedAbc._searchRequest = 1
    ∧ searchedAbc._searchNextRate = 0
    ∧ (searchReceived sampleEnv SearchRequestType.FromStart
        (MTPmessages_Messages.messagesSlice 100 (some 7) [10, 11]) 1 searchedAbc)._searchNextRate
          = 7
    ∧ (searchReceived sampleEnv SearchRequestType.FromStart
        (MTPmessages_Messages.messagesSlice 100 (some 7) [10, 11]) 1 searchedAbc)._searchFull
          = false :=
  have h := ((C17_slice_completion sampleEnv SearchRequestType.FromStart 100 (some 7) [10, 11]
    1 searchedAbc rfl).1 (Or.inl rfl)).2 7 rfl (by decide)
  ⟨rfl, rfl, h.1, h.2⟩

/-- C19: unexpected response shapes are completion signals. A matching
`messagesNotModified` and a matching full batch (`messages.messages`) mark the
lane of the request complete (`_searchFullMigrated` for the `Migrated*` types,
`_searchFull` otherwise) and reset `_searchRequest` to 0; `searchReceived` has no
failing path (it is a total function), and the not-modified shape is logged as an
API error and hands nothing to the list view. -/
theorem C19_unexpected_shapes_complete (e : Env) (type : SearchRequestType)
    (result : MTPmessages_Messages) (requestId : mtpRequestId) (s : Widget)
    (h : requestId = s._searchRequest)
    (hshape : (∃ msgs, result = MTPmessages_Messages.messages msgs)
      ∨ ∃ c, result = MTPmessages_Messages.messagesNotModified c) :
    (type.isMigrated = true →
      (searchReceived e type result requestId s)._searchFullMigrated = true)
    ∧ (type.isMigrated = false →
      (searchReceived e type result requestId s)._searchFull = true)
    ∧ (searchReceived e type result requestId s)._searchRequest = 0
    ∧ ((∃ c, result = MTPmessages_Messages.messagesNotModified c) →
      (searchReceived e type result requestId s).log = s.log ++ [Effect.logApiError]) := by
  rw [searchReceived_of_eq e type result requestId s h.symm]
  obtain ⟨m1, m2⟩ := searchReceivedApply_marks e type result
    (searchReceivedCache e type result requestId s) hshape
  refine ⟨m1, m2, rfl, ?_⟩
  rintro ⟨c, rfl⟩
  show (searchReceivedApply e type _ _).log = _
  simp only [searchReceivedApply, markFull, Widget.emit]
  split_ifs <;> simp

/-- C19 (witness): the tracked request 5 is answered by `messagesNotModified`. -/
theorem C19_unexpected_shapes_complete_witness :
    (searchReceived sampleEnv SearchRequestType.FromStart
      (MTPmessages_Messages.messagesNotModified 0) 5 trackingFive)._searchFull = true
    ∧ (searchReceived sampleEnv SearchRequestType.FromStart
      (MTPmessages_Messages.messagesNotModified 0) 5 trackingFive)._searchRequest = 0
    ∧ (searchReceived sampleEnv SearchRequestType.FromStart
      (MTPmessages_Messages.messagesNotModified 0) 5 trackingFive).log
        = [Effect.logApiError] :=
  have h := C19_unexpected_shapes_complete sampleEnv SearchRequestType.FromStart
    (MTPmessages_Messages.messagesNotModified 0) 5 trackingFive rfl (Or.inr ⟨0, rfl⟩)
  ⟨h.2.1 rfl, h.2.2.1, h.2.2.2 ⟨0, rfl⟩⟩

/-! ## The lanes are decoupled in their handlers (C18) -/

/-- The member `onSearchMore` changes no member of the contact-search lane. -/
theorem onSearchMore_peerLane (e : Env) (s : Widget) :
    (onSearchMore e s).peerLane = s.peerLane := by
  unfold onSearchMore
  by_cases h1 : s._searchRequest = 0
  · by_cases h2 : s._searchFull = true
    · cases hm : s._searchInMigrated with
      | none => simp [h1, h2, hm]
      | some migrated =>
        by_cases h3 : s._searchFullMigrated = true
        · simp [h1, h2, hm, h3]
        · simp [h1, h2, hm, h3, MTP_send, Widget.peerLane]
    · by_cases h0 : e.inner.lastSearchId = 0
      · cases hp : s._searchInChat.peer <;>
          simp [h1, h2, h0, hp, MTP_send, Widget.peerLane]
      · cases hp : s._searchInChat.peer <;>
          simp [h1, h2, h0, hp, MTP_send, Widget.peerLane]
  · simp [h1]

/-- C18: the contact-search lane and the message-search lanes are decoupled in
their handlers. `peerSearchReceived` and `peopleFailed` change none of
`_searchRequest`, `_searchQuery`, `_searchQueryFrom`, `_searchNextRate`,
`_searchFull`, `_searchFullMigrated`, `_searchCache`, `_searchQueries`;
`searchReceived`, `searchFailed` and `onSearchMore` change none of
`_peerSearchRequest`, `_peerSearchQuery`, `_peerSearchFull`, `_peerSearchCache`,
`_peerSearchQueries`. -/
theorem C18_lanes_decoupled (e : Env) (type : SearchRequestType)
    (result : MTPmessages_Messages) (found : MTPcontacts_Found) (error : RPCError)
    (requestId : mtpRequestId) (s : Widget) :
    (peerSearchReceived e found requestId s).searchLane = s.searchLane
    ∧ (peopleFailed e error requestId s).1.searchLane = s.searchLane
    ∧ (searchReceived e type result requestId s).peerLane = s.peerLane
    ∧ (searchFailed e type error requestId s).1.peerLane = s.peerLane
    ∧ (onSearchMore e s).peerLane = s.peerLane := by
  refine ⟨(peerSearchReceived_frame e found requestId s).1, ?_,
    (searchReceived_frame e type result requestId s).2.2.2.2.2.1, ?_,
    onSearchMore_peerLane e s⟩
  · unfold peopleFailed
    split_ifs <;> rfl
  · unfold searchFailed markFull
    split_ifs <;> rfl

/-! ## The list view asks for a search (C20) -/

/-- With `searchCache`, `onSearchMessages` sends nothing. -/
theorem onSearchMessages_cached_sends (e : Env) (s : Widget) :
    sends (onSearchMessages e true s).1.log = sends s.log := by
  by_cases hq : trimmed s.filterText ≠ [] ∨ s._searchFromUser ≠ none
  · rw [onSearchMessages_of_query e true s hq]
    obtain ⟨-, -, -, -, -, -, -, -, -, -, -, p12, -⟩ :=
      onSearchMessagesPeers_frame e true (trimmed s.filterText)
        (onSearchMessagesMessages e true (trimmed s.filterText) s).2
        (onSearchMessagesMessages e true (trimmed s.filterText) s).1
    rw [(p12 rfl).1]
    exact onSearchMessagesMessages_cached_sends e _ s
  · have hg : (trimmed s.filterText).isEmpty = true ∧ s._searchFromUser = none := by
      constructor
      · by_contra h
        apply hq
        left
        intro h2
        rw [h2] at h
        exact h rfl
      · by_contra h
        exact hq (Or.inr h)
    unfold onSearchMessages
    simp only [hg, and_self, if_true]
    obtain ⟨-, -, -, -, -, -, -, -, -, c10⟩ := cancelTakeSearchRequest_frame s
    obtain ⟨-, -, -, -, -, -, -, -, -, d10⟩ :=
      cancelTakePeerSearchRequest_frame (cancelTakeSearchRequest s)
    rw [d10, c10]
    simp only [sends_append]
    have e1 : sends (if s._searchRequest = 0 then [] else [Effect.cancel s._searchRequest])
        = [] := by
      split_ifs <;> rfl
    have e2 : sends (if (cancelTakeSearchRequest s)._peerSearchRequest = 0 then []
        else [Effect.cancel (cancelTakeSearchRequest s)._peerSearchRequest]) = [] := by
      split_ifs <;> rfl
    rw [e1, e2]
    simp

/-- When `onSearchMessages(true)` returns false: the query is there and neither
cache serves it. -/
theorem onSearchMessages_cached_result (e : Env) (s : Widget) :
    (onSearchMessages e true s).2 = false
      ↔ (trimmed s.filterText ≠ [] ∨ s._searchFromUser ≠ none)
        ∧ s._searchCache.find (trimmed s.filterText) = none
        ∧ (searchForPeersRequired s (trimmed s.filterText) = false
          ∨ s._peerSearchCache.find (trimmed s.filterText) = none) := by
  by_cases hq : trimmed s.filterText ≠ [] ∨ s._searchFromUser ≠ none
  · rw [onSearchMessages_of_query e true s hq]
    simp only [hq, true_and]
    cases hfind : s._searchCache.find (trimmed s.filterText) with
    | some page =>
      have hm : (onSearchMessagesMessages e true (trimmed s.filterText) s).2 = true := by
        unfold onSearchMessagesMessages
        simp only [if_true, hfind]
      obtain ⟨-, -, -, -, -, -, -, -, -, -, -, -, p13⟩ :=
        onSearchMessagesPeers_frame e true (trimmed s.filterText)
          (onSearchMessagesMessages e true (trimmed s.filterText) s).2
          (onSearchMessagesMessages e true (trimmed s.filterText) s).1
      rw [p13 hm]
      simp
    | none =>
      have hm : onSearchMessagesMessages e true (trimmed s.filterText) s = (s, false) := by
        unfold onSearchMessagesMessages
        simp only [if_true, hfind]
      rw [hm]
      unfold onSearchMessagesPeers
      cases hreq : searchForPeersRequired s (trimmed s.filterText) with
      | false => simp
      | true =>
        cases hpf : s._peerSearchCache.find (trimmed s.filterText) with
        | none => simp [hpf]
        | some found => simp [hpf]
  · have hg : (trimmed s.filterText).isEmpty = true ∧ s._searchFromUser = none := by
      constructor
      · by_contra h
        apply hq
        left
        intro h2
        rw [h2] at h
        exact h rfl
      · by_contra h
        exact hq (Or.inr h)
    unfold onSearchMessages
    simp only [hg, and_self, if_true]
    constructor
    · intro h
      exact absurd h (by simp)
    · rintro ⟨h1, -⟩
      exfalso
      rcases h1 with h1 | h1
      · exact h1 (List.isEmpty_iff.mp hg.1)
      · exact h1 rfl

@[simp] theorem timerStarts_append (a b : List Effect) :
    timerStarts (a ++ b) = timerStarts a ++ timerStarts b := by
  simp [timerStarts, List.filterMap_append]

/-- The handler `searchReceived` does not touch the search timer. -/
theorem searchReceived_timerStarts (e : Env) (type : SearchRequestType)
    (result : MTPmessages_Messages) (requestId : mtpRequestId) (s : Widget) :
    timerStarts (searchReceived e type result requestId s).log = timerStarts s.log := by
  have happly : ∀ w : Widget,
      timerStarts (searchReceivedApply e type result w).log = timerStarts w.log := by
    intro w
    cases result <;>
      simp only [searchReceivedApply, markFull, processUnlessCached, Widget.emit] <;>
      (repeat' split) <;> simp [timerStarts]
  by_cases h : s._searchRequest = requestId
  · rw [searchReceived_of_eq e type result requestId s h]
    show timerStarts (searchReceivedApply e type result _).log = _
    rw [happly, searchReceivedCache_log]
  · rw [searchReceived_of_ne e type result requestId s h, searchReceivedCache_log]

/-- The handler `peerSearchReceived` does not touch the search timer. -/
theorem peerSearchReceived_timerStarts (e : Env) (found : MTPcontacts_Found)
    (requestId : mtpRequestId) (s : Widget) :
    timerStarts (peerSearchReceived e found requestId s).log = timerStarts s.log := by
  unfold peerSearchReceived
  by_cases hf : e.inner.state = WidgetState.Filtered
  · cases hq : s._peerSearchQueries.find requestId <;>
      by_cases hr : s._peerSearchRequest = requestId <;>
      simp [hf, hq, hr, Widget.emit, timerStarts]
  · by_cases hr : s._peerSearchRequest = requestId <;>
      simp [hf, hr, Widget.emit, timerStarts]

/-- The member `onSearchMessages` does not touch the search timer. -/
theorem onSearchMessages_timerStarts (e : Env) (s : Widget) :
    timerStarts (onSearchMessages e true s).1.log = timerStarts s.log := by
  have hcancel : ∀ r : mtpRequestId,
      timerStarts (if r = 0 then [] else [Effect.cancel r]) = [] := by
    intro r
    split_ifs <;> rfl
  by_cases hq : trimmed s.filterText ≠ [] ∨ s._searchFromUser ≠ none
  · rw [onSearchMessages_of_query e true s hq]
    have hm : timerStarts (onSearchMessagesMessages e true (trimmed s.filterText) s).1.log
        = timerStarts s.log := by
      unfold onSearchMessagesMessages
      simp only [if_true]
      split
      · dsimp only
        rw [searchReceived_timerStarts]
        obtain ⟨-, -, -, -, -, -, -, -, -, c10⟩ :=
          cancelTakeSearchRequest_frame (startQuery (trimmed s.filterText) s)
        rw [c10, timerStarts_append, hcancel]
        simp [startQuery]
      · rfl
    rw [← hm]
    generalize (onSearchMessagesMessages e true (trimmed s.filterText) s).1 = w
    generalize (onSearchMessagesMessages e true (trimmed s.filterText) s).2 = b
    unfold onSearchMessagesPeers
    simp only [if_true]
    by_cases hreq : searchForPeersRequired w (trimmed s.filterText) = true
    · simp only [hreq, if_true]
      split
      · dsimp only
        rw [peerSearchReceived_timerStarts]
      · rfl
    · simp only [hreq, Bool.false_eq_true, if_false]
      rw [peerSearchReceived_timerStarts]
  · have hg : (trimmed s.filterText).isEmpty = true ∧ s._searchFromUser = none := by
      constructor
      · by_contra h
        apply hq
        left
        intro h2
        rw [h2] at h
        exact h rfl
      · by_contra h
        exact hq (Or.inr h)
    unfold onSearchMessages
    simp only [hg, and_self, if_true]
    obtain ⟨-, -, -, -, -, -, -, -, -, c10⟩ := cancelTakeSearchRequest_frame s
    obtain ⟨-, -, -, -, -, -, -, -, -, d10⟩ :=
      cancelTakePeerSearchRequest_frame (cancelTakeSearchRequest s)
    rw [d10, c10, timerStarts_append, timerStarts_append, hcancel, hcancel]
    simp

/-- C20: a text edit never sends a request directly. `onSearchMessages(true)` and
`onNeedSearchMessages` send nothing in any state. `onNeedSearchMessages` starts the
search timer (with `AutoSearchTimeout`) exactly when `onSearchMessages(true)`
returns false, and does nothing else after that call. `onSearchMessages(true)`
returns false exactly when the trimmed query is non-empty or a sender filter is
set, the query is not a key of `_searchCache`, and contact search is not required
or the query is not a key of `_peerSearchCache`. -/
theorem C20_need_search_never_sends (e : Env) (s : Widget) :
    sends (onSearchMessages e true s).1.log = sends s.log
    ∧ sends (onNeedSearchMessages e s).log = sends s.log
    ∧ timerStarts (onNeedSearchMessages e s).log
        = timerStarts s.log ++
          (if (onSearchMessages e true s).2 = false then [e.AutoSearchTimeout] else [])
    ∧ ((onSearchMessages e true s).2 = false →
        onNeedSearchMessages e s
          = (onSearchMessages e true s).1.emit (Effect.searchTimerStart e.AutoSearchTimeout))
    ∧ ((onSearchMessages e true s).2 = true →
        onNeedSearchMessages e s = (onSearchMessages e true s).1)
    ∧ ((onSearchMessages e true s).2 = false
        ↔ (trimmed s.filterText ≠ [] ∨ s._searchFromUser ≠ none)
          ∧ s._searchCache.find (trimmed s.filterText) = none
          ∧ (searchForPeersRequired s (trimmed s.filterText) = false
            ∨ s._peerSearchCache.find (trimmed s.filterText) = none)) := by
  have hs := onSearchMessages_cached_sends e s
  have ht := onSearchMessages_timerStarts e s
  refine ⟨hs, ?_, ?_, ?_, ?_, onSearchMessages_cached_result e s⟩
  · unfold onNeedSearchMessages
    dsimp only
    cases hr : (onSearchMessages e true s).2
    · show sends ((onSearchMessages e true s).1.log ++ [_]) = _
      rw [sends_append, hs]
      simp [sends]
    · exact hs
  · unfold onNeedSearchMessages
    dsimp only
    cases hr : (onSearchMessages e true s).2
    · show timerStarts ((onSearchMessages e true s).1.log ++ [_]) = _
      rw [timerStarts_append, ht]
      simp [timerStarts]
    · show timerStarts (onSearchMessages e true s).1.log = _
      rw [ht]
      simp
  · intro hr
    unfold onNeedSearchMessages
    simp [hr]
  · intro hr
    unfold onNeedSearchMessages
    simp [hr]

/-- C20 (witness): "abc" is in the filter field and nothing is cached;
`onNeedSearchMessages` sends nothing and starts the timer. -/
theorem C20_need_search_never_sends_witness :
    (onSearchMessages sampleEnv true abcUncached).2 = false
    ∧ sends (onNeedSearchMessages sampleEnv abcUncached).log = []
    ∧ timerStarts (onNeedSearchMessages sampleEnv abcUncached).log = [900] :=
  have h := C20_need_search_never_sends sampleEnv abcUncached
  ⟨h.2.2.2.2.2.mpr ⟨Or.inl (by decide), by decide, Or.inr (by decide)⟩, h.2.1, h.2.2.1⟩

/-! ## The scope members (C21, C22, C23) -/

theorem Widget.scope_eq {s s1 : Widget} (h1 : s1._searchInChat = s._searchInChat)
    (h2 : s1._searchInMigrated = s._searchInMigrated)
    (h3 : s1._searchFromUser = s._searchFromUser) : s1.scope = s.scope := by
  simp [Widget.scope, h1, h2, h3]

theorem ScopeOk.of_scope {s s1 : Widget} (h : ScopeOk s) (hs : s1.scope = s.scope) :
    ScopeOk s1 := by
  simp only [Widget.scope, Scope.mk.injEq] at hs
  unfold ScopeOk
  rw [hs.1, hs.2.2]
  exact h

section scopeFrames

variable (e : Env) (s : Widget)

theorem searchReceived_scope (type : SearchRequestType) (result : MTPmessages_Messages)
    (requestId : mtpRequestId) : (searchReceived e type result requestId s).scope = s.scope := by
  have hcache : (searchReceivedCache e type result requestId s).scope = s.scope := by
    unfold searchReceivedCache
    split_ifs
    · split <;> rfl
    · rfl
    · rfl
  have happly : ∀ w : Widget, (searchReceivedApply e type result w).scope = w.scope := by
    intro w
    cases result <;>
      simp only [searchReceivedApply, markFull, processUnlessCached, Widget.emit] <;>
      (repeat' split) <;> rfl
  by_cases h : s._searchRequest = requestId
  · rw [searchReceived_of_eq e type result requestId s h]
    exact (happly _).trans hcache
  · rw [searchReceived_of_ne e type result requestId s h]
    exact hcache

theorem peerSearchReceived_scope (found : MTPcontacts_Found) (requestId : mtpRequestId) :
    (peerSearchReceived e found requestId s).scope = s.scope := by
  obtain ⟨-, p2, p3, p4, -⟩ := peerSearchReceived_frame e found requestId s
  exact Widget.scope_eq p2 p3 p4

theorem searchFailed_scope (type : SearchRequestType) (error : RPCError)
    (requestId : mtpRequestId) : (searchFailed e type error requestId s).1.scope = s.scope := by
  unfold searchFailed markFull
  split_ifs <;> rfl

theorem peopleFailed_scope (error : RPCError) (requestId : mtpRequestId) :
    (peopleFailed e error requestId s).1.scope = s.scope := by
  unfold peopleFailed
  split_ifs <;> rfl

theorem cancelTakeSearchRequest_scope : (cancelTakeSearchRequest s).scope = s.scope := by
  obtain ⟨-, -, c3, c4, c5, -⟩ := cancelTakeSearchRequest_frame s
  exact Widget.scope_eq c3 c4 c5

theorem cancelTakePeerSearchRequest_scope :
    (cancelTakePeerSearchRequest s).scope = s.scope := by
  obtain ⟨-, -, c3, c4, c5, -⟩ := cancelTakePeerSearchRequest_frame s
  exact Widget.scope_eq c3 c4 c5

theorem sendFirstPage_scope : (sendFirstPage e s).scope = s.scope := by
  obtain ⟨-, -, c3, c4, c5, -⟩ := sendFirstPage_frame e s
  exact Widget.scope_eq c3 c4 c5

theorem onSearchMessagesMessages_scope (searchCache : Bool) (q : QString) :
    (onSearchMessagesMessages e searchCache q s).1.scope = s.scope := by
  unfold onSearchMessagesMessages
  split_ifs
  · split
    · dsimp only
      rw [searchReceived_scope, cancelTakeSearchRequest_scope]
      rfl
    · rfl
  · dsimp only
    show (sendFirstPage e _).scope = _
    rw [sendFirstPage_scope, cancelTakeSearchRequest_scope]
    rfl
  · rfl

theorem onSearchMessagesPeers_scope (searchCache : Bool) (q : QString) (result : Bool) :
    (onSearchMessagesPeers e searchCache q result s).1.scope = s.scope := by
  obtain ⟨-, p2, p3, p4, -⟩ := onSearchMessagesPeers_frame e searchCache q result s
  exact Widget.scope_eq p2 p3 p4

theorem onSearchMessages_scope (searchCache : Bool) :
    (onSearchMessages e searchCache s).1.scope = s.scope := by
  unfold onSearchMessages
  dsimp only
  split_ifs
  · rw [cancelTakePeerSearchRequest_scope, cancelTakeSearchRequest_scope]
  · rw [onSearchMessagesPeers_scope, onSearchMessagesMessages_scope]

theorem onNeedSearchMessages_scope : (onNeedSearchMessages e s).scope = s.scope := by
  unfold onNeedSearchMessages
  dsimp only
  split_ifs
  · exact onSearchMessages_scope e s true
  · exact onSearchMessages_scope e s true

theorem onSearchMore_scope : (onSearchMore e s).scope = s.scope := by
  unfold onSearchMore
  by_cases h1 : s._searchRequest = 0
  · by_cases h2 : s._searchFull = true
    · cases hm : s._searchInMigrated with
      | none => simp [h1, h2, hm]
      | some migrated =>
        by_cases h3 : s._searchFullMigrated = true
        · simp [h1, h2, hm, h3]
        · simp [h1, h2, hm, h3, MTP_send, Widget.scope]
    · by_cases h0 : e.inner.lastSearchId = 0
      · cases hp : s._searchInChat.peer <;>
          simp [h1, h2, h0, hp, MTP_send, Widget.scope]
      · cases hp : s._searchInChat.peer <;>
          simp [h1, h2, h0, hp, MTP_send, Widget.scope]
  · simp [h1]

theorem loadMoreCallback_scope : (loadMoreCallback e s).scope = s.scope := by
  unfold loadMoreCallback
  split_ifs
  · exact onSearchMore_scope e s
  · rfl
  · rfl

theorem clearSearchCache_scope : (clearSearchCache s).scope = s.scope := by
  unfold clearSearchCache
  dsimp only
  rw [cancelTakeSearchRequest_scope]
  rfl

theorem showSearchFrom_scope : (showSearchFrom s).scope = s.scope := by
  unfold showSearchFrom
  split <;> rfl

theorem clearSearchCache_text : (clearSearchCache s).filterText = s.filterText
    ∧ (clearSearchCache s)._lastFilterText = s._lastFilterText :=
  ⟨(clearSearchCache_cleared s).2.2.2.2.2.1, (clearSearchCache_cleared s).2.2.2.2.2.2⟩

theorem showSearchFrom_text : (showSearchFrom s).filterText = s.filterText := by
  unfold showSearchFrom
  split <;> rfl

theorem applyFilterUpdate_scope (force : Bool) :
    (applyFilterUpdate e force s).scope = s.scope
    ∧ (applyFilterUpdate e force s).filterText = s.filterText := by
  have c1 : ∀ w : Widget, (clearSearchCache w)._searchInChat = w._searchInChat := fun w => by
    have h := clearSearchCache_scope w
    simp only [Widget.scope, Scope.mk.injEq] at h
    exact h.1
  have c2 : ∀ w : Widget, (clearSearchCache w)._searchInMigrated = w._searchInMigrated :=
    fun w => by
      have h := clearSearchCache_scope w
      simp only [Widget.scope, Scope.mk.injEq] at h
      exact h.2.1
  have c3 : ∀ w : Widget, (clearSearchCache w)._searchFromUser = w._searchFromUser := fun w => by
    have h := clearSearchCache_scope w
    simp only [Widget.scope, Scope.mk.injEq] at h
    exact h.2.2
  have c4 : ∀ w : Widget, (clearSearchCache w).filterText = w.filterText :=
    fun w => (clearSearchCache_text w).1
  have d1 : ∀ w : Widget, (showSearchFrom w)._searchInChat = w._searchInChat := fun w => by
    have h := showSearchFrom_scope w
    simp only [Widget.scope, Scope.mk.injEq] at h
    exact h.1
  have d2 : ∀ w : Widget, (showSearchFrom w)._searchInMigrated = w._searchInMigrated :=
    fun w => by
      have h := showSearchFrom_scope w
      simp only [Widget.scope, Scope.mk.injEq] at h
      exact h.2.1
  have d3 : ∀ w : Widget, (showSearchFrom w)._searchFromUser = w._searchFromUser := fun w => by
    have h := showSearchFrom_scope w
    simp only [Widget.scope, Scope.mk.injEq] at h
    exact h.2.2
  have d4 : ∀ w : Widget, (showSearchFrom w).filterText = w.filterText :=
    fun w => showSearchFrom_text w
  unfold applyFilterUpdate
  dsimp only
  split_ifs <;>
    simp only [Widget.scope, Scope.mk.injEq, c1, c2, c3, c4, d1, d2, d3, d4, Widget.emit,
      and_self]

theorem filterChanged_scope (text : QString) (cursor : Int) :
    (filterChanged e text cursor s).scope = s.scope := by
  unfold filterChanged
  rw [(applyFilterUpdate_scope e _ false).1]
  rfl

theorem fullSearchRefresh_scope : (fullSearchRefresh e s).scope = s.scope := by
  unfold fullSearchRefresh
  split_ifs
  · dsimp only
    rw [onSearchMessages_scope]
    rfl
  · rfl

theorem searchMessagesStart_scope (query : QString) :
    (searchMessagesStart e query s).scope = s.scope := by
  unfold searchMessagesStart
  dsimp only
  show ((onSearchMessages e false _).1).scope = _
  rw [onSearchMessages_scope]
  show (applyFilterUpdate e true _).scope = _
  rw [(applyFilterUpdate_scope e _ true).1]
  rfl

theorem cancelSearchRequest_scope : (cancelSearchRequest s).scope = s.scope := by
  rw [cancelSearchRequest_eq]
  exact cancelTakeSearchRequest_scope s

theorem showScopeHistory_scope (oneColumn : Bool) :
    (showScopeHistory oneColumn s).scope = s.scope := by
  unfold showScopeHistory
  split <;> rfl

theorem clearFilterAndUpdate_scope : (clearFilterAndUpdate e s).scope = s.scope := by
  unfold clearFilterAndUpdate
  dsimp only
  rw [(applyFilterUpdate_scope e _ false).1]
  rfl

theorem onCancelSearchInChatFinish_scope :
    (onCancelSearchInChatFinish e s).scope = s.scope := by
  unfold onCancelSearchInChatFinish
  dsimp only
  split_ifs
  · exact clearFilterAndUpdate_scope e s
  · exact clearFilterAndUpdate_scope e s

end scopeFrames

/-- The scope members after lines 1271-1285 of `setSearchInChat`. -/
theorem setSearchInChatStore_scope (chat : Key) (fromUser : Option UserId) (s : Widget) :
    (setSearchInChatStore chat fromUser s).scope
      = ⟨chat, s._searchInMigrated, storedFromUser chat fromUser s⟩ := by
  obtain ⟨t1, t2, -⟩ := setSearchInChatStore_spec chat fromUser s
  have hm : (setSearchInChatStore chat fromUser s)._searchInMigrated = s._searchInMigrated := by
    rw [setSearchInChatStore_eq]
    split_ifs
    · have h := clearSearchCache_scope
        { s with _searchInChat := chat, _searchFromUser := storedFromUser chat fromUser s }
      simp only [Widget.scope, Scope.mk.injEq] at h
      exact h.2.1
    · rfl
  simp only [Widget.scope, Scope.mk.injEq]
  exact ⟨t1, hm, t2⟩

/-- The scope members after a returning `onCancelSearch`: dropped when there is
a scope and the filter field is empty, kept otherwise. -/
theorem onCancelSearch_scope (e : Env) (fuel : Nat) (s : Widget) (r : Widget × Bool)
    (h : onCancelSearch e fuel s = Except.ok r) :
    ((s._searchInChat.toBool = true ∧ s.filterText = []) → r.1.scope = ⟨Key.empty, none, none⟩)
    ∧ (¬ (s._searchInChat.toBool = true ∧ s.filterText = []) → r.1.scope = s.scope) := by
  cases fuel with
  | zero => simp [onCancelSearch] at h
  | succ fuel =>
    rw [onCancelSearch] at h
    dsimp only at h
    have hc := cancelSearchRequest_scope s
    have hc1 : (cancelSearchRequest s)._searchInChat = s._searchInChat := by
      simp only [Widget.scope, Scope.mk.injEq] at hc
      exact hc.1
    have htext : ((!s.filterText.isEmpty) = false) ↔ s.filterText = [] := by
      cases s.filterText <;> simp
    rw [← hc1]
    generalize cancelSearchRequest s = c at h hc hc1
    by_cases hcond : c._searchInChat.toBool = true ∧ (!s.filterText.isEmpty) = false
    · simp only [hcond, and_self, if_true] at h
      split_ifs at h
      have hw := showScopeHistory_scope c e.oneColumn
      generalize showScopeHistory e.oneColumn c = c1s at h hw
      cases fuel with
      | zero => simp [setSearchInChat] at h
      | succ fuel =>
        rw [setSearchInChat_empty] at h
        simp only [Except.ok.injEq] at h
        subst h
        refine ⟨fun _ => ?_, fun hn => absurd ⟨hcond.1, htext.mp hcond.2⟩ hn⟩
        show (clearFilterAndUpdate e _).scope = _
        rw [clearFilterAndUpdate_scope, setSearchInChatStore_scope, storedFromUser_empty]
    · simp only [hcond, if_false, Except.ok.injEq] at h
      subst h
      refine ⟨fun hy => absurd ⟨hy.1, htext.mpr hy.2⟩ hcond, fun _ => ?_⟩
      show (clearFilterAndUpdate e _).scope = _
      rw [clearFilterAndUpdate_scope, hc]

/-- The key the recursion of `setSearchInChat` arrives at is not a folder and its
peer has no `migrateTo`. -/
theorem resolvedScope_spec (e : Env) : ∀ (fuel : Nat) (chat k : Key),
    resolvedScope e fuel chat = some k → k.folder = none ∧ k.peer.bind e.migrateTo = none := by
  intro fuel
  induction fuel with
  | zero =>
    intro chat k h
    simp [resolvedScope] at h
  | succ fuel ih =>
    intro chat k h
    rw [resolvedScope] at h
    have hfolder : (if chat.folder.isSome = true then Key.empty else chat).folder = none := by
      cases chat <;> simp [Key.folder]
    generalize (if chat.folder.isSome = true then Key.empty else chat) = chat1 at h hfolder
    cases hmt : chat1.peer.bind e.migrateTo with
    | some mt =>
      simp only [hmt] at h
      exact ih _ _ h
    | none =>
      simp only [hmt, Option.some.injEq] at h
      subst h
      exact ⟨hfolder, hmt⟩

/-- A folder key resolves to the empty key, a conversation whose peer was
migrated to a peer that was not migrated resolves to the history of that peer,
and a conversation whose peer was not migrated resolves to itself. -/
theorem resolvedScope_cases (e : Env) (fuel : Nat) (chat k : Key)
    (h : resolvedScope e fuel chat = some k) :
    (chat.folder ≠ none → k = Key.empty)
    ∧ (∀ p mt, chat = Key.ofHistory p → e.migrateTo p = some mt → e.migrateTo mt = none →
        k = Key.ofHistory mt)
    ∧ (chat.peer.bind e.migrateTo = none → chat.folder = none → k = chat) := by
  cases fuel with
  | zero => simp [resolvedScope] at h
  | succ fuel =>
    rw [resolvedScope] at h
    refine ⟨?_, ?_, ?_⟩
    · intro hf
      cases chat with
      | empty => simp [Key.folder] at hf
      | ofHistory p => simp [Key.folder] at hf
      | ofFolder f =>
        simp [Key.folder, Key.peer] at h
        exact h.symm
    · intro p mt hc hmt hmt2
      subst hc
      have h1 : resolvedScope e fuel (Key.ofHistory mt) = some k := by
        simpa [Key.folder, Key.peer, hmt] using h
      cases fuel with
      | zero => simp [resolvedScope] at h1
      | succ fuel =>
        have h2 : some (Key.ofHistory mt) = some k := by
          simpa [resolvedScope, Key.folder, Key.peer, hmt2] using h1
        exact (Option.some.inj h2).symm
    · intro hm hf
      have hc : (if chat.folder.isSome = true then Key.empty else chat) = chat := by
        simp [hf]
      rw [hc] at h
      simp only [hm, Option.some.injEq] at h
      exact h.symm

/-- The scope members after a returning `setSearchInChat`: the resolved key with
the stored sender and the migrated history of its peer, or, when the call ended
in `onCancelSearch` with an empty filter field, no scope at all. -/
theorem setSearchInChat_scope (e : Env) : ∀ (fuel : Nat) (chat : Key)
    (fromUser : Option UserId) (s s1 : Widget),
    setSearchInChat e fuel chat fromUser s = Except.ok s1 →
    ∃ k, resolvedScope e fuel chat = some k
      ∧ (s1.scope = ⟨k, k.peer.bind e.migrateFrom, storedFromUser k fromUser s⟩
        ∨ (s1.scope = ⟨Key.empty, none, none⟩
          ∧ storedFromUser k fromUser s ≠ none
          ∧ s._lastFilterText = SwitchToChooseFromQuery
          ∧ s.filterText = [])) := by
  intro fuel
  induction fuel with
  | zero =>
    intro chat fromUser s s1 h
    simp [setSearchInChat] at h
  | succ fuel ih =>
    intro chat fromUser s s1 h
    rw [setSearchInChat] at h
    dsimp only at h
    rw [resolvedScope]
    generalize (if chat.folder.isSome = true then Key.empty else chat) = chat1 at h
    cases hmt : chat1.peer.bind e.migrateTo with
    | some mt =>
      simp only [hmt] at h
      exact ih _ _ { s with _searchInMigrated := none } _ h
    | none =>
      simp only [hmt] at h
      refine ⟨chat1, rfl, ?_⟩
      have hmig : (setSearchInMigrated e chat1 { s with _searchInMigrated := none }).scope
          = ⟨s._searchInChat, chat1.peer.bind e.migrateFrom, s._searchFromUser⟩ := by
        unfold setSearchInMigrated
        split
        · rename_i mf hmf
          simp [Widget.scope, hmf]
        · rename_i hmf
          simp [Widget.scope, hmf]
      obtain ⟨m1, m2, m3, m4, m5, m6⟩ :=
        setSearchInMigrated_spec e chat1 { s with _searchInMigrated := none }
      have hst := setSearchInChatStore_scope chat1 fromUser
        (setSearchInMigrated e chat1 { s with _searchInMigrated := none })
      obtain ⟨-, -, t3, t4, -⟩ := setSearchInChatStore_spec chat1 fromUser
        (setSearchInMigrated e chat1 { s with _searchInMigrated := none })
      have hsf : storedFromUser chat1 fromUser
          (setSearchInMigrated e chat1 { s with _searchInMigrated := none })
          = storedFromUser chat1 fromUser s := by
        unfold storedFromUser
        rw [m3]
      simp only [Widget.scope, Scope.mk.injEq] at hmig
      rw [hsf, hmig.2.1] at hst
      rw [m5] at t3
      rw [m6] at t4
      generalize setSearchInChatStore chat1 fromUser
        (setSearchInMigrated e chat1 { s with _searchInMigrated := none }) = t at h hst t3 t4
      have hts : t._searchFromUser = storedFromUser chat1 fromUser s := by
        simp only [Widget.scope, Scope.mk.injEq] at hst
        exact hst.2.2
      have htk : t._searchInChat = chat1 := by
        simp only [Widget.scope, Scope.mk.injEq] at hst
        exact hst.1
      by_cases hcond : t._searchFromUser.isSome = true ∧ t._lastFilterText = SwitchToChooseFromQuery
      · simp only [hcond, and_self, if_true] at h
        cases hoc : onCancelSearch e fuel t with
        | error err => simp [hoc] at h
        | ok r =>
          simp only [hoc, Except.ok.injEq] at h
          subst h
          obtain ⟨o1, o2⟩ := onCancelSearch_scope e fuel t r hoc
          by_cases hbr : t._searchInChat.toBool = true ∧ t.filterText = []
          · right
            refine ⟨o1 hbr, ?_, ?_, ?_⟩
            · rw [← hts]
              intro hn
              rw [hn] at hcond
              exact absurd hcond.1 (by simp)
            · exact t4.symm.trans hcond.2
            · exact t3.symm.trans hbr.2
          · left
            rw [o2 hbr]
            exact hst
      · simp only [hcond, if_false, Except.ok.injEq] at h
        subst h
        left
        exact hst

/-- A returning `setSearchInChat` leaves the scope invariant, whatever the state
it started from. -/
theorem scopeOk_setSearchInChat (e : Env) (fuel : Nat) (chat : Key)
    (fromUser : Option UserId) (s s1 : Widget)
    (h : setSearchInChat e fuel chat fromUser s = Except.ok s1) : ScopeOk s1 := by
  obtain ⟨k, hk, hsc⟩ := setSearchInChat_scope e fuel chat fromUser s s1 h
  obtain ⟨kf, -⟩ := resolvedScope_spec e fuel chat k hk
  unfold ScopeOk
  rcases hsc with hsc | ⟨hsc, -⟩
  · simp only [Widget.scope, Scope.mk.injEq] at hsc
    rw [hsc.1, hsc.2.2]
    refine ⟨kf, fun hne hke => ?_⟩
    obtain ⟨-, hb, -⟩ := storedFromUser_some k fromUser s hne
    rw [hke] at hb
    simp [Key.toBool] at hb
  · simp only [Widget.scope, Scope.mk.injEq] at hsc
    rw [hsc.1, hsc.2.2]
    exact ⟨rfl, fun hne => absurd rfl hne⟩

/-- A returning `onCancelSearch` keeps the scope invariant. -/
theorem scopeOk_onCancelSearch {s : Widget} (hs : ScopeOk s) (e : Env) (fuel : Nat)
    (r : Widget × Bool) (h : onCancelSearch e fuel s = Except.ok r) : ScopeOk r.1 := by
  obtain ⟨o1, o2⟩ := onCancelSearch_scope e fuel s r h
  by_cases hbr : s._searchInChat.toBool = true ∧ s.filterText = []
  · have hsc := o1 hbr
    simp only [Widget.scope, Scope.mk.injEq] at hsc
    unfold ScopeOk
    rw [hsc.1, hsc.2.2]
    exact ⟨rfl, fun hne => absurd rfl hne⟩
  · exact hs.of_scope (o2 hbr)

/-- The call `onCancelSearch()` never reaches `Unexpected` when the scope is not a
folder. -/
theorem onCancelSearch_not_unexpected (e : Env) (fuel : Nat) (s : Widget)
    (hk : s._searchInChat.folder = none) (message : String) :
    onCancelSearch e fuel s ≠ Except.error (Failure.unexpected message) := by
  cases fuel with
  | zero => simp [onCancelSearch]
  | succ fuel =>
    cases fuel with
    | succ fuel =>
      obtain ⟨r, hr⟩ := onCancelSearch_returns e fuel s hk
      rw [hr]
      simp
    | zero =>
      rw [onCancelSearch]
      dsimp only
      obtain ⟨-, -, -, c4, -⟩ := cancelSearchRequest_spec s
      generalize cancelSearchRequest s = c at c4
      by_cases hcond : c._searchInChat.toBool = true ∧ (!s.filterText.isEmpty) = false
      · have hpeer : c._searchInChat.peer ≠ none := by
          rw [c4]
          rw [c4] at hcond
          cases hsc : s._searchInChat with
          | empty => rw [hsc] at hcond; simp [Key.toBool] at hcond
          | ofHistory p => simp [Key.peer]
          | ofFolder f => rw [hsc] at hk; simp [Key.folder] at hk
        simp only [hcond, and_self, if_true, hpeer, and_false, if_false]
        simp [setSearchInChat]
      · simp only [hcond, if_false]
        simp

/-- The call `setSearchInChat(chat, from)` never reaches `Unexpected`. -/
theorem setSearchInChat_not_unexpected (e : Env) : ∀ (fuel : Nat) (chat : Key)
    (fromUser : Option UserId) (s : Widget) (message : String),
    setSearchInChat e fuel chat fromUser s ≠ Except.error (Failure.unexpected message) := by
  intro fuel
  induction fuel with
  | zero =>
    intro chat fromUser s message
    simp [setSearchInChat]
  | succ fuel ih =>
    intro chat fromUser s message
    rw [setSearchInChat]
    dsimp only
    have hfolder : (if chat.folder.isSome = true then Key.empty else chat).folder = none := by
      cases chat <;> simp [Key.folder]
    generalize (if chat.folder.isSome = true then Key.empty else chat) = chat1 at hfolder
    cases hmt : chat1.peer.bind e.migrateTo with
    | some mt =>
      simp only [hmt]
      exact ih _ _ _ _
    | none =>
      simp only [hmt]
      obtain ⟨t1, -⟩ := setSearchInChatStore_spec chat1 fromUser
        (setSearchInMigrated e chat1 { s with _searchInMigrated := none })
      generalize setSearchInChatStore chat1 fromUser
        (setSearchInMigrated e chat1 { s with _searchInMigrated := none }) = t at t1
      split_ifs
      · have hn := onCancelSearch_not_unexpected e fuel t (by rw [t1]; exact hfolder) message
        cases hoc : onCancelSearch e fuel t with
        | error err =>
          simp only [hoc, ne_eq, Except.error.injEq] at hn ⊢
          exact hn
        | ok r => simp
      · simp

/-- The call `setSearchInChat(chat, from)` returns when the `migrateTo` chain of
`chat` ends within `fuel` steps. -/
theorem setSearchInChat_returns_resolved (e : Env) : ∀ (fuel : Nat) (chat k : Key)
    (fromUser : Option UserId) (s : Widget), resolvedScope e fuel chat = some k →
    ∃ s1, setSearchInChat e (fuel + 2) chat fromUser s = Except.ok s1 := by
  intro fuel
  induction fuel with
  | zero =>
    intro chat k fromUser s h
    simp [resolvedScope] at h
  | succ fuel ih =>
    intro chat k fromUser s h
    rw [resolvedScope] at h
    rw [setSearchInChat]
    dsimp only
    have hfolder : (if chat.folder.isSome = true then Key.empty else chat).folder = none := by
      cases chat <;> simp [Key.folder]
    generalize (if chat.folder.isSome = true then Key.empty else chat) = chat1 at h hfolder
    cases hmt : chat1.peer.bind e.migrateTo with
    | some mt =>
      simp only [hmt] at h ⊢
      exact ih _ _ _ _ h
    | none =>
      simp only [hmt]
      obtain ⟨t1, -⟩ := setSearchInChatStore_spec chat1 fromUser
        (setSearchInMigrated e chat1 { s with _searchInMigrated := none })
      generalize setSearchInChatStore chat1 fromUser
        (setSearchInMigrated e chat1 { s with _searchInMigrated := none }) = t at t1
      split_ifs
      · obtain ⟨r, hr⟩ := onCancelSearch_returns e fuel t (by rw [t1]; exact hfolder)
        rw [hr]
        exact ⟨_, rfl⟩
      · exact ⟨_, rfl⟩

/-- A returning `onCancelSearchInChat` keeps the scope invariant. -/
theorem scopeOk_onCancelSearchInChat {s : Widget} (hs : ScopeOk s) (e : Env) (fuel : Nat)
    (s1 : Widget) (h : onCancelSearchInChat e fuel s = Except.ok s1) : ScopeOk s1 := by
  unfold onCancelSearchInChat at h
  dsimp only at h
  have hc := hs.of_scope (cancelSearchRequest_scope s)
  generalize cancelSearchRequest s = c at h hc
  split_ifs at h
  · generalize showScopeHistory (e.oneColumn && !e.selectingPeer) c = c1 at h
    cases hsc : setSearchInChat e fuel Key.empty none c1 with
    | error f => simp [hsc] at h
    | ok s2 =>
      simp only [hsc, Except.ok.injEq] at h
      subst h
      exact (scopeOk_setSearchInChat e fuel _ _ _ _ hsc).of_scope
        (onCancelSearchInChatFinish_scope e s2)
  · simp only [Except.ok.injEq] at h
    subst h
    exact hc.of_scope (onCancelSearchInChatFinish_scope e c)

/-- A returning `searchInChat` leaves the scope invariant. -/
theorem scopeOk_searchInChat (e : Env) (fuel : Nat) (chat : Key) (s s1 : Widget)
    (h : searchInChat e fuel chat s = Except.ok s1) : ScopeOk s1 := by
  unfold searchInChat at h
  cases hoc : onCancelSearch e fuel s with
  | error f => simp [hoc] at h
  | ok r =>
    simp only [hoc] at h
    cases hsc : setSearchInChat e fuel chat none r.1 with
    | error f => simp [hsc] at h
    | ok s2 =>
      simp only [hsc, Except.ok.injEq] at h
      subst h
      exact (scopeOk_setSearchInChat e fuel _ _ _ _ hsc).of_scope
        (applyFilterUpdate_scope e s2 true).1

/-- A returning `searchMessages` keeps the scope invariant. -/
theorem scopeOk_searchMessages {s : Widget} (hs : ScopeOk s) (e : Env) (fuel : Nat)
    (query : QString) (inChat : Key) (s1 : Widget)
    (h : searchMessages e fuel query inChat s = Except.ok s1) : ScopeOk s1 := by
  unfold searchMessages at h
  split_ifs at h
  · cases hoc : onCancelSearch e fuel s with
    | error f => simp [hoc] at h
    | ok r =>
      simp only [hoc] at h
      cases hsc : setSearchInChat e fuel inChat none r.1 with
      | error f => simp [hsc] at h
      | ok s2 =>
        simp only [hsc, Except.ok.injEq] at h
        subst h
        exact (scopeOk_setSearchInChat e fuel _ _ _ _ hsc).of_scope
          (searchMessagesStart_scope e s2 query)
  · simp only [Except.ok.injEq] at h
    subst h
    exact hs.of_scope (searchMessagesStart_scope e s query)
  · simp only [Except.ok.injEq] at h
    subst h
    exact hs

/-- A returning sender choice leaves the scope invariant. -/
theorem scopeOk_searchFromUserChosen (e : Env) (fuel : Nat) (chat : Key)
    (user : Option UserId) (s s1 : Widget)
    (h : searchFromUserChosen e fuel chat user s = Except.ok s1) : ScopeOk s1 := by
  unfold searchFromUserChosen at h
  cases hsc : setSearchInChat e fuel chat user s with
  | error f => simp [hsc] at h
  | ok s2 =>
    simp only [hsc, Except.ok.injEq] at h
    subst h
    exact (scopeOk_setSearchInChat e fuel _ _ _ _ hsc).of_scope
      (applyFilterUpdate_scope e s2 true).1

/-- Every event keeps the scope invariant. -/
theorem scopeOk_fire {s s1 : Widget} (h : ScopeOk s) (e : Env) (fuel : Nat)
    (ev : Event) (hr : fire e fuel ev s = some s1) : ScopeOk s1 := by
  cases ev with
  | filterChanged text cursor =>
    simp only [fire, Option.some.injEq] at hr
    subst hr
    exact h.of_scope (filterChanged_scope e s text cursor)
  | onSearchMessages searchCache =>
    simp only [fire, Option.some.injEq] at hr
    subst hr
    exact h.of_scope (onSearchMessages_scope e s searchCache)
  | onNeedSearchMessages =>
    simp only [fire, Option.some.injEq] at hr
    subst hr
    exact h.of_scope (onNeedSearchMessages_scope e s)
  | onSearchMore =>
    simp only [fire, Option.some.injEq] at hr
    subst hr
    exact h.of_scope (onSearchMore_scope e s)
  | loadMoreCallback =>
    simp only [fire, Option.some.injEq] at hr
    subst hr
    exact h.of_scope (loadMoreCallback_scope e s)
  | searchDone requestId result =>
    simp only [fire] at hr
    split at hr
    · simp only [Option.some.injEq] at hr
      subst hr
      exact h.of_scope (searchReceived_scope e (MTP_finish requestId s) _ result requestId)
    · cases hr
  | peerSearchDone requestId result =>
    simp only [fire] at hr
    split at hr
    · simp only [Option.some.injEq] at hr
      subst hr
      exact h.of_scope (peerSearchReceived_scope e (MTP_finish requestId s) result requestId)
    · cases hr
  | requestFailed requestId error =>
    simp only [fire] at hr
    split at hr
    · simp only [Option.some.injEq] at hr
      subst hr
      split_ifs
      · exact h.of_scope (searchFailed_scope e s _ error requestId)
      · exact h.of_scope (searchFailed_scope e s _ error requestId)
    · simp only [Option.some.injEq] at hr
      subst hr
      split_ifs
      · exact h.of_scope (peopleFailed_scope e s error requestId)
      · exact h.of_scope (peopleFailed_scope e s error requestId)
    · cases hr
  | lateSearchDone type requestId result =>
    simp only [fire] at hr
    split_ifs at hr with hg
    simp only [Option.some.injEq] at hr
    subst hr
    exact h.of_scope (searchReceived_scope e s type result requestId)
  | latePeerSearchDone requestId result =>
    simp only [fire] at hr
    split_ifs at hr with hg
    simp only [Option.some.injEq] at hr
    subst hr
    exact h.of_scope (peerSearchReceived_scope e s result requestId)
  | onCancelSearch =>
    simp only [fire] at hr
    cases hoc : onCancelSearch e fuel s with
    | error f => simp [hoc, Except.toOption] at hr
    | ok r =>
      simp only [hoc, Except.toOption, Option.map_some', Option.some.injEq] at hr
      subst hr
      exact scopeOk_onCancelSearch h e fuel r hoc
  | onCancelSearchInChat =>
    simp only [fire] at hr
    cases hoc : onCancelSearchInChat e fuel s with
    | error f => simp [hoc, Except.toOption] at hr
    | ok r =>
      simp only [hoc, Except.toOption, Option.some.injEq] at hr
      subst hr
      exact scopeOk_onCancelSearchInChat h e fuel r hoc
  | clearSearchCache =>
    simp only [fire, Option.some.injEq] at hr
    subst hr
    exact h.of_scope (clearSearchCache_scope s)
  | fullSearchRefresh =>
    simp only [fire, Option.some.injEq] at hr
    subst hr
    exact h.of_scope (fullSearchRefresh_scope e s)
  | applyFilterUpdate force =>
    simp only [fire, Option.some.injEq] at hr
    subst hr
    exact h.of_scope (applyFilterUpdate_scope e s force).1
  | setSearchInChat chat fromUser =>
    simp only [fire] at hr
    cases hoc : setSearchInChat e fuel chat fromUser s with
    | error f => simp [hoc, Except.toOption] at hr
    | ok r =>
      simp only [hoc, Except.toOption, Option.some.injEq] at hr
      subst hr
      exact scopeOk_setSearchInChat e fuel chat fromUser s r hoc
  | searchInChat chat =>
    simp only [fire] at hr
    cases hoc : searchInChat e fuel chat s with
    | error f => simp [hoc, Except.toOption] at hr
    | ok r =>
      simp only [hoc, Except.toOption, Option.some.injEq] at hr
      subst hr
      exact scopeOk_searchInChat e fuel chat s r hoc
  | searchMessages query inChat =>
    simp only [fire] at hr
    cases hoc : searchMessages e fuel query inChat s with
    | error f => simp [hoc, Except.toOption] at hr
    | ok r =>
      simp only [hoc, Except.toOption, Option.some.injEq] at hr
      subst hr
      exact scopeOk_searchMessages h e fuel query inChat r hoc
  | searchFromUserChosen chat user =>
    simp only [fire] at hr
    cases hoc : searchFromUserChosen e fuel chat user s with
    | error f => simp [hoc, Except.toOption] at hr
    | ok r =>
      simp only [hoc, Except.toOption, Option.some.injEq] at hr
      subst hr
      exact scopeOk_searchFromUserChosen e fuel chat user s r hoc

/-- The scope invariant holds in every reachable state. -/
theorem scopeOk_reachable {s : Widget} (h : Reachable s) : ScopeOk s := by
  induction h with
  | init => exact ⟨rfl, fun hne => absurd rfl hne⟩
  | step e fuel ev _ hf ih => exact scopeOk_fire ih e fuel ev hf

/-! ## Scope resolution and the scope invariant (C21, C22, C23) -/

/-- The call `onCancelSearchInChat()` never reaches `Unexpected` when the scope is
not a folder, and returns when one nested call is allowed. -/
theorem onCancelSearchInChat_returns (e : Env) (fuel : Nat) (s : Widget)
    (hk : s._searchInChat.folder = none) (message : String) :
    onCancelSearchInChat e fuel s ≠ Except.error (Failure.unexpected message)
    ∧ (1 ≤ fuel → ∃ s1, onCancelSearchInChat e fuel s = Except.ok s1) := by
  unfold onCancelSearchInChat
  dsimp only
  obtain ⟨-, -, -, c4, -⟩ := cancelSearchRequest_spec s
  generalize cancelSearchRequest s = c at c4
  by_cases hcond : c._searchInChat.toBool = true
  · have hpeer : c._searchInChat.peer ≠ none := by
      rw [c4]
      rw [c4] at hcond
      cases hsc : s._searchInChat with
      | empty => rw [hsc] at hcond; simp [Key.toBool] at hcond
      | ofHistory p => simp [Key.peer]
      | ofFolder f => rw [hsc] at hk; simp [Key.folder] at hk
    simp only [hcond, if_true, hpeer, and_false, if_false]
    cases fuel with
    | zero => simp [setSearchInChat]
    | succ fuel =>
      rw [setSearchInChat_empty]
      exact ⟨by simp, fun _ => ⟨_, rfl⟩⟩
  · simp only [hcond, if_false]
    exact ⟨by simp, fun _ => ⟨_, rfl⟩⟩

/-- The scope members after a returning `setSearchInChat`, exactly: no scope at
all when a sender was stored for the resolved key (the key is the scope already,
it is not empty and a sender was passed), `_lastFilterText` is the "from:" query
and the filter field is empty; the resolved key with the stored sender and the
migrated history of its peer otherwise. -/
theorem setSearchInChat_scope_exact (e : Env) : ∀ (fuel : Nat) (chat : Key)
    (fromUser : Option UserId) (s s1 : Widget),
    setSearchInChat e fuel chat fromUser s = Except.ok s1 →
    ∃ k, resolvedScope e fuel chat = some k
      ∧ ((storedFromUser k fromUser s ≠ none
            ∧ s._lastFilterText = SwitchToChooseFromQuery ∧ s.filterText = []) →
          s1.scope = ⟨Key.empty, none, none⟩)
      ∧ (¬ (storedFromUser k fromUser s ≠ none
            ∧ s._lastFilterText = SwitchToChooseFromQuery ∧ s.filterText = []) →
          s1.scope = ⟨k, k.peer.bind e.migrateFrom, storedFromUser k fromUser s⟩) := by
  intro fuel
  induction fuel with
  | zero =>
    intro chat fromUser s s1 h
    simp [setSearchInChat] at h
  | succ fuel ih =>
    intro chat fromUser s s1 h
    rw [setSearchInChat] at h
    dsimp only at h
    rw [resolvedScope]
    generalize (if chat.folder.isSome = true then Key.empty else chat) = chat1 at h
    cases hmt : chat1.peer.bind e.migrateTo with
    | some mt =>
      simp only [hmt] at h
      exact ih _ _ { s with _searchInMigrated := none } _ h
    | none =>
      simp only [hmt] at h
      refine ⟨chat1, rfl, ?_⟩
      have hmig : (setSearchInMigrated e chat1 { s with _searchInMigrated := none }).scope
          = ⟨s._searchInChat, chat1.peer.bind e.migrateFrom, s._searchFromUser⟩ := by
        unfold setSearchInMigrated
        split
        · rename_i mf hmf
          simp [Widget.scope, hmf]
        · rename_i hmf
          simp [Widget.scope, hmf]
      obtain ⟨m1, m2, m3, m4, m5, m6⟩ :=
        setSearchInMigrated_spec e chat1 { s with _searchInMigrated := none }
      have hst := setSearchInChatStore_scope chat1 fromUser
        (setSearchInMigrated e chat1 { s with _searchInMigrated := none })
      obtain ⟨-, -, t3, t4, -⟩ := setSearchInChatStore_spec chat1 fromUser
        (setSearchInMigrated e chat1 { s with _searchInMigrated := none })
      have hsf : storedFromUser chat1 fromUser
          (setSearchInMigrated e chat1 { s with _searchInMigrated := none })
          = storedFromUser chat1 fromUser s := by
        unfold storedFromUser
        rw [m3]
      simp only [Widget.scope, Scope.mk.injEq] at hmig
      rw [hsf, hmig.2.1] at hst
      rw [m5] at t3
      rw [m6] at t4
      generalize setSearchInChatStore chat1 fromUser
        (setSearchInMigrated e chat1 { s with _searchInMigrated := none }) = t at h hst t3 t4
      have hts : t._searchFromUser = storedFromUser chat1 fromUser s := by
        simp only [Widget.scope, Scope.mk.injEq] at hst
        exact hst.2.2
      have htk : t._searchInChat = chat1 := by
        simp only [Widget.scope, Scope.mk.injEq] at hst
        exact hst.1
      by_cases hcond : t._searchFromUser.isSome = true ∧ t._lastFilterText = SwitchToChooseFromQuery
      · simp only [hcond, and_self, if_true] at h
        cases hoc : onCancelSearch e fuel t with
        | error err => simp [hoc] at h
        | ok r =>
          simp only [hoc, Except.ok.injEq] at h
          subst h
          obtain ⟨o1, o2⟩ := onCancelSearch_scope e fuel t r hoc
          by_cases hbr : t._searchInChat.toBool = true ∧ t.filterText = []
          · constructor
            · intro _
              exact o1 hbr
            · intro hn
              refine absurd ⟨?_, t4.symm.trans hcond.2, t3.symm.trans hbr.2⟩ hn
              rw [← hts]
              intro hnone
              rw [hnone] at hcond
              exact absurd hcond.1 (by simp)
          · constructor
            · intro hy
              have hb := (storedFromUser_some chat1 fromUser s hy.1).2.1
              rw [← htk] at hb
              exact absurd ⟨hb, t3.trans hy.2.2⟩ hbr
            · intro _
              rw [o2 hbr]
              exact hst
      · simp only [hcond, if_false, Except.ok.injEq] at h
        subst h
        constructor
        · intro hy
          refine absurd ⟨?_, t4.trans hy.2.1⟩ hcond
          rw [hts]
          exact Option.isSome_iff_ne_none.mpr hy.1
        · intro _
          exact hst

/-- A sender is stored for the key `k` exactly when `k` is the scope already, is
not empty and a sender is passed. -/
theorem storedFromUser_ne_none_iff (k : Key) (fromUser : Option UserId) (s : Widget) :
    storedFromUser k fromUser s ≠ none
      ↔ s._searchInChat = k ∧ k ≠ Key.empty ∧ fromUser ≠ none := by
  unfold storedFromUser
  by_cases hk : s._searchInChat = k
  · subst hk
    cases hs : s._searchInChat <;> simp [Key.toBool]
  · simp [hk]

/-- The scope `setSearchInChat` resolves. When the `migrateTo` chain of the key
ends within `fuel` steps the call returns. When the call returns, the key it
resolved (`resolvedScope`) is the empty key for a folder, the history of the
successor for a conversation whose peer has a `migrateTo` successor that was not
migrated itself, and the key itself for a conversation that was not migrated.
After the call the scope is that key, with one exception: when that key is the
scope already and not empty, a sender is passed, `_lastFilterText` is the "from:"
query and the filter field is empty, the call ends in `onCancelSearch`, which
drops the scope. In every case the scope is not a folder, the scope peer has no
`migrateTo`, and `_searchInMigrated` is the `migrateFrom` predecessor of the
scope peer when it has one and null otherwise. -/
theorem setSearchInChat_resolves (e : Env) (fuel : Nat) (chat : Key)
    (fromUser : Option UserId) (s : Widget) :
    (∀ k, resolvedScope e fuel chat = some k →
      ∃ s1, setSearchInChat e (fuel + 2) chat fromUser s = Except.ok s1)
    ∧ (∀ s1, setSearchInChat e fuel chat fromUser s = Except.ok s1 →
      ∃ k, resolvedScope e fuel chat = some k
        ∧ (chat.folder ≠ none → k = Key.empty)
        ∧ (∀ p mt, chat = Key.ofHistory p → e.migrateTo p = some mt →
            e.migrateTo mt = none → k = Key.ofHistory mt)
        ∧ (chat.peer.bind e.migrateTo = none → chat.folder = none → k = chat)
        ∧ s1._searchInChat
            = (if s._searchInChat = k ∧ k ≠ Key.empty ∧ fromUser ≠ none
                  ∧ s._lastFilterText = SwitchToChooseFromQuery ∧ s.filterText = []
                then Key.empty else k)
        ∧ s1._searchInChat.folder = none
        ∧ s1._searchInChat.peer.bind e.migrateTo = none
        ∧ s1._searchInMigrated = s1._searchInChat.peer.bind e.migrateFrom) := by
  constructor
  · intro k hk
    exact setSearchInChat_returns_resolved e fuel chat k fromUser s hk
  · intro s1 h
    obtain ⟨k, hk, hdrop, hkeep⟩ := setSearchInChat_scope_exact e fuel chat fromUser s s1 h
    obtain ⟨kf, km⟩ := resolvedScope_spec e fuel chat k hk
    obtain ⟨r1, r2, r3⟩ := resolvedScope_cases e fuel chat k hk
    refine ⟨k, hk, r1, r2, r3, ?_⟩
    rw [storedFromUser_ne_none_iff] at hdrop hkeep
    by_cases hc : s._searchInChat = k ∧ k ≠ Key.empty ∧ fromUser ≠ none
        ∧ s._lastFilterText = SwitchToChooseFromQuery ∧ s.filterText = []
    · have hsc := hdrop ⟨⟨hc.1, hc.2.1, hc.2.2.1⟩, hc.2.2.2.1, hc.2.2.2.2⟩
      simp only [Widget.scope, Scope.mk.injEq] at hsc
      rw [if_pos hc, hsc.1, hsc.2.1]
      exact ⟨rfl, rfl, rfl, rfl⟩
    · have hsc := hkeep (fun hy => hc ⟨hy.1.1, hy.1.2.1, hy.1.2.2, hy.2.1, hy.2.2⟩)
      simp only [Widget.scope, Scope.mk.injEq] at hsc
      rw [if_neg hc, hsc.1, hsc.2.1]
      exact ⟨rfl, kf, km, rfl⟩

/-- The legacy group 9 was migrated to the conversation 8; `setSearchInChat` with
the group makes the conversation 8 the scope and the group the migrated
history. -/
theorem setSearchInChat_resolves_migrated :
    setSearchInChat migratedEnv 2 (Key.ofHistory 9) none Widget.init = Except.ok scopedFromNine
    ∧ scopedFromNine._searchInChat = Key.ofHistory 8
    ∧ scopedFromNine._searchInChat.peer.bind migratedEnv.migrateTo = none
    ∧ scopedFromNine._searchInMigrated = some 9 := by
  obtain ⟨k, -, -, -, -, -, -, h7, h8⟩ :=
    (setSearchInChat_resolves migratedEnv 2 (Key.ofHistory 9) none Widget.init).2
      scopedFromNine rfl
  exact ⟨rfl, rfl, h7, h8⟩

/-- C22: a sender filter exists only inside a conversation scope. In every
reachable state `_searchFromUser != null` implies that `_searchInChat` is not
empty; every returning `setSearchInChat` leaves a state of this kind, whatever
the state it started from; and a returning `setSearchInChat` that changed
`_searchInChat` left `_searchFromUser` null, whatever its `from` argument. -/
theorem C22_sender_only_in_scope (e : Env) (fuel : Nat) (chat : Key)
    (fromUser : Option UserId) (s s1 : Widget) :
    (Reachable s → s._searchFromUser ≠ none → s._searchInChat ≠ Key.empty)
    ∧ (setSearchInChat e fuel chat fromUser s = Except.ok s1 →
        s1._searchFromUser ≠ none → s1._searchInChat ≠ Key.empty)
    ∧ (setSearchInChat e fuel chat fromUser s = Except.ok s1 →
        s1._searchInChat ≠ s._searchInChat → s1._searchFromUser = none) := by
  refine ⟨fun hr => (scopeOk_reachable hr).2,
    fun h => (scopeOk_setSearchInChat e fuel chat fromUser s s1 h).2, fun h hne => ?_⟩
  obtain ⟨k, -, hsc⟩ := setSearchInChat_scope e fuel chat fromUser s s1 h
  rcases hsc with hsc | ⟨hsc, -⟩
  · simp only [Widget.scope, Scope.mk.injEq] at hsc
    rw [hsc.2.2]
    rw [hsc.1] at hne
    unfold storedFromUser
    simp only [ne_eq, Ne.symm hne, not_false_eq_true, if_true]
  · simp only [Widget.scope, Scope.mk.injEq] at hsc
    exact hsc.2.2

/-- The widget with the sender 3 chosen in the conversation 8 is reachable. -/
theorem senderChosen_reachable : Reachable senderChosen :=
  Reachable.step sampleEnv 3 (Event.searchFromUserChosen (Key.ofHistory 8) (some 3))
    (Reachable.step sampleEnv 3 (Event.setSearchInChat (Key.ofHistory 8) none)
      Reachable.init rfl)
    rfl

/-- C22 (witness): the sender 3 is chosen in the conversation 8; the scope is not
empty, and moving the scope to the conversation 7 together with a sender 5
leaves no sender. -/
theorem C22_sender_only_in_scope_witness :
    senderChosen._searchFromUser = some 3
    ∧ senderChosen._searchInChat ≠ Key.empty
    ∧ (setSearchInChatStore (Key.ofHistory 7) (some 5)
        { senderChosen with _searchInMigrated := none })._searchFromUser = none :=
  have h := C22_sender_only_in_scope sampleEnv 3 (Key.ofHistory 7) (some 5) senderChosen
    (setSearchInChatStore (Key.ofHistory 7) (some 5)
      { senderChosen with _searchInMigrated := none })
  ⟨by decide, h.1 senderChosen_reachable (by decide), h.2.2 rfl (by decide)⟩

/-- C23: the scope key is never a folder. In every reachable state `_searchInChat`
is empty or the history of a peer, so `onCancelSearch` and `onCancelSearchInChat`
never reach their `Unexpected("Empty key ...")` branch: neither ends in
`Unexpected`, whatever the depth allowed to their calls, and both return (with
two nested calls allowed for `onCancelSearch`, one for `onCancelSearchInChat`). -/
theorem C23_scope_never_folder (s : Widget) (h : Reachable s) (e : Env) (fuel : Nat)
    (message : String) :
    (s._searchInChat = Key.empty ∨ ∃ p, s._searchInChat = Key.ofHistory p)
    ∧ onCancelSearch e fuel s ≠ Except.error (Failure.unexpected message)
    ∧ onCancelSearchInChat e fuel s ≠ Except.error (Failure.unexpected message)
    ∧ (2 ≤ fuel → ∃ r, onCancelSearch e fuel s = Except.ok r)
    ∧ (1 ≤ fuel → ∃ s1, onCancelSearchInChat e fuel s = Except.ok s1) := by
  have hk : s._searchInChat.folder = none := (scopeOk_reachable h).1
  refine ⟨?_, onCancelSearch_not_unexpected e fuel s hk message,
    (onCancelSearchInChat_returns e fuel s hk message).1, ?_,
    (onCancelSearchInChat_returns e fuel s hk message).2⟩
  · cases hsc : s._searchInChat with
    | empty => exact Or.inl rfl
    | ofHistory p => exact Or.inr ⟨p, rfl⟩
    | ofFolder f => rw [hsc] at hk; simp [Key.folder] at hk
  · intro hf
    obtain ⟨n, rfl⟩ : ∃ n, fuel = n + 2 := ⟨fuel - 2, by omega⟩
    exact onCancelSearch_returns e n s hk

/-- The widget in the scope of the conversation 8 is reachable. -/
theorem scopedEight_reachable : Reachable scopedEight :=
  Reachable.step sampleEnv 3 (Event.setSearchInChat (Key.ofHistory 8) none) Reachable.init rfl

/-- C23 (witness): in the scope of the conversation 8 with an empty filter field,
in the one-column layout, `onCancelSearch` shows the history of the peer 8 and
returns. -/
theorem C23_scope_never_folder_witness :
    scopedEight._searchInChat = Key.ofHistory 8
    ∧ ∃ r, onCancelSearch { sampleEnv with oneColumn := true } 2 scopedEight = Except.ok r :=
  have h := C23_scope_never_folder scopedEight scopedEight_reachable
    { sampleEnv with oneColumn := true } 2 ""
  ⟨rfl, h.2.2.2.1 (by decide)⟩

/-! ## Hashtags in the filter field (C24, C25, C26) -/

/-- The `#` is not a word character. -/
theorem isWordChar_hash (helper : Char → Bool) : isWordChar helper '#' = false := by
  simp [isWordChar, isLetterOrNumber]


/-- The step of the scans: the characters before `n + 1` are those before `n` and
the one at `n`. -/
theorem take_succ_of_getElem (t : QString) (n : Nat) (c : Char) (h : t[n]? = some c) :
    t.take (n + 1) = t.take n ++ [c] := by
  rw [List.take_succ, h]
  rfl

theorem length_take_of_getElem (t : QString) (n : Nat) (c : Char) (h : t[n]? = some c) :
    (t.take n).length = n := by
  have hn : n < t.length := by
    by_contra hge
    rw [List.getElem?_eq_none (Nat.le_of_not_lt hge)] at h
    cases h
  rw [List.length_take]
  omega

/-- The scan of `onFilterCursorMoved` finds the `#` that is followed by word
characters only up to `start`. -/
theorem hashtagScan_found (helper : Char → Bool) (t : QString) (toPos : Nat) :
    ∀ (start : Nat) (u w : QString), start ≤ t.length → t.take start = u ++ '#' :: w →
      (∀ x ∈ w, isWordChar helper x = true) →
      hashtagScan helper t toPos start = mid t u.length (toPos - u.length) := by
  intro start
  induction start with
  | zero =>
    intro u w _ h _
    simp at h
  | succ n ih =>
    intro u w hle h hw
    have hn : n < t.length := hle
    have hget : t[n]? = some t[n] := List.getElem?_eq_getElem hn
    rw [take_succ_of_getElem t n _ hget] at h
    rw [hashtagScan, hget]
    dsimp only
    rcases List.eq_nil_or_concat w with hw0 | ⟨w1, x, hw1⟩
    · subst hw0
      have h2 := List.append_inj' h rfl
      have hc : t[n] = '#' := by
        have := h2.2
        simpa using this
      have hu : u.length = n := by
        rw [← h2.1]
        exact length_take_of_getElem t n _ hget
      simp only [hc, if_true, hu]
    · subst hw1
      have h3 : t.take n ++ [t[n]] = (u ++ '#' :: w1) ++ [x] := by
        rw [h]
        simp
      have h2 := List.append_inj' h3 rfl
      have hc : t[n] = x := by
        have := h2.2
        simpa using this
      have hx : isWordChar helper x = true := hw x (by simp)
      have hne : x ≠ '#' := by
        intro hx2
        rw [hx2, isWordChar_hash] at hx
        cases hx
      simp only [hc, hne, if_false, hx, Bool.not_true, Bool.false_eq_true]
      exact ih u w1 (Nat.le_of_lt hn) h2.1 (fun y hy => hw y (by simp [hy]))

/-- The scan of `onFilterCursorMoved` ends empty when no `#` before `start` is
followed by word characters only. -/
theorem hashtagScan_nil (helper : Char → Bool) (t : QString) (toPos : Nat) :
    ∀ (start : Nat), start ≤ t.length →
      (∀ u w : QString, t.take start = u ++ '#' :: w →
        ∃ x ∈ w, isWordChar helper x = false) →
      hashtagScan helper t toPos start = [] := by
  intro start
  induction start with
  | zero =>
    intro _ _
    rfl
  | succ n ih =>
    intro hle h
    have hn : n < t.length := hle
    have hget : t[n]? = some t[n] := List.getElem?_eq_getElem hn
    have htake := take_succ_of_getElem t n _ hget
    rw [hashtagScan, hget]
    dsimp only
    by_cases hc : t[n] = '#'
    · exfalso
      obtain ⟨x, hx, -⟩ := h (t.take n) [] (by rw [htake, hc])
      cases hx
    · simp only [hc, if_false]
      by_cases hword : isWordChar helper t[n] = true
      · simp only [hword, Bool.not_true, Bool.false_eq_true, if_false]
        apply ih (Nat.le_of_lt hn)
        intro u w huw
        obtain ⟨x, hx, hxw⟩ := h u (w ++ [t[n]]) (by rw [htake, huw]; simp)
        rcases List.mem_append.mp hx with hx1 | hx1
        · exact ⟨x, hx1, hxw⟩
        · simp only [List.mem_singleton] at hx1
          rw [hx1, hword] at hxw
          cases hxw
      · simp only [hword, Bool.not_false, if_true]

/-- The part of `t` from `s` up to `c` when `t` up to `c` is `u`, the `#` at `s`
and `w`. -/
theorem mid_of_take (t u w : QString) (c : Nat) (h : t.take c = u ++ '#' :: w) :
    mid t u.length (c - u.length) = '#' :: w := by
  unfold mid
  rw [← List.drop_take, h]
  simp

/-- C24: what `onFilterCursorMoved` reports to the list view. With the cursor `c`
inside the text `t` (`c` is `to`, or the cursor position of the field when `to` is
negative), the list view is told one string `r`. When `t` up to the cursor is
some `u`, a `#` and then letters, digits and `_` only, `r` is that `#` with what
follows it up to the cursor, which is `t[s..c)` for the position `s` of the `#`.
When `t` up to the cursor cannot be split this way, `r` is empty. A non-empty `r`
starts with `#` and ends at the cursor. -/
theorem C24_hashtag_at_cursor (helper : Char → Bool) (fromPos toPos : Int) (s : Widget)
    (c : Nat) (hto : (if toPos < 0 then s.cursorPosition else toPos) = (c : Int))
    (hc : c ≤ s.filterText.length) :
    (onFilterCursorMoved helper fromPos toPos s).log
        = s.log ++ [Effect.innerHashtagFilterUpdate (hashtagScan helper s.filterText c c)]
    ∧ (∀ u w : QString, s.filterText.take c = u ++ '#' :: w →
        (∀ x ∈ w, isWordChar helper x = true) →
        hashtagScan helper s.filterText c c = '#' :: w
        ∧ hashtagScan helper s.filterText c c
            = (s.filterText.drop u.length).take (c - u.length)
        ∧ u.length < c
        ∧ s.filterText[u.length]? = some '#'
        ∧ ∀ i, u.length < i → i < c → s.filterText[i]? ≠ some '#')
    ∧ ((∀ u w : QString, s.filterText.take c = u ++ '#' :: w →
          ∃ x ∈ w, isWordChar helper x = false) →
        hashtagScan helper s.filterText c c = [])
    ∧ (c = 0 → hashtagScan helper s.filterText c c = [])
    ∧ (hashtagScan helper s.filterText c c ≠ [] →
        (hashtagScan helper s.filterText c c).head? = some '#'
        ∧ ∃ u, s.filterText.take c = u ++ hashtagScan helper s.filterText c c) := by
  have hfound : ∀ u w : QString, s.filterText.take c = u ++ '#' :: w →
      (∀ x ∈ w, isWordChar helper x = true) →
      hashtagScan helper s.filterText c c = '#' :: w := by
    intro u w huw hw
    rw [hashtagScan_found helper s.filterText c c u w hc huw hw]
    exact mid_of_take _ _ _ _ huw
  refine ⟨?_, ?_, hashtagScan_nil helper s.filterText c c hc, ?_, ?_⟩
  · unfold onFilterCursorMoved
    simp only [hto, Int.toNat_ofNat, Widget.emit]
  · intro u w huw hw
    have hlen : (s.filterText.take c).length = u.length + 1 + w.length := by
      rw [huw]
      simp
      omega
    have hlt : u.length < c := by
      rw [List.length_take] at hlen
      omega
    have hget : ∀ i, i < c → s.filterText[i]? = (u ++ '#' :: w)[i]? := by
      intro i hi
      rw [← huw, List.getElem?_take_of_lt hi]
    refine ⟨hfound u w huw hw, ?_, hlt, ?_, ?_⟩
    · rw [hfound u w huw hw]
      exact (mid_of_take _ _ _ _ huw).symm
    · rw [hget _ hlt, List.getElem?_append_right (Nat.le_refl _)]
      simp
    · intro i hi hic heq
      rw [hget i hic] at heq
      have hi2 : ¬ i < u.length := by omega
      rw [List.getElem?_append_right (Nat.le_of_not_lt hi2)] at heq
      obtain ⟨j, hj⟩ : ∃ j, i - u.length = j + 1 := ⟨i - u.length - 1, by omega⟩
      rw [hj, List.getElem?_cons_succ] at heq
      have hmem : '#' ∈ w := List.getElem?_mem heq
      have := hw _ hmem
      rw [isWordChar_hash] at this
      cases this
  · intro h0
    subst h0
    rfl
  · intro hne
    by_cases hex : ∃ u w : QString, s.filterText.take c = u ++ '#' :: w
        ∧ ∀ x ∈ w, isWordChar helper x = true
    · obtain ⟨u, w, huw, hw⟩ := hex
      rw [hfound u w huw hw]
      exact ⟨rfl, u, huw⟩
    · exfalso
      apply hne
      apply hashtagScan_nil helper s.filterText c c hc
      intro u w huw
      by_contra hall
      apply hex
      refine ⟨u, w, huw, fun x hx => ?_⟩
      by_contra hx2
      exact hall ⟨x, hx, by simpa using hx2⟩

/-- C24 (witness): in "ab #tag x" with the cursor after "#tag" the list view is
told "#tag". -/
theorem C24_hashtag_at_cursor_witness :
    (onFilterCursorMoved (fun _ => false) 0 7
        { Widget.init with filterText := "ab #tag x".toList }).log
      = [Effect.innerHashtagFilterUpdate "#tag".toList] :=
  have h := C24_hashtag_at_cursor (fun _ => false) 0 7
    { Widget.init with filterText := "ab #tag x".toList } 7 rfl (by decide)
  h.1.trans (by
    rw [(h.2.1 "ab ".toList "tag".toList rfl (by decide)).1]
    rfl)

/-- What the outer loop of `onCompleteHashtag` has found when it returns an
index. -/
theorem completeScan_some (helper : Char → Bool) (t tag : QString) (cur : Nat) :
    ∀ (n start : Nat), completeScan helper t tag cur n = some start →
      start < n ∧ t[start]? = some '#' := by
  intro n
  induction n with
  | zero =>
    intro start h
    simp [completeScan] at h
  | succ n ih =>
    intro start h
    rw [completeScan] at h
    cases hget : t[n]? with
    | none => simp [hget] at h
    | some c =>
      simp only [hget] at h
      by_cases hc : c = '#'
      · simp only [hc, if_true] at h
        split_ifs at h
        simp only [Option.some.injEq] at h
        subst h
        exact ⟨Nat.lt_succ_self _, by rw [hget, hc]⟩
      · simp only [hc, if_false] at h
        split_ifs at h
        obtain ⟨h1, h2⟩ := ih start h
        exact ⟨Nat.lt_succ_of_lt h1, h2⟩

/-- The outer loop of `onCompleteHashtag` reaches the `#` that is followed by word
characters only up to `n`. -/
theorem completeScan_found (helper : Char → Bool) (t tag : QString) (cur : Nat) :
    ∀ (n : Nat) (u w : QString), n ≤ t.length → t.take n = u ++ '#' :: w →
      (∀ x ∈ w, isWordChar helper x = true) →
      completeScan helper t tag cur n
        = if cur = u.length + 1
            ∨ mid t (u.length + 1) (cur - u.length - 1) = mid tag 0 (cur - u.length - 1)
          then some u.length else none := by
  intro n
  induction n with
  | zero =>
    intro u w _ h _
    simp at h
  | succ n ih =>
    intro u w hle h hw
    have hn : n < t.length := hle
    have hget : t[n]? = some t[n] := List.getElem?_eq_getElem hn
    rw [take_succ_of_getElem t n _ hget] at h
    rw [completeScan, hget]
    dsimp only
    rcases List.eq_nil_or_concat w with hw0 | ⟨w1, x, hw1⟩
    · subst hw0
      have h2 := List.append_inj' h rfl
      have hc : t[n] = '#' := by
        have := h2.2
        simpa using this
      have hu : u.length = n := by
        rw [← h2.1]
        exact length_take_of_getElem t n _ hget
      simp only [hc, if_true, hu]
    · subst hw1
      have h3 : t.take n ++ [t[n]] = (u ++ '#' :: w1) ++ [x] := by
        rw [h]
        simp
      have h2 := List.append_inj' h3 rfl
      have hc : t[n] = x := by
        have := h2.2
        simpa using this
      have hx : isWordChar helper x = true := hw x (by simp)
      have hne : x ≠ '#' := by
        intro hx2
        rw [hx2, isWordChar_hash] at hx
        cases hx
      simp only [hc, hne, if_false, hx, Bool.not_true, Bool.false_eq_true]
      exact ih u w1 (Nat.le_of_lt hn) h2.1 (fun y hy => hw y (by simp [hy]))

/-- The character right after a prefix. -/
theorem getElem?_append_cons (a : QString) (x : Char) (l : QString) :
    (a ++ x :: l)[a.length]? = some x := by
  rw [List.getElem?_append_right (Nat.le_refl _)]
  simp

/-- The inner loop of `onCompleteHashtag` runs over the part of the tag that
stands in the text. -/
theorem advanceCursor_common (t tag : QString) (start : Nat) :
    ∀ (q a b rest : QString) (fuel : Nat), t = a ++ q ++ rest → tag = b ++ q →
      a.length = start + 1 + b.length → q.length ≤ fuel →
      advanceCursor t tag start fuel a.length = a.length + q.length := by
  intro q
  induction q with
  | nil =>
    intro a b rest fuel _ htag hlen _
    cases fuel with
    | zero => rfl
    | succ fuel =>
      have h2 : tag[a.length - start - 1]? = none := by
        rw [htag]
        apply List.getElem?_eq_none
        simp
        omega
      rw [advanceCursor, h2]
      cases t[a.length]? <;> rfl
  | cons x q ih =>
    intro a b rest fuel ht htag hlen hfuel
    cases fuel with
    | zero => simp at hfuel
    | succ fuel =>
      have h1 : t[a.length]? = some x := by
        rw [ht, List.append_assoc, List.cons_append]
        exact getElem?_append_cons a x _
      have h2 : tag[a.length - start - 1]? = some x := by
        rw [htag]
        have : a.length - start - 1 = b.length := by omega
        rw [this]
        exact getElem?_append_cons b x _
      rw [advanceCursor, h1, h2]
      simp only [ne_eq, not_true_eq_false, if_false]
      have := ih (a ++ [x]) (b ++ [x]) rest fuel (by rw [ht]; simp) (by rw [htag]; simp)
        (by simp; omega) (by simpa using hfuel)
      simp only [List.length_append, List.length_singleton] at this
      rw [this]
      simp
      omega

/-- The member `applyFilterUpdate` leaves the cursor of the filter field. -/
theorem applyFilterUpdate_cursor (e : Env) (force : Bool) (s : Widget) :
    (applyFilterUpdate e force s).cursorPosition = s.cursorPosition := by
  have c1 : ∀ w : Widget, (clearSearchCache w).cursorPosition = w.cursorPosition := by
    intro w
    unfold clearSearchCache cancelTakeSearchRequest MTP_cancel
    by_cases h : w._searchRequest = 0 <;> simp [h]
  have d1 : ∀ w : Widget, (showSearchFrom w).cursorPosition = w.cursorPosition := by
    intro w
    unfold showSearchFrom
    split <;> rfl
  unfold applyFilterUpdate
  dsimp only
  split_ifs <;> simp only [c1, d1, Widget.emit]

/-- The text and the cursor `onCompleteHashtag` leaves when the `#` at `start` is
completed. -/
theorem onCompleteHashtag_attach (helper : Char → Bool) (e : Env) (tag : QString)
    (s : Widget) (start : Nat)
    (h : completeScan helper s.filterText tag s.cursorPosition.toNat
      s.cursorPosition.toNat = some start) :
    (onCompleteHashtag helper e tag s).cursorPosition
        = ((start + 1 + tag.length + 1 : Nat) : Int)
    ∧ ∃ cur, (onCompleteHashtag helper e tag s).filterText
        = s.filterText.take start ++ '#' :: tag ++ ' ' :: s.filterText.drop cur
      ∧ cur = (if advanceCursor s.filterText tag start s.filterText.length
                s.cursorPosition.toNat - start - 1 = tag.length
              ∧ s.filterText[advanceCursor s.filterText tag start s.filterText.length
                s.cursorPosition.toNat]? = some ' '
            then advanceCursor s.filterText tag start s.filterText.length
                s.cursorPosition.toNat + 1
            else advanceCursor s.filterText tag start s.filterText.length
                s.cursorPosition.toNat) := by
  obtain ⟨-, hget⟩ := completeScan_some helper _ _ _ _ _ h
  unfold onCompleteHashtag
  simp only [h]
  rw [applyFilterUpdate_cursor, (applyFilterUpdate_scope e _ true).2]
  refine ⟨rfl, _, ?_, rfl⟩
  show mid s.filterText 0 (start + 1) ++ tag ++ [' '] ++ _ = _
  unfold mid
  rw [List.drop_zero, take_succ_of_getElem _ _ _ hget]
  simp

/-- The text and the cursor `onCompleteHashtag` leaves when a new `#` is
inserted. -/
theorem onCompleteHashtag_insert (helper : Char → Bool) (e : Env) (tag : QString)
    (s : Widget)
    (h : completeScan helper s.filterText tag s.cursorPosition.toNat
      s.cursorPosition.toNat = none) :
    (onCompleteHashtag helper e tag s).cursorPosition
        = ((s.cursorPosition.toNat + 1 + tag.length + 1 : Nat) : Int)
    ∧ (onCompleteHashtag helper e tag s).filterText
        = s.filterText.take s.cursorPosition.toNat ++ '#' :: tag
          ++ ' ' :: s.filterText.drop s.cursorPosition.toNat := by
  unfold onCompleteHashtag
  simp only [h]
  rw [applyFilterUpdate_cursor, (applyFilterUpdate_scope e _ true).2]
  refine ⟨rfl, ?_⟩
  show mid s.filterText 0 _ ++ ['#'] ++ tag ++ [' '] ++ _ = _
  unfold mid
  rw [List.drop_zero]
  simp

/-- The first `n` characters of a text that begins with `n` characters. -/
theorem take_length_append (a b : QString) (n : Nat) (h : a.length = n) :
    (a ++ b).take n = a := by
  rw [← h]
  exact List.take_left' rfl

/-- C25: what `onCompleteHashtag` leaves in the filter field. With the cursor `c`
inside the text `t`, there is a prefix `pre` of `t` (the part before the cursor
when a new `#` is inserted, the part before the `#` the tag attaches to
otherwise) such that the new text begins with `pre`, `#`, the tag and a space,
and the new cursor stands right after that space, inside the new text. -/
theorem C25_complete_hashtag_shape (helper : Char → Bool) (e : Env) (tag : QString)
    (s : Widget) (c : Nat) (hcur : s.cursorPosition = (c : Int))
    (hc : c ≤ s.filterText.length) :
    ∃ pre : QString,
      (pre = s.filterText.take c
        ∨ ∃ start, start < c ∧ s.filterText[start]? = some '#'
            ∧ pre = s.filterText.take start)
      ∧ (onCompleteHashtag helper e tag s).cursorPosition
          = ((pre.length + 1 + tag.length + 1 : Nat) : Int)
      ∧ (onCompleteHashtag helper e tag s).filterText.take (pre.length + 1 + tag.length + 1)
          = pre ++ '#' :: tag ++ [' ']
      ∧ pre.length + 1 + tag.length + 1 ≤ (onCompleteHashtag helper e tag s).filterText.length
      ∧ ∃ rest, (onCompleteHashtag helper e tag s).filterText
          = pre ++ '#' :: tag ++ ' ' :: rest := by
  have hnat : s.cursorPosition.toNat = c := by
    rw [hcur]
    rfl
  cases hscan : completeScan helper s.filterText tag s.cursorPosition.toNat
      s.cursorPosition.toNat with
  | none =>
    obtain ⟨h1, h2⟩ := onCompleteHashtag_insert helper e tag s hscan
    rw [hnat] at h1 h2
    have hlen : (s.filterText.take c).length = c := by
      rw [List.length_take]
      omega
    refine ⟨s.filterText.take c, Or.inl rfl, ?_, ?_, ?_, _, h2⟩
    · rw [h1, hlen]
    · rw [h2]
      have : s.filterText.take c ++ '#' :: tag ++ ' ' :: s.filterText.drop c
          = (s.filterText.take c ++ '#' :: tag ++ [' ']) ++ s.filterText.drop c := by
        simp
      rw [this]
      apply take_length_append
      simp
      omega
    · rw [h2]
      simp
      omega
  | some start =>
    obtain ⟨h1, cur, h2, -⟩ := onCompleteHashtag_attach helper e tag s start hscan
    obtain ⟨hlt, hget⟩ := completeScan_some helper _ _ _ _ _ hscan
    rw [hnat] at hlt
    have hlen : (s.filterText.take start).length = start :=
      length_take_of_getElem _ _ _ hget
    refine ⟨s.filterText.take start, Or.inr ⟨start, hlt, hget, rfl⟩, ?_, ?_, ?_, _, h2⟩
    · rw [h1, hlen]
    · rw [h2]
      have : s.filterText.take start ++ '#' :: tag ++ ' ' :: s.filterText.drop cur
          = (s.filterText.take start ++ '#' :: tag ++ [' ']) ++ s.filterText.drop cur := by
        simp
      rw [this]
      apply take_length_append
      simp
      omega
    · rw [h2]
      simp
      omega

/-- C25 (witness): in "ab #t x" with the cursor after "#t", completing "tag"
gives "ab #tag  x" with the cursor after "#tag ". -/
theorem C25_complete_hashtag_shape_witness :
    ∃ pre : QString, pre.length = 3
      ∧ (onCompleteHashtag (fun _ => false) sampleEnv "tag".toList
          { Widget.init with filterText := "ab #t x".toList, cursorPosition := 5 }).filterText.take
            (pre.length + 1 + 3 + 1) = pre ++ '#' :: "tag".toList ++ [' '] := by
  obtain ⟨pre, -, h2, h3, -⟩ := C25_complete_hashtag_shape (fun _ => false) sampleEnv
    "tag".toList { Widget.init with filterText := "ab #t x".toList, cursorPosition := 5 } 5 rfl
    (by decide)
  refine ⟨pre, ?_, h3⟩
  have h4 : (onCompleteHashtag (fun _ => false) sampleEnv "tag".toList
      { Widget.init with filterText := "ab #t x".toList,
                         cursorPosition := 5 }).cursorPosition = 8 := by decide
  rw [h4] at h2
  have h5 : (8 : Nat) = pre.length + 1 + "tag".toList.length + 1 := by exact_mod_cast h2
  simp at h5
  omega

/-- The inner loop of `onCompleteHashtag` does not move a cursor at the end of
the text. -/
theorem advanceCursor_end (t tag : QString) (start fuel cur : Nat) (h : t.length ≤ cur) :
    advanceCursor t tag start fuel cur = cur := by
  cases fuel with
  | zero => rfl
  | succ fuel =>
    rw [advanceCursor, List.getElem?_eq_none h]

/-- What is left of a text after its first `n` characters. -/
theorem drop_length_append (a b : QString) (n : Nat) (h : a.length = n) :
    (a ++ b).drop n = b := by
  rw [← h]
  exact List.drop_left' rfl

/-- C26: completing a partly typed hashtag replaces it. Let the tag `g` be `p`
followed by `q`, with `p` made of letters, digits and `_` only. When the filter
text is `u`, `#`, `p` with the cursor at its end, `onCompleteHashtag(g)` sets the
text to `u`, `#`, `g` and a space, with the cursor at the end. When the text is
`u`, `#`, `g`, a space and `v`, with the cursor after `p`, the space is consumed:
the text is left as it is and the cursor stands after the space. -/
theorem C26_complete_hashtag_replaces (helper : Char → Bool) (e : Env) (s : Widget)
    (u g p q v : QString) (hg : g = p ++ q) (hp : ∀ x ∈ p, isWordChar helper x = true) :
    (s.filterText = u ++ '#' :: p →
      s.cursorPosition = ((u.length + 1 + p.length : Nat) : Int) →
      (onCompleteHashtag helper e g s).filterText = u ++ '#' :: g ++ [' ']
      ∧ (onCompleteHashtag helper e g s).cursorPosition
          = (((u ++ '#' :: g ++ [' ']).length : Nat) : Int))
    ∧ (s.filterText = u ++ '#' :: g ++ ' ' :: v →
      s.cursorPosition = ((u.length + 1 + p.length : Nat) : Int) →
      (onCompleteHashtag helper e g s).filterText = s.filterText
      ∧ (onCompleteHashtag helper e g s).cursorPosition
          = ((u.length + 1 + g.length + 1 : Nat) : Int)) := by
  constructor
  · intro ht hcur
    have hnat : s.cursorPosition.toNat = u.length + 1 + p.length := by
      rw [hcur]
      rfl
    have hlen : s.filterText.length = u.length + 1 + p.length := by
      rw [ht]
      simp
      omega
    have htake : s.filterText.take (u.length + 1 + p.length) = u ++ '#' :: p := by
      rw [← hlen, List.take_length, ht]
    have hcond : mid s.filterText (u.length + 1) (u.length + 1 + p.length - u.length - 1)
        = mid g 0 (u.length + 1 + p.length - u.length - 1) := by
      have hn : u.length + 1 + p.length - u.length - 1 = p.length := by omega
      rw [hn]
      unfold mid
      have hd : s.filterText.drop (u.length + 1) = p := by
        rw [ht]
        have : u ++ '#' :: p = (u ++ ['#']) ++ p := by simp
        rw [this]
        exact drop_length_append _ _ _ (by simp)
      rw [hd, List.drop_zero, hg, List.take_length]
      exact (take_length_append p q p.length rfl).symm
    have hscan : completeScan helper s.filterText g s.cursorPosition.toNat
        s.cursorPosition.toNat = some u.length := by
      rw [hnat, completeScan_found helper s.filterText g _ _ u p (by omega) htake hp]
      simp only [hcond, or_true, if_true]
    obtain ⟨h1, cur, h2, h3⟩ := onCompleteHashtag_attach helper e g s u.length hscan
    rw [hnat, advanceCursor_end s.filterText g u.length s.filterText.length
      (u.length + 1 + p.length) (by omega)] at h3
    have hnone : s.filterText[u.length + 1 + p.length]? = none :=
      List.getElem?_eq_none (by omega)
    simp only [hnone, reduceCtorEq, and_false, if_false] at h3
    have hdrop : s.filterText.drop cur = [] := by
      rw [h3]
      apply List.drop_eq_nil_of_le
      omega
    have htu : s.filterText.take u.length = u := by
      rw [ht]
      exact take_length_append _ _ _ rfl
    rw [h2, hdrop, htu, h1]
    constructor
    · simp
    · simp
      omega
  · intro ht hcur
    have hnat : s.cursorPosition.toNat = u.length + 1 + p.length := by
      rw [hcur]
      rfl
    have hsplit : s.filterText = (u ++ '#' :: p) ++ q ++ ' ' :: v := by
      rw [ht, hg]
      simp
    have hlen : s.filterText.length = u.length + 1 + p.length + q.length + 1 + v.length := by
      rw [hsplit]
      simp
      omega
    have htake : s.filterText.take (u.length + 1 + p.length) = u ++ '#' :: p := by
      rw [hsplit, List.append_assoc]
      exact take_length_append _ _ _ (by simp; omega)
    have hcond : mid s.filterText (u.length + 1) (u.length + 1 + p.length - u.length - 1)
        = mid g 0 (u.length + 1 + p.length - u.length - 1) := by
      have hn : u.length + 1 + p.length - u.length - 1 = p.length := by omega
      rw [hn]
      unfold mid
      have hd : s.filterText.drop (u.length + 1) = p ++ (q ++ ' ' :: v) := by
        have : s.filterText = (u ++ ['#']) ++ (p ++ (q ++ ' ' :: v)) := by
          rw [hsplit]
          simp
        rw [this]
        exact drop_length_append _ _ _ (by simp)
      rw [hd, List.drop_zero, hg, take_length_append p _ p.length rfl,
        take_length_append p q p.length rfl]
    have hscan : completeScan helper s.filterText g s.cursorPosition.toNat
        s.cursorPosition.toNat = some u.length := by
      rw [hnat, completeScan_found helper s.filterText g _ _ u p (by omega) htake hp]
      simp only [hcond, or_true, if_true]
    obtain ⟨h1, cur, h2, h3⟩ := onCompleteHashtag_attach helper e g s u.length hscan
    have hadv : advanceCursor s.filterText g u.length s.filterText.length
        s.cursorPosition.toNat = u.length + 1 + g.length := by
      have hal : (u ++ '#' :: p).length = u.length + 1 + p.length := by
        simp
        omega
      have := advanceCursor_common s.filterText g u.length q (u ++ '#' :: p) p (' ' :: v)
        s.filterText.length hsplit hg (by rw [hal]) (by omega)
      rw [hal] at this
      rw [hnat, this, hg]
      simp
      omega
    have hspace : s.filterText[u.length + 1 + g.length]? = some ' ' := by
      have h4 : s.filterText = (u ++ '#' :: g) ++ ' ' :: v := ht
      have h5 : (u ++ '#' :: g).length = u.length + 1 + g.length := by
        simp
        omega
      rw [h4, ← h5]
      exact getElem?_append_cons _ _ _
    rw [hadv] at h3
    have hn : u.length + 1 + g.length - u.length - 1 = g.length := by omega
    simp only [hn, hspace, and_self, if_true] at h3
    have hdrop : s.filterText.drop cur = v := by
      rw [h3]
      have h4 : s.filterText = (u ++ '#' :: g ++ [' ']) ++ v := by
        rw [ht]
        simp
      rw [h4]
      exact drop_length_append _ _ _ (by simp; omega)
    have htu : s.filterText.take u.length = u := by
      rw [ht, List.append_assoc]
      exact take_length_append _ _ _ rfl
    rw [h2, hdrop, htu, h1]
    exact ⟨ht.symm, rfl⟩

/-- C26 (witness): "ab #ta" with the cursor at the end becomes "ab #tag ", and
"ab #tag x" with the cursor after "#ta" stays as it is. -/
theorem C26_complete_hashtag_replaces_witness :
    (onCompleteHashtag (fun _ => false) sampleEnv "tag".toList
        { Widget.init with filterText := "ab #ta".toList, cursorPosition := 6 }).filterText
      = "ab #tag ".toList
    ∧ (onCompleteHashtag (fun _ => false) sampleEnv "tag".toList
        { Widget.init with filterText := "ab #tag x".toList, cursorPosition := 6 }).filterText
      = "ab #tag x".toList :=
  ⟨((C26_complete_hashtag_replaces (fun _ => false) sampleEnv
      { Widget.init with filterText := "ab #ta".toList, cursorPosition := 6 }
      "ab ".toList "tag".toList "ta".toList "g".toList [] rfl (by decide)).1 rfl rfl).1,
    ((C26_complete_hashtag_replaces (fun _ => false) sampleEnv
      { Widget.init with filterText := "ab #tag x".toList, cursorPosition := 6 }
      "ab ".toList "tag".toList "ta".toList "g".toList "x".toList rfl (by decide)).2 rfl rfl).1⟩

/-- The member `onFilterCursorMoved` only tells the list view: apart from the log
the widget is what it was. -/
theorem onFilterCursorMoved_scope (helper : Char → Bool) (fromPos toPos : Int) (s : Widget) :
    (onFilterCursorMoved helper fromPos toPos s).scope = s.scope
    ∧ (onFilterCursorMoved helper fromPos toPos s).searchLane = s.searchLane
    ∧ (onFilterCursorMoved helper fromPos toPos s).peerLane = s.peerLane
    ∧ (onFilterCursorMoved helper fromPos toPos s).mtp = s.mtp :=
  ⟨rfl, rfl, rfl, rfl⟩

/-- The member `onCompleteHashtag` leaves the scope members. -/
theorem onCompleteHashtag_scope (helper : Char → Bool) (e : Env) (tag : QString)
    (s : Widget) : (onCompleteHashtag helper e tag s).scope = s.scope := by
  unfold onCompleteHashtag
  cases h : completeScan helper s.filterText tag s.cursorPosition.toNat
      s.cursorPosition.toNat with
  | none =>
    simp only [h]
    rw [(applyFilterUpdate_scope e _ true).1]
    rfl
  | some start =>
    simp only [h]
    rw [(applyFilterUpdate_scope e _ true).1]
    rfl

/-- What `onCompleteHashtag` makes of a reachable state is reachable: it is a
change of the filter field followed by `applyFilterUpdate(true)`. -/
theorem onCompleteHashtag_reachable (helper : Char → Bool) (e : Env) (tag : QString)
    {s : Widget} (hs : Reachable s) : Reachable (onCompleteHashtag helper e tag s) := by
  have hset : ∀ (r : QString) (c : Int),
      Reachable ({ s with filterText := r, cursorPosition := c } : Widget) := by
    intro r c
    refine Reachable.step { e with showAnimating := true } 0 (Event.filterChanged r c) hs ?_
    simp [fire, filterChanged, applyFilterUpdate]
  unfold onCompleteHashtag
  cases h : completeScan helper s.filterText tag s.cursorPosition.toNat
      s.cursorPosition.toNat with
  | none =>
    simp only [h]
    exact Reachable.step e 0 (Event.applyFilterUpdate true) (hset _ _) rfl
  | some start =>
    simp only [h]
    exact Reachable.step e 0 (Event.applyFilterUpdate true) (hset _ _) rfl

end Dialogs
